import Mathlib

/-!
# GoLilyPad proxy session engine (`server/proxy/session.go`)

A shallow embedding of the per-client session state machine: the codec
pipeline it reconfigures, the version ladder, the login and status paths,
`SetAuthenticated`, `SetCompression`, `Disconnect`, `ErrorCaught` and the
connected-phase dispatch.

Conventions of the embedding.

* A Go `string` is a Lean `String`; `len(s)` is the UTF-8 byte length (a Go
  string that is not valid UTF-8 has no counterpart here).
* A Go `[]byte` is a `List Nat` (`Bytes`).
* A Go `int` is an `Int` (only comparisons and equality are used on it).
* A Go run-time panic (nil dereference, index out of range) is the result
  `none` of a function returning `Option`.
* The session and the mutable parts of the server it touches travel together
  in a `World`; the immutable configuration and every external collaborator
  (hooks, socket, random source, RSA, identity service, router, files) are
  fields of an `Env`.
-/

namespace GoLilyPad

/-- Go `[]byte`. -/
abbrev Bytes := List Nat

/-- Go `uuid.UUID`, kept abstract as a number. -/
abbrev UUID := Nat

/-- The seven values of `SessionState`. The type is declared outside
`session.go`; the constants are the ones `session.go` names, with the two
status states and the two login states of the data model. -/
inductive SessionState
  | STATE_DISCONNECTED
  | STATE_STATUS
  | STATE_STATUS_PING
  | STATE_LOGIN
  | STATE_LOGIN_ENCRYPT
  | STATE_INIT
  | STATE_CONNECTED
  deriving DecidableEq, Repr

open SessionState

/-- Modelled from the spec: the nine `*minecraft.Version` descriptors of the
packages `v113`, `v1121`, `v112`, `v19`, `v18`, `v17`, which are not in
`session.go`. Each is a triple (Login codec, Play codec, Id map); the nine
triples are taken as nine separate objects, named after the Go variables. -/
inductive Version
  | mc113_Version01
  | mc113_Version
  | mc1121_Version02
  | mc1121_Version
  | mc112_Version
  | mc19_Version01
  | mc19_Version
  | mc18_Version
  | mc17_Version
  deriving DecidableEq, Repr

open Version

/-- The integer constants of the version packages and `minecraft.Versions`,
none of which is declared in `session.go`. They are a parameter of the
embedding. `mc17_VersionNum` is the version number of the fallback
descriptor; the ladder itself never reads it. -/
structure VersionNums where
  mc113_VersionNum01 : Int
  mc113_VersionNum : Int
  mc1121_VersionNum02 : Int
  mc1121_VersionNum : Int
  mc112_VersionNum : Int
  mc19_VersionNum01 : Int
  mc19_VersionNum : Int
  mc18_VersionNum : Int
  mc17_VersionNum : Int
  Versions : List Int

/-- The version number ("floor") attached to each descriptor. -/
def VersionNums.floor (K : VersionNums) : Version → Int
  | mc113_Version01 => K.mc113_VersionNum01
  | mc113_Version => K.mc113_VersionNum
  | mc1121_Version02 => K.mc1121_VersionNum02
  | mc1121_Version => K.mc1121_VersionNum
  | mc112_Version => K.mc112_VersionNum
  | mc19_Version01 => K.mc19_VersionNum01
  | mc19_Version => K.mc19_VersionNum
  | mc18_Version => K.mc18_VersionNum
  | mc17_Version => K.mc17_VersionNum

/-- The floors are strictly descending along the ladder, `mc17` the lowest. -/
def VersionNums.Descending (K : VersionNums) : Prop :=
  K.mc113_VersionNum01 > K.mc113_VersionNum ∧
  K.mc113_VersionNum > K.mc1121_VersionNum02 ∧
  K.mc1121_VersionNum02 > K.mc1121_VersionNum ∧
  K.mc1121_VersionNum > K.mc112_VersionNum ∧
  K.mc112_VersionNum > K.mc19_VersionNum01 ∧
  K.mc19_VersionNum01 > K.mc19_VersionNum ∧
  K.mc19_VersionNum > K.mc18_VersionNum ∧
  K.mc18_VersionNum > K.mc17_VersionNum

instance (K : VersionNums) : Decidable K.Descending := by
  unfold VersionNums.Descending
  exact inferInstance

/-- A sample table of constants: the protocol numbers of the game releases
the packages are named after (1.13.1, 1.13, 1.12.2, 1.12.1, 1.12, 1.9.1, 1.9,
1.8, 1.7.2). It is used to instantiate the general theorems; with it 47 and
340 are supported and 1 is not, as in the scenarios of the specification. -/
def sampleNums : VersionNums where
  mc113_VersionNum01 := 401
  mc113_VersionNum := 393
  mc1121_VersionNum02 := 340
  mc1121_VersionNum := 338
  mc112_VersionNum := 335
  mc19_VersionNum01 := 108
  mc19_VersionNum := 107
  mc18_VersionNum := 47
  mc17_VersionNum := 4
  Versions := [401, 393, 340, 338, 335, 316, 315, 210, 110, 109, 108, 107, 47, 5, 4]

/-- The ladder of `handlePacket`, lines 301-319: the descriptor assigned to
`this.protocol` for an advertised `protocolVersion`. -/
def versionLadder (K : VersionNums) (protocolVersion : Int) : Version :=
  if protocolVersion ≥ K.mc113_VersionNum01 then mc113_Version01
  else if protocolVersion ≥ K.mc113_VersionNum then mc113_Version
  else if protocolVersion ≥ K.mc1121_VersionNum02 then mc1121_Version02
  else if protocolVersion ≥ K.mc1121_VersionNum then mc1121_Version
  else if protocolVersion ≥ K.mc112_VersionNum then mc112_Version
  else if protocolVersion ≥ K.mc19_VersionNum01 then mc19_Version01
  else if protocolVersion ≥ K.mc19_VersionNum then mc19_Version
  else if protocolVersion ≥ K.mc18_VersionNum then mc18_Version
  else mc17_Version

/-- The loop of `handlePacket`, lines 282-289, over `minecraft.Versions`. -/
def supportedVersion (K : VersionNums) (protocolVersion : Int) : Bool :=
  K.Versions.any (fun version => version == protocolVersion)

/-! ## Codec pipeline -/

/-- Codec objects, compared by identity in `session.go`. `LoginServerCodec v`
and `PlayServerCodec v` are the two codec fields of the descriptor `v`;
`mc18.PlayPacketServerCodec` and `mc17.PlayPacketServerCodec` are the play
codecs of the two oldest descriptors. -/
inductive Codec
  | VarIntLength
  | Cfb8 (sharedSecret : Bytes)
  | Zlib (threshold : Int)
  | HandshakePacketServerCodec
  | StatusPacketServerCodec
  | LoginServerCodec (v : Version)
  | PlayServerCodec (v : Version)
  deriving DecidableEq, Repr

/-- A named stage of the pipeline. -/
abbrev Stage := String × Codec

/-- Modelled from the spec: `packet.PacketPipeline`, which is not in
`session.go`: an ordered, name-keyed chain of codec stages. -/
abbrev PacketPipeline := List Stage

namespace PacketPipeline

/-- Modelled from the spec: `has(name)`. -/
def HasName (p : PacketPipeline) (name : String) : Bool :=
  p.any (fun st => st.1 == name)

/-- Modelled from the spec: `get(name)`, the codec of the stage `name`,
`none` (Go `nil`) when there is no such stage. -/
def Get : PacketPipeline → String → Option Codec
  | [], _ => none
  | st :: rest, name => if st.1 == name then some st.2 else Get rest name

/-- Modelled from the spec: `add_last(name, codec)`; fails (`none`) when
inserting a duplicate name. -/
def AddLast (p : PacketPipeline) (name : String) (codec : Codec) : Option PacketPipeline :=
  if p.HasName name then none else some (p ++ [(name, codec)])

/-- Insertion of a stage just before the first stage called `pivot`. -/
def insertBefore : PacketPipeline → String → Stage → PacketPipeline
  | [], _, _ => []
  | st :: rest, pivot, new =>
    if st.1 == pivot then new :: st :: rest else st :: insertBefore rest pivot new

/-- Modelled from the spec: `add_before(new_name, pivot_name, codec)`; fails
when the pivot is missing or the new name is a duplicate. -/
def AddBefore (p : PacketPipeline) (name before : String) (codec : Codec) :
    Option PacketPipeline :=
  if p.HasName name || !p.HasName before then none
  else some (insertBefore p before (name, codec))

/-- Replacement of the codec of the first stage called `name`. -/
def replaceFirst : PacketPipeline → String → Codec → PacketPipeline
  | [], _, _ => []
  | st :: rest, name, codec =>
    if st.1 == name then (name, codec) :: rest else st :: replaceFirst rest name codec

/-- Modelled from the spec: `replace(name, codec)`; fails on a missing name. -/
def Replace (p : PacketPipeline) (name : String) (codec : Codec) : Option PacketPipeline :=
  if p.HasName name then some (replaceFirst p name codec) else none

/-- Removal of the first stage called `name`. -/
def removeFirst : PacketPipeline → String → PacketPipeline
  | [], _ => []
  | st :: rest, name => if st.1 == name then rest else st :: removeFirst rest name

/-- Modelled from the spec: `remove(name)`; fails on a missing name. -/
def Remove (p : PacketPipeline) (name : String) : Option PacketPipeline :=
  if p.HasName name then some (removeFirst p name) else none

/-- The stage names, in order. -/
def names (p : PacketPipeline) : List String := p.map Prod.fst

end PacketPipeline

/-- What `session.go` does with a pipeline operation: none of its calls
reads a result, so a failed operation leaves the pipeline as it was. -/
def orKeep (p : PacketPipeline) (r : Option PacketPipeline) : PacketPipeline :=
  r.getD p

/-! ## Packets -/

/-- Packets read from the client and given to `handlePacket`. The last
constructor stands for every packet type `session.go` does not name. -/
inductive Packet
  | PacketServerHandshake (ProtocolVersion : Int) (ServerAddress : String)
      (ServerPort : Nat) (State : Int)
  | PacketServerStatusRequest
  | PacketServerStatusPing (Time : Int)
  | PacketServerLoginStart (Name : String)
  | PacketServerLoginEncryptResponse (SharedSecret : Bytes) (VerifyToken : Bytes)
  | PacketServerClientSettings (payload : Bytes)
  | PacketServerPluginMessage (Channel : String) (Data : Bytes)
  | PacketGeneric (id : Int) (payload : Bytes)
  | PacketOther (id : Int) (payload : Bytes)
  deriving DecidableEq, Repr

/-- One entry of the player sample of the status answer. -/
structure SampleEntry where
  name : String
  id : String
  deriving DecidableEq, Repr

/-- The status answer assembled in `STATE_STATUS` (the `response` map that is
marshalled to JSON), kept as a record of its fields. -/
structure StatusResponse where
  versionName : String
  versionProtocol : Int
  playersMax : Int
  playersOnline : Int
  playersSample : List SampleEntry
  descriptionText : String
  favicon : Option String
  modinfoType : String
  modinfoModList : List String
  deriving DecidableEq, Repr

/-- Packets the session writes to the client. `idMap` is the descriptor whose
`IdMap` the packet was built with. -/
inductive ClientPacket
  | PacketClientStatusResponse (json : StatusResponse)
  | PacketClientStatusPing (Time : Int)
  | PacketClientLoginEncryptRequest (idMap : Version) (serverId : String)
      (publicKey : Bytes) (verifyToken : Bytes)
  | PacketClientLoginSetCompression (idMap : Version) (threshold : Int)
  | PacketClientSetCompression (idMap : Version) (threshold : Int)
  | PacketClientLoginSuccess (idMap : Version) (uuid : String) (name : String)
  | PacketClientLoginDisconnect (idMap : Version) (json : String)
  | PacketClientDisconnect (idMap : Version) (json : String)
  deriving DecidableEq, Repr

/-! ## Collaborators -/

/-- Go `auth.GameProfile`. -/
structure GameProfile where
  Id : String
  Properties : List String
  deriving DecidableEq, Repr

/-- Go `connect.Server`. -/
structure Server where
  Name : String
  Addr : String
  deriving DecidableEq, Repr

/-- An entry of the Session Registry or of the local-player set. `sid` is the
identity of the session the entry was made for. -/
structure PlayerEntry where
  sid : Nat
  name : String
  uuid : UUID
  deriving DecidableEq, Repr

/-- Modelled from the spec: the Session Registry (`server.SessionRegistry`),
which is not in `session.go`: the registered sessions, looked up by name and
by uuid. -/
abbrev SessionRegistry := List PlayerEntry

namespace SessionRegistry

/-- Modelled from the spec: the registry holds this name. -/
def HasName (r : SessionRegistry) (name : String) : Bool :=
  r.any (fun e => e.name == name)

/-- Modelled from the spec: the registry holds this uuid. -/
def HasUuid (r : SessionRegistry) (uuid : UUID) : Bool :=
  r.any (fun e => e.uuid == uuid)

/-- Modelled from the spec: number of registered sessions. -/
def Len (r : SessionRegistry) : Int := r.length

/-- Modelled from the spec: register a session. -/
def Register (r : SessionRegistry) (e : PlayerEntry) : SessionRegistry := r ++ [e]

/-- Modelled from the spec: remove a session from the registry. -/
def Unregister (r : SessionRegistry) (sid : Nat) : SessionRegistry :=
  r.filter (fun e => e.sid != sid)

end SessionRegistry

/-- A call made to the Connect Directory. -/
inductive ConnectCall
  | AddLocalPlayer (name : String) (uuid : UUID)
  | RemoveLocalPlayer (name : String) (uuid : UUID)
  deriving DecidableEq, Repr

/-- Modelled from the spec: the Connect Directory (`server.connect`), which
is not in `session.go`: the known back-end servers, the local-player set, the
players known from elsewhere in the network, the network-wide cap, and the
list of calls received (a record kept for the statements, not Go state). -/
structure ProxyConnect where
  servers : List Server
  localPlayers : List PlayerEntry
  networkPlayers : Nat
  maxPlayers : Int
  calls : List ConnectCall
  deriving DecidableEq, Repr

namespace ProxyConnect

/-- Modelled from the spec: `has_server`. -/
def HasServer (c : ProxyConnect) (name : String) : Bool :=
  c.servers.any (fun s => s.Name == name)

/-- Modelled from the spec: `get_server`, `none` for Go `nil`. -/
def Server (c : ProxyConnect) (name : String) : Option GoLilyPad.Server :=
  c.servers.find? (fun s => s.Name == name)

/-- Modelled from the spec: `add_local_player(name, uuid)` with its
tri-valued result: 1 on success, 0 or -1 when the player is already present
(by name, by uuid). -/
def AddLocalPlayer (c : ProxyConnect) (sid : Nat) (name : String) (uuid : UUID) :
    ProxyConnect × Int :=
  let c := { c with calls := c.calls ++ [ConnectCall.AddLocalPlayer name uuid] }
  if c.localPlayers.any (fun e => e.name == name) then (c, 0)
  else if c.localPlayers.any (fun e => e.uuid == uuid) then (c, -1)
  else ({ c with localPlayers := c.localPlayers ++ [⟨sid, name, uuid⟩] }, 1)

/-- Modelled from the spec: `remove_local_player(name, uuid)`. -/
def RemoveLocalPlayer (c : ProxyConnect) (name : String) (uuid : UUID) : ProxyConnect :=
  { c with
    calls := c.calls ++ [ConnectCall.RemoveLocalPlayer name uuid]
    localPlayers := c.localPlayers.filter (fun e => !(e.name == name && e.uuid == uuid)) }

/-- Modelled from the spec: `max_players`. -/
def MaxPlayers (c : ProxyConnect) : Int := c.maxPlayers

/-- Modelled from the spec: `player_count`. -/
def Players (c : ProxyConnect) : Int := c.localPlayers.length + c.networkPlayers

end ProxyConnect

/-- The immutable surroundings of a session: package constants, server
configuration, localizer, router, and the outcome of every call that leaves
the process or the package (hook vetoes, socket writes, dialling, random
source, RSA, identity service, files, JSON and UUID helpers). -/
structure Env where
  K : VersionNums
  STRING_VERSION : String
  Authenticate : Bool
  MaxPlayers : Int
  SyncMaxPlayers : Bool
  publicKey : Bytes
  LocaleLoggedIn : String
  LocaleFull : String
  LocaleOffline : String
  Colorize : String → String
  Route : String → List String
  RouteSample : String → String
  RouteIcons : String → List String
  RouteMotds : String → List String
  sessionOpenCancelled : Bool
  sessionRedirectCancelled : Server → Bool
  packetWriteCancelled : ClientPacket → Bool
  packetReadCancelled : Packet → Bool
  connWrite : ClientPacket → Option String
  Dial : String → Bool
  RandomInt : Nat → Nat
  GenSalt : String × Option String
  RandomBytes : Nat → Bytes × Option String
  DecryptPKCS1v15 : Bytes → Except String Bytes
  NewPacketCodecCfb8 : Bytes → Option String
  AuthAuthenticate : String → String → Bytes → Bytes → GameProfile × Option String
  FormatUUID : String → String
  uuidFromString : String → UUID
  GenNameUUID : String → String
  jsonMarshal : String → String
  ReadFile : String → Option String
  base64 : String → String
  SwapEntities : Int → Int → Bool → Int → Bytes → Bytes

/-! ## Session and world -/

/-- The out bridge of a session: the packets handed to its `Write`. -/
structure SessionOutBridge where
  server : Server
  written : List Packet
  deriving DecidableEq, Repr

/-- Go `Session`. `server`, `conn`, `connCodec` and the mutexes are not fields
here: the server is in `Env` and `World`, the socket in `World`. `sid` is the
identity of the session object. -/
structure Session where
  sid : Nat
  pipeline : PacketPipeline
  outBridge : Option SessionOutBridge
  compressionThreshold : Int
  active : Bool
  activeServers : List String
  redirecting : Bool
  protocol : Option Version
  protocolVersion : Int
  serverAddress : String
  rawServerAddress : String
  name : String
  uuid : UUID
  profile : GameProfile
  serverId : String
  verifyToken : Bytes
  mcBrand : Option Packet
  clientSettings : Option Packet
  clientEntityId : Int
  serverEntityId : Int
  pluginChannels : List Bytes
  playerList : List String
  scoreboards : List String
  teams : List String
  bossBars : List String
  remoteIp : String
  remotePort : String
  state : SessionState
  deriving DecidableEq, Repr

/-- The session events of the event bus. -/
inductive Event
  | sessionOpen
  | sessionRedirect (init : Bool) (serverName : String) (serverAddr : String)
  | sessionState (state : SessionState)
  | sessionClose
  deriving DecidableEq, Repr

/-- A fired session event together with what its hooks can see of the server
at that moment: the Session Registry and the local-player set. -/
structure Fired where
  event : Event
  registry : SessionRegistry
  localPlayers : List PlayerEntry
  deriving DecidableEq, Repr

/-- The session together with everything of the server and the socket that
its methods change. `written` lists the packets handed to `Session.Write`,
`wire` those that `connCodec.Write` accepted, `connCloses` counts
`conn.Close()`, `connTimeout` is the read timeout in seconds, `events` the
session events fired so far, `bridgesServed` the out bridges started by
`Redirect`. -/
structure World where
  session : Session
  registry : SessionRegistry
  connect : ProxyConnect
  written : List ClientPacket
  wire : List ClientPacket
  connCloses : Nat
  connTimeout : Nat
  events : List Fired
  bridgesServed : List Server
  deriving DecidableEq, Repr

/-! ## String and byte helpers of the Go standard library -/

/-- Go `len(s)` of a string: its length in bytes. -/
def len (s : String) : Nat := s.utf8ByteSize

/-- The character class `[a-zA-Z0-9_]`. -/
def nameChar (c : Char) : Bool :=
  ('a' ≤ c && c ≤ 'z') || ('A' ≤ c && c ≤ 'Z') || ('0' ≤ c && c ≤ '9') || c == '_'

/-- The call `regexp.MatchString("^[a-zA-Z0-9_]+$", s)`: the whole text is
one or more characters of the class (in Go `$` without flags is the end of
the text). -/
def MatchString_name (s : String) : Bool :=
  !s.data.isEmpty && s.data.all nameChar

/-- Go `bytes.Split(s, sep)` and `strings.Split(s, sep)` for a separator of
one element: the pieces between the separators, always at least one piece. -/
def Split {α : Type} [BEq α] (sep : α) : List α → List (List α)
  | [] => [[]]
  | c :: cs =>
    if c == sep then [] :: Split sep cs
    else
      match Split sep cs with
      | [] => [[c]]
      | piece :: pieces => (c :: piece) :: pieces

/-- Lines 275-281 of `handlePacket`: the routing form of the handshake
address, cut at the first NUL (`strings.Index`), then without one trailing
dot (`strings.TrimSuffix`). -/
def routingAddress (rawServerAddress : String) : String :=
  let raw := rawServerAddress.data
  let serverAddress :=
    match raw.indexOf? (Char.ofNat 0) with
    | none => raw
    | some idx => raw.take idx
  let serverAddress :=
    if serverAddress.getLast? == some '.' then serverAddress.dropLast else serverAddress
  String.mk serverAddress

/-- Go `unicode.IsSpace`, the characters `strings.TrimSpace` removes. -/
def isSpace (c : Char) : Bool :=
  c == '\t' || c == '\n' || c.toNat == 11 || c.toNat == 12 || c == '\r' || c == ' ' ||
  c.toNat == 0x85 || c.toNat == 0xA0 || c.toNat == 0x1680 ||
  (0x2000 ≤ c.toNat && c.toNat ≤ 0x200a) || c.toNat == 0x2028 || c.toNat == 0x2029 ||
  c.toNat == 0x202f || c.toNat == 0x205f || c.toNat == 0x3000

/-- Lines 336-346 of `handlePacket`: the sample entries of a sample file. -/
def sampleEntries (colorize : String → String) (sampleTxt : String) : List SampleEntry :=
  (Split '\n' sampleTxt.data).filterMap (fun line =>
    let line := line.filter (fun c => c != '\r')
    if line.all isSpace then none
    else some ⟨colorize (String.mk line), "00000000-0000-0000-0000-000000000000"⟩)

/-! ## Session methods -/

/-- The event bus call `fireEventSession`: the event is recorded with what its
hooks can see. -/
def fireEventSession (event : Event) (w : World) : World :=
  { w with events := w.events ++ [⟨event, w.registry, w.connect.localPlayers⟩] }

/-- Go `conn.Close()`. -/
def connClose (w : World) : World :=
  { w with connCloses := w.connCloses + 1 }

/-- Go `NewSession` (lines 73-90); the pipeline is still unset. -/
def NewSession (sid : Nat) (remoteIp remotePort : String) : Session where
  sid := sid
  pipeline := []
  outBridge := none
  compressionThreshold := -1
  active := true
  activeServers := []
  redirecting := false
  protocol := none
  protocolVersion := 0
  serverAddress := ""
  rawServerAddress := ""
  name := ""
  uuid := 0
  profile := ⟨"", []⟩
  serverId := ""
  verifyToken := []
  mcBrand := none
  clientSettings := none
  clientEntityId := 0
  serverEntityId := 0
  pluginChannels := []
  playerList := []
  scoreboards := []
  teams := []
  bossBars := []
  remoteIp := remoteIp
  remotePort := remotePort
  state := STATE_DISCONNECTED

/-- The world of a session just accepted on a server with the given registry
and directory. -/
def newWorld (sid : Nat) (remoteIp remotePort : String) (registry : SessionRegistry)
    (connect : ProxyConnect) : World where
  session := NewSession sid remoteIp remotePort
  registry := registry
  connect := connect
  written := []
  wire := []
  connCloses := 0
  connTimeout := 0
  events := []
  bridgesServed := []

/-- Go `Session.Serve` (lines 92-107) up to the start of the read loop. -/
def Serve (E : Env) (w : World) : World :=
  let pipeline : PacketPipeline := []
  let pipeline := orKeep pipeline (pipeline.AddLast "varIntLength" Codec.VarIntLength)
  let pipeline := orKeep pipeline (pipeline.AddLast "registry" Codec.HandshakePacketServerCodec)
  let w := { w with session.pipeline := pipeline, connTimeout := 20 }
  let w := fireEventSession Event.sessionOpen w
  if E.sessionOpenCancelled then connClose w else w

/-- Go `Session.Write` (lines 109-120). -/
def Write (E : Env) (packet : ClientPacket) (w : World) : World × Option String :=
  let w := { w with written := w.written ++ [packet] }
  if E.packetWriteCancelled packet then (w, none)
  else
    match E.connWrite packet with
    | some err => (w, some err)
    | none => ({ w with wire := w.wire ++ [packet] }, none)

/-- Go `Session.Authenticated` (lines 556-559). -/
def Authenticated (s : Session) : Bool :=
  s.state == STATE_INIT || s.state == STATE_CONNECTED

/-- Go `Session.Initializing` (lines 561-564). -/
def Initializing (s : Session) : Bool :=
  s.state == STATE_INIT

/-- Go `Session.SetState` (lines 537-545). -/
def SetState (state : SessionState) (w : World) : World :=
  let w := { w with session.state := state }
  fireEventSession (Event.sessionState w.session.state) w

/-- Go `Session.DisconnectJson` (lines 244-254). -/
def DisconnectJson (E : Env) (json : String) (w : World) : World :=
  let w :=
    match w.session.protocol with
    | some protocol =>
      let registry := w.session.pipeline.Get "registry"
      if registry == some (Codec.LoginServerCodec protocol) then
        (Write E (ClientPacket.PacketClientLoginDisconnect protocol json) w).1
      else if registry == some (Codec.PlayServerCodec protocol) then
        (Write E (ClientPacket.PacketClientDisconnect protocol json) w).1
      else w
    | none => w
  connClose w

/-- Go `Session.Disconnect` (lines 239-242). -/
def Disconnect (E : Env) (reason : String) (w : World) : World :=
  let reasonJson := E.jsonMarshal reason
  DisconnectJson E ("\x7b\"text\":" ++ reasonJson ++ "\x7d") w

/-- Go `Session.Redirect` (lines 122-144). Modelled from the spec: starting
the out bridge (`NewSessionOutBridge(...).Serve()`, not in `session.go`) is
recorded in `bridgesServed`. -/
def Redirect (E : Env) (server : Server) (w : World) : World :=
  let w := fireEventSession
    (Event.sessionRedirect (w.session.state == STATE_INIT) server.Name server.Addr) w
  if E.sessionRedirectCancelled server then w
  else if !E.Dial server.Addr then
    if Initializing w.session then Disconnect E "Error: Outbound Connection Mismatch" w
    else w
  else { w with bridgesServed := w.bridgesServed ++ [server] }

/-- Go `Session.SetEncryption` (lines 205-212). -/
def SetEncryption (E : Env) (sharedSecret : Bytes) (w : World) : World × Option String :=
  match E.NewPacketCodecCfb8 sharedSecret with
  | some err => (w, some err)
  | none =>
    let pipeline := orKeep w.session.pipeline
      (w.session.pipeline.AddBefore "cfb8" "varIntLength" (Codec.Cfb8 sharedSecret))
    ({ w with session.pipeline := pipeline }, none)

/-- Go `Session.SetCompression` (lines 214-237). The result is `none` when
`this.protocol` is nil at line 220. -/
def SetCompression (E : Env) (threshold : Int) (w : World) : Option World :=
  if w.session.compressionThreshold == threshold then some w
  else
    let w := { w with session.compressionThreshold := threshold }
    let registry := w.session.pipeline.Get "registry"
    match w.session.protocol with
    | none => none
    | some protocol =>
      let w :=
        if registry == some (Codec.LoginServerCodec protocol) then
          (Write E (ClientPacket.PacketClientLoginSetCompression protocol threshold) w).1
        else if registry == some (Codec.PlayServerCodec mc18_Version)
            || registry == some (Codec.PlayServerCodec mc17_Version) then
          (Write E (ClientPacket.PacketClientSetCompression protocol threshold) w).1
        else w
      if threshold == -1 then
        let pipeline := orKeep w.session.pipeline (w.session.pipeline.Remove "zlib")
        some { w with session.pipeline := pipeline }
      else
        let codec := Codec.Zlib threshold
        if w.session.pipeline.HasName "zlib" then
          let pipeline := orKeep w.session.pipeline (w.session.pipeline.Replace "zlib" codec)
          some { w with session.pipeline := pipeline }
        else
          let pipeline := orKeep w.session.pipeline
            (w.session.pipeline.AddBefore "zlib" "registry" codec)
          some { w with session.pipeline := pipeline }

/-- Lines 190-202 of `SetAuthenticated`, run once the player is in the
local-player set: the move to `STATE_INIT`, compression, `LoginSuccess`, the
play registry, registration and the redirect. The result is `none` when
`this.protocol` is nil. -/
def SetAuthenticated_enter (E : Env) (server : Server) (w : World) : Option World :=
  let w := SetState STATE_INIT w
  let compressed :=
    if w.session.protocolVersion ≥ E.K.mc19_VersionNum then SetCompression E 256 w
    else some w
  match compressed with
  | none => none
  | some w =>
    match w.session.protocol with
    | none => none
    | some protocol =>
      let w :=
        if w.session.protocolVersion ≥ 5 then
          (Write E (ClientPacket.PacketClientLoginSuccess protocol
            (E.FormatUUID w.session.profile.Id) w.session.name) w).1
        else
          (Write E (ClientPacket.PacketClientLoginSuccess protocol
            w.session.profile.Id w.session.name) w).1
      let pipeline := orKeep w.session.pipeline
        (w.session.pipeline.Replace "registry" (Codec.PlayServerCodec protocol))
      let w := { w with session.pipeline := pipeline }
      let w := { w with connTimeout := 20 }
      let entry : PlayerEntry := ⟨w.session.sid, w.session.name, w.session.uuid⟩
      let w := { w with registry := w.registry.Register entry }
      some (Redirect E server w)

/-- Lines 164-189 of `SetAuthenticated`: the choice of a back-end and the call
of `AddLocalPlayer`, followed by lines 190-202. The result is `none` on an
index out of range at line 176. -/
def SetAuthenticated_route (E : Env) (w : World) : Option World :=
  let servers := E.Route w.session.serverAddress
  let activeServers := servers.filter (fun serverName => w.connect.HasServer serverName)
  if activeServers.length == 0 then
    some (Disconnect E (E.Colorize E.LocaleOffline) w)
  else
    match activeServers[E.RandomInt activeServers.length]? with
    | none => none
    | some serverName =>
      match w.connect.Server serverName with
      | none => some (Disconnect E ("Error: Outbound Server Mismatch: " ++ serverName) w)
      | some server =>
        let added := w.connect.AddLocalPlayer w.session.sid w.session.name w.session.uuid
        let w := { w with connect := added.1 }
        let addResult := added.2
        if addResult == 0 then
          some (Disconnect E (E.Colorize E.LocaleLoggedIn) w)
        else if addResult == -1 then
          some (Disconnect E (E.Colorize E.LocaleLoggedIn) w)
        else SetAuthenticated_enter E server w

/-- Go `Session.SetAuthenticated` (lines 146-203); its lines 164-202 are the
two functions above. -/
def SetAuthenticated (E : Env) (result : Bool) (w : World) : Option World :=
  if !result then
    some (Disconnect E "Error: Authentication to Minecraft.net Failed" w)
  else
    let w := { w with session.uuid := E.uuidFromString (E.FormatUUID w.session.profile.Id) }
    if w.registry.HasName w.session.name then
      some (Disconnect E (E.Colorize E.LocaleLoggedIn) w)
    else if w.registry.HasUuid w.session.uuid then
      some (Disconnect E (E.Colorize E.LocaleLoggedIn) w)
    else if E.MaxPlayers > 1 && w.registry.Len ≥ E.MaxPlayers then
      some (Disconnect E (E.Colorize E.LocaleFull) w)
    else SetAuthenticated_route E w

/-- The result of `handlePacket`: the world afterwards and the returned
error (`none` for Go `nil`). -/
abbrev Handled := World × Option String

/-- Case `STATE_DISCONNECTED` of `handlePacket` (lines 271-329). The result is
`none` when `minecraft.Versions[0]` is out of range at line 292. -/
def handleDisconnected (E : Env) (packet : Packet) (w : World) : Option Handled :=
  match packet with
  | Packet.PacketServerHandshake ProtocolVersion ServerAddress _ State =>
    let w := { w with session.protocolVersion := ProtocolVersion }
    let w := { w with session.rawServerAddress := ServerAddress }
    let w := { w with session.serverAddress := routingAddress w.session.rawServerAddress }
    let supportedVersion := supportedVersion E.K w.session.protocolVersion
    if State == 1 then
      let protocolVersion :=
        if !supportedVersion then E.K.Versions[0]? else some w.session.protocolVersion
      match protocolVersion with
      | none => none
      | some protocolVersion =>
        let w := { w with session.protocolVersion := protocolVersion }
        let pipeline := orKeep w.session.pipeline
          (w.session.pipeline.Replace "registry" Codec.StatusPacketServerCodec)
        let w := { w with session.pipeline := pipeline }
        some (SetState STATE_STATUS w, none)
    else if State == 2 then
      if !supportedVersion then
        some (w, some ("Protocol version does not match: " ++ toString w.session.protocolVersion))
      else
        let protocol := versionLadder E.K w.session.protocolVersion
        let w := { w with session.protocol := some protocol }
        let pipeline := orKeep w.session.pipeline
          (w.session.pipeline.Replace "registry" (Codec.LoginServerCodec protocol))
        let w := { w with session.pipeline := pipeline }
        some (SetState STATE_LOGIN w, none)
    else some (w, some "Unexpected state")
  | _ => some (w, some "Unexpected packet: handshake expected")

/-- Case `STATE_STATUS` of `handlePacket` (lines 330-396). The result is
`none` when the icon or motd list is indexed out of range (lines 349, 368).
`json.Marshal` of the response map does not fail. -/
def handleStatus (E : Env) (packet : Packet) (w : World) : Option Handled :=
  match packet with
  | Packet.PacketServerStatusRequest =>
    let samplePath := E.RouteSample w.session.serverAddress
    let sample :=
      match E.ReadFile samplePath with
      | some sampleTxt => sampleEntries E.Colorize sampleTxt
      | none => []
    let icons := E.RouteIcons w.session.serverAddress
    match icons[E.RandomInt icons.length]? with
    | none => none
    | some iconPath =>
      let iconString :=
        match E.ReadFile iconPath with
        | some icon => "data:image/png;base64," ++ E.base64 icon
        | none => ""
      let playersMax := if E.SyncMaxPlayers then w.connect.MaxPlayers else E.MaxPlayers
      let motds := E.RouteMotds w.session.serverAddress
      match motds[E.RandomInt motds.length]? with
      | none => none
      | some motd =>
        let response : StatusResponse :=
          { versionName := E.STRING_VERSION
            versionProtocol := w.session.protocolVersion
            playersMax := playersMax
            playersOnline := w.connect.Players
            playersSample := sample
            descriptionText := E.Colorize motd
            favicon := if iconString != "" then some iconString else none
            modinfoType := "FML"
            modinfoModList := [] }
        let r := Write E (ClientPacket.PacketClientStatusResponse response) w
        if r.2.isSome then some r
        else some (SetState STATE_STATUS_PING r.1, none)
  | _ => some (w, some "Unexpected packet: status request expected")

/-- Case `STATE_STATUS_PING` of `handlePacket` (lines 397-407). -/
def handleStatusPing (E : Env) (packet : Packet) (w : World) : Option Handled :=
  match packet with
  | Packet.PacketServerStatusPing Time =>
    let r := Write E (ClientPacket.PacketClientStatusPing Time) w
    if r.2.isSome then some r
    else some (connClose r.1, none)
  | _ => some (w, some "Unexpected packet: status ping expected")

/-- Case `STATE_LOGIN` of `handlePacket` (lines 408-443). The result is `none`
when `this.protocol` is nil at line 428, or when `SetAuthenticated` panics. -/
def handleLogin (E : Env) (packet : Packet) (w : World) : Option Handled :=
  match packet with
  | Packet.PacketServerLoginStart Name =>
    let w := { w with session.name := Name }
    if len w.session.name > 16 then
      some (w, some "Unexpected name: length is more than 16")
    else if !MatchString_name w.session.name then
      some (w, some "Unexpected name: pattern mismatch")
    else if E.Authenticate then
      let w := { w with session.serverId := E.GenSalt.1 }
      if E.GenSalt.2.isSome then some (w, E.GenSalt.2)
      else
        let w := { w with session.verifyToken := (E.RandomBytes 4).1 }
        if (E.RandomBytes 4).2.isSome then some (w, (E.RandomBytes 4).2)
        else
          match w.session.protocol with
          | none => none
          | some protocol =>
            let r := Write E (ClientPacket.PacketClientLoginEncryptRequest protocol
              w.session.serverId E.publicKey w.session.verifyToken) w
            if r.2.isSome then some r
            else some (SetState STATE_LOGIN_ENCRYPT r.1, none)
    else
      let profile : GameProfile := ⟨E.GenNameUUID ("OfflinePlayer:" ++ w.session.name), []⟩
      let w := { w with session.profile := profile }
      match SetAuthenticated E true w with
      | none => none
      | some w => some (w, none)
  | _ => some (w, some "Unexpected packet: login start expected")

/-- Case `STATE_LOGIN_ENCRYPT` of `handlePacket` (lines 444-476). -/
def handleLoginEncrypt (E : Env) (packet : Packet) (w : World) : Option Handled :=
  match packet with
  | Packet.PacketServerLoginEncryptResponse SharedSecret VerifyToken =>
    match E.DecryptPKCS1v15 SharedSecret with
    | Except.error err => some (w, some err)
    | Except.ok sharedSecret =>
      match E.DecryptPKCS1v15 VerifyToken with
      | Except.error err => some (w, some err)
      | Except.ok verifyToken =>
        if w.session.verifyToken != verifyToken then
          some (w, some "Verify token does not match")
        else
          let r := SetEncryption E sharedSecret w
          if r.2.isSome then some r
          else
            let w := r.1
            let authed := E.AuthAuthenticate w.session.name w.session.serverId sharedSecret
              E.publicKey
            let w := { w with session.profile := authed.1 }
            let authenticated :=
              if authed.2.isSome then SetAuthenticated E false w
              else SetAuthenticated E true w
            match authenticated with
            | none => none
            | some w => some (w, none)
  | _ => some (w, some "Unexpected packet: login encrypt expected")

/-- The loop of lines 486-495: the channels of a REGISTER batch are added to
the set one by one, skipping those present and stopping at 128. -/
def registerChannels : List Bytes → List Bytes → List Bytes
  | [], pluginChannels => pluginChannels
  | channel :: rest, pluginChannels =>
    if pluginChannels.contains channel then registerChannels rest pluginChannels
    else if pluginChannels.length ≥ 128 then pluginChannels
    else registerChannels rest (pluginChannels ++ [channel])

/-- The loop of lines 497-500: the channels of an UNREGISTER batch are
deleted from the set. -/
def unregisterChannels : List Bytes → List Bytes → List Bytes
  | [], pluginChannels => pluginChannels
  | channel :: rest, pluginChannels =>
    unregisterChannels rest (pluginChannels.filter (fun c => c != channel))

/-- Lines 505-511 of `handlePacket`: forwarding to the out bridge unless a
redirect is in progress. The result is `none` when there is no out bridge. -/
def forward (E : Env) (packet : Packet) (w : World) : Option Handled :=
  if w.session.redirecting then some (w, none)
  else
    let packet :=
      match packet with
      | Packet.PacketGeneric id payload =>
        Packet.PacketGeneric id
          (E.SwapEntities w.session.clientEntityId w.session.serverEntityId false id payload)
      | other => other
    match w.session.outBridge with
    | none => none
    | some outBridge =>
      let outBridge := { outBridge with written := outBridge.written ++ [packet] }
      some ({ w with session.outBridge := some outBridge }, none)

/-- Case `STATE_CONNECTED` of `handlePacket` (lines 477-512). The `break` of
line 484 leaves the `switch`, so nothing is forwarded then. -/
def handleConnected (E : Env) (packet : Packet) (w : World) : Option Handled :=
  match packet with
  | Packet.PacketServerClientSettings _ =>
    forward E packet { w with session.clientSettings := some packet }
  | Packet.PacketServerPluginMessage Channel Data =>
    if Channel == "REGISTER" then
      let channelBytesSplit := Split 0 Data
      if channelBytesSplit.length ≥ 128 || w.session.pluginChannels.length ≥ 128 then
        some (w, none)
      else
        let pluginChannels := registerChannels channelBytesSplit w.session.pluginChannels
        forward E packet { w with session.pluginChannels := pluginChannels }
    else if Channel == "UNREGISTER" then
      let pluginChannels := unregisterChannels (Split 0 Data) w.session.pluginChannels
      forward E packet { w with session.pluginChannels := pluginChannels }
    else if Channel == "MC|Brand" then
      forward E packet { w with session.mcBrand := some packet }
    else forward E packet w
  | _ => forward E packet w

/-- Go `Session.handlePacket` (lines 269-514). `STATE_INIT` has no case in the
`switch`. -/
def handlePacket (E : Env) (packet : Packet) (w : World) : Option Handled :=
  match w.session.state with
  | STATE_DISCONNECTED => handleDisconnected E packet w
  | STATE_STATUS => handleStatus E packet w
  | STATE_STATUS_PING => handleStatusPing E packet w
  | STATE_LOGIN => handleLogin E packet w
  | STATE_LOGIN_ENCRYPT => handleLoginEncrypt E packet w
  | STATE_INIT => some (w, none)
  | STATE_CONNECTED => handleConnected E packet w

/-- Go `Session.HandlePacket` (lines 256-267). -/
def HandlePacket (E : Env) (packet : Packet) (w : World) : Option Handled :=
  if E.packetReadCancelled packet then some (w, none)
  else handlePacket E packet w

/-- Go `Session.ErrorCaught` (lines 516-535). -/
def ErrorCaught (_err : String) (w : World) : World :=
  let w :=
    if Authenticated w.session then
      let connect := w.connect.RemoveLocalPlayer w.session.name w.session.uuid
      let w := { w with connect := connect }
      { w with registry := w.registry.Unregister w.session.sid }
    else w
  let w := SetState STATE_DISCONNECTED w
  let w := connClose w
  fireEventSession Event.sessionClose w

/-! ## A sample environment -/

/-- A sample environment: authentication on, a cap of 100 players, one
back-end route, no hook veto, a socket that accepts every write, a
reachable back-end, an RSA stand-in that returns its input, and an identity
service that accepts everybody. -/
def sampleEnv : Env where
  K := sampleNums
  STRING_VERSION := "1.7.x-1.13.x"
  Authenticate := true
  MaxPlayers := 100
  SyncMaxPlayers := false
  publicKey := [48, 129, 159]
  LocaleLoggedIn := "&cYou are already logged in"
  LocaleFull := "&cThe server is full"
  LocaleOffline := "&cThe server is offline"
  Colorize := fun s => String.mk (s.data.map (fun c => if c == '&' then Char.ofNat 167 else c))
  Route := fun _ => ["lobby"]
  RouteSample := fun _ => "sample.txt"
  RouteIcons := fun _ => ["icon.png"]
  RouteMotds := fun _ => ["A Minecraft Server"]
  sessionOpenCancelled := false
  sessionRedirectCancelled := fun _ => false
  packetWriteCancelled := fun _ => false
  packetReadCancelled := fun _ => false
  connWrite := fun _ => none
  Dial := fun _ => true
  RandomInt := fun _ => 0
  GenSalt := ("salt", none)
  RandomBytes := fun n => (List.replicate n 7, none)
  DecryptPKCS1v15 := fun data => Except.ok data
  NewPacketCodecCfb8 := fun secret =>
    if secret.length == 16 then none else some "crypto/aes: invalid key size"
  AuthAuthenticate := fun name _ _ _ => (⟨name, []⟩, none)
  FormatUUID := fun id => id
  uuidFromString := fun s => s.data.foldl (fun acc c => acc * 256 + c.toNat) 0
  GenNameUUID := fun s => s
  jsonMarshal := fun s => "\"" ++ s ++ "\""
  ReadFile := fun _ => none
  base64 := fun s => s
  SwapEntities := fun _ _ _ _ payload => payload

/-- The sample environment with authentication off (offline mode). -/
def sampleEnvOffline : Env := { sampleEnv with Authenticate := false }

/-- A directory that knows the back-end `lobby` and has no player. -/
def sampleConnect : ProxyConnect where
  servers := [⟨"lobby", "10.0.0.2:25566"⟩]
  localPlayers := []
  networkPlayers := 0
  maxPlayers := 100
  calls := []

/-- A session just served on an empty server. -/
def sampleWorld : World :=
  Serve sampleEnv (newWorld 1 "192.0.2.7" "50000" [] sampleConnect)

/-! ## Descriptions used in the statements -/

/-- The error `Session.Write` returns for a packet: none when a hook vetoes
the write, else what the socket codec returns. -/
def writeErr (E : Env) (packet : ClientPacket) : Option String :=
  if E.packetWriteCancelled packet then none else E.connWrite packet

/-- The packets of a list that reach the wire: not vetoed and accepted by the
socket codec. -/
def onWire (E : Env) (packets : List ClientPacket) : List ClientPacket :=
  packets.filter (fun packet => !E.packetWriteCancelled packet && (E.connWrite packet).isNone)

/-- No hook vetoes a write and the socket accepts every packet. -/
def Env.AcceptsWrites (E : Env) : Prop :=
  ∀ packet, E.packetWriteCancelled packet = false ∧ E.connWrite packet = none

/-- The packets `DisconnectJson` hands to `Write` for a session: one
disconnect packet of the login or play phase, or nothing when the protocol is
unset or the registry stage is neither of its two codecs. -/
def disconnectPackets (s : Session) (json : String) : List ClientPacket :=
  match s.protocol with
  | some protocol =>
    if s.pipeline.Get "registry" == some (Codec.LoginServerCodec protocol) then
      [ClientPacket.PacketClientLoginDisconnect protocol json]
    else if s.pipeline.Get "registry" == some (Codec.PlayServerCodec protocol) then
      [ClientPacket.PacketClientDisconnect protocol json]
    else []
  | none => []

/-- The JSON text `Disconnect` builds around a reason. -/
def reasonJson (E : Env) (reason : String) : String :=
  "\x7b\"text\":" ++ E.jsonMarshal reason ++ "\x7d"

/-- The registry codec the data model prescribes for the state of a session:
Handshake in Disconnected, Status in Status and StatusPing, the login codec
of the chosen descriptor in Login and LoginEncrypt, its play codec in Init
and Connected (`none` when that descriptor is unset). -/
def expectedRegistry (s : Session) : Option Codec :=
  match s.state with
  | STATE_DISCONNECTED => some Codec.HandshakePacketServerCodec
  | STATE_STATUS => some Codec.StatusPacketServerCodec
  | STATE_STATUS_PING => some Codec.StatusPacketServerCodec
  | STATE_LOGIN => s.protocol.map Codec.LoginServerCodec
  | STATE_LOGIN_ENCRYPT => s.protocol.map Codec.LoginServerCodec
  | STATE_INIT => s.protocol.map Codec.PlayServerCodec
  | STATE_CONNECTED => s.protocol.map Codec.PlayServerCodec

/-- The stage named "registry" exists and is the codec prescribed for the
state. -/
def RegistryMatchesState (s : Session) : Prop :=
  s.pipeline.Get "registry" ≠ none ∧ s.pipeline.Get "registry" = expectedRegistry s

instance (s : Session) : Decidable (RegistryMatchesState s) := by
  unfold RegistryMatchesState
  exact inferInstance

/-- The environment never makes the code index out of range: the list of
supported versions is not empty, `RandomInt n` is below `n`, and the router
gives at least one icon and one motd. -/
def Env.InRange (E : Env) : Prop :=
  E.K.Versions ≠ [] ∧ (∀ n, 0 < n → E.RandomInt n < n) ∧
  (∀ address, E.RouteIcons address ≠ []) ∧ (∀ address, E.RouteMotds address ≠ [])

/-- The packets `SetCompression` hands to `Write` when the threshold changes:
the login-phase packet under the login codec of the descriptor, the
play-phase packet under the play codec of the two oldest descriptors,
nothing otherwise. -/
def compressionPackets (s : Session) (protocol : Version) (threshold : Int) :
    List ClientPacket :=
  if s.pipeline.Get "registry" == some (Codec.LoginServerCodec protocol) then
    [ClientPacket.PacketClientLoginSetCompression protocol threshold]
  else if s.pipeline.Get "registry" == some (Codec.PlayServerCodec mc18_Version)
      || s.pipeline.Get "registry" == some (Codec.PlayServerCodec mc17_Version) then
    [ClientPacket.PacketClientSetCompression protocol threshold]
  else []

/-- The pipeline `SetCompression` leaves when the threshold changes. -/
def compressedPipeline (p : PacketPipeline) (threshold : Int) : PacketPipeline :=
  if threshold == -1 then orKeep p (p.Remove "zlib")
  else if p.HasName "zlib" then orKeep p (p.Replace "zlib" (Codec.Zlib threshold))
  else orKeep p (p.AddBefore "zlib" "registry" (Codec.Zlib threshold))

/-- `Redirect` gives up on the session being initialised: the redirect event
is not vetoed, the dial fails, and the state is `STATE_INIT`. -/
def redirectDrops (E : Env) (server : Server) (s : Session) : Bool :=
  !E.sessionRedirectCancelled server && !E.Dial server.Addr && Initializing s

/-- `Redirect` starts an out bridge: the redirect event is not vetoed and the
dial succeeds. -/
def redirectServes (E : Env) (server : Server) : Bool :=
  !E.sessionRedirectCancelled server && E.Dial server.Addr

/-- The packets `Redirect` hands to `Write`. -/
def redirectPackets (E : Env) (server : Server) (s : Session) : List ClientPacket :=
  if redirectDrops E server s then
    disconnectPackets s (reasonJson E "Error: Outbound Connection Mismatch")
  else []

/-- The pipeline made of the stages `head`, then the zlib stage of threshold
`threshold` unless the threshold is -1, then the registry stage. -/
def composition (head : PacketPipeline) (registry : Codec) (threshold : Int) :
    PacketPipeline :=
  if threshold = -1 then head ++ [("registry", registry)]
  else head ++ [("zlib", Codec.Zlib threshold), ("registry", registry)]

/-- The pipeline of a session is arranged for its threshold: some stages other
than zlib and registry, then the zlib stage of the session's threshold unless
that threshold is -1, then the registry stage. -/
def Arranged (s : Session) : Prop :=
  ∃ (head : PacketPipeline) (registry : Codec),
    head.HasName "zlib" = false ∧ head.HasName "registry" = false ∧
    s.pipeline = composition head registry s.compressionThreshold

/-- The zlib/threshold invariant of a session in full: the threshold is -1 or
at least 0, and the pipeline is some stages other than zlib and registry
(varIntLength, with or without cfb8 before it), followed by the zlib stage of
that threshold exactly when the threshold is at least 0, followed by the
registry stage. -/
def Composed (s : Session) : Prop :=
  ∃ (head : PacketPipeline) (registry : Codec),
    head.HasName "zlib" = false ∧ head.HasName "registry" = false ∧
    -1 ≤ s.compressionThreshold ∧
    s.pipeline = composition head registry s.compressionThreshold

/-- The zlib stage is present exactly when the threshold is at least 0. -/
def ZlibIffThreshold (s : Session) : Prop :=
  s.pipeline.HasName "zlib" = true ↔ 0 ≤ s.compressionThreshold

instance (s : Session) : Decidable (ZlibIffThreshold s) := by
  unfold ZlibIffThreshold
  exact inferInstance

/-- The sample session after the login handshake of version 340: in Login,
with the descriptor `mc1121_Version02`. -/
def sampleLoginWorld : World :=
  match handlePacket sampleEnv (Packet.PacketServerHandshake 340 "lobby.example" 25565 2)
      sampleWorld with
  | some r => r.1
  | none => sampleWorld

/-- The names of the data model: 1 to 16 characters, all of `[A-Za-z0-9_]`. -/
def ValidName (name : String) : Prop :=
  1 ≤ name.length ∧ name.length ≤ 16 ∧ ∀ c ∈ name.data, nameChar c = true

/-- The two errors `handlePacket` returns for a name that fails validation. -/
def NameError (err : Option String) : Prop :=
  err = some "Unexpected name: length is more than 16" ∨
  err = some "Unexpected name: pattern mismatch"

instance (name : String) : Decidable (ValidName name) := by
  unfold ValidName
  exact inferInstance

/-- The one packet type `handlePacket` accepts in each state before Init. -/
def expectedPacket : SessionState → Packet → Bool
  | STATE_DISCONNECTED, Packet.PacketServerHandshake _ _ _ _ => true
  | STATE_STATUS, Packet.PacketServerStatusRequest => true
  | STATE_STATUS_PING, Packet.PacketServerStatusPing _ => true
  | STATE_LOGIN, Packet.PacketServerLoginStart _ => true
  | STATE_LOGIN_ENCRYPT, Packet.PacketServerLoginEncryptResponse _ _ => true
  | _, _ => false

/-- The session `sid` has an entry in a list of player entries. -/
def Listed (sid : Nat) (entries : List PlayerEntry) : Bool :=
  entries.any (fun e => e.sid == sid)

/-- What holds when a session event fires, for the session `sid`: at a state
event other than the one to Init the session is in the Session Registry
exactly when it is in the local-player set; at the state event to Init it is
in the local-player set and not in the Session Registry. -/
def FiredInSync (sid : Nat) (f : Fired) : Prop :=
  match f.event with
  | Event.sessionState STATE_INIT =>
    Listed sid f.localPlayers = true ∧ Listed sid f.registry = false
  | Event.sessionState _ => Listed sid f.registry = Listed sid f.localPlayers
  | _ => True

/-- The registry/directory invariant of a world: the session is in the Session
Registry exactly when it is in the local-player set, in neither unless it is
authenticated (Init, Connected), its own local-player entries carry its name
and uuid, and every session event fired so far satisfied `FiredInSync`. -/
def InSync (w : World) : Prop :=
  Listed w.session.sid w.registry = Listed w.session.sid w.connect.localPlayers ∧
  (Authenticated w.session = false → Listed w.session.sid w.registry = false) ∧
  (∀ e ∈ w.connect.localPlayers, e.sid = w.session.sid →
    e.name = w.session.name ∧ e.uuid = w.session.uuid) ∧
  ∀ f ∈ w.events, FiredInSync w.session.sid f

/-- The sample session in Login, about to log in offline as "Alice", on a
server where another session (7) is registered and a local player under that
name. -/
def sampleTakenWorld : World :=
  { sampleLoginWorld with
    session := { sampleLoginWorld.session with
      name := "Alice"
      profile := ⟨sampleEnv.GenNameUUID "OfflinePlayer:Alice", []⟩ }
    registry := [⟨7, "Alice", sampleEnv.uuidFromString "OfflinePlayer:Alice"⟩]
    connect := { sampleConnect with
      localPlayers := [⟨7, "Alice", sampleEnv.uuidFromString "OfflinePlayer:Alice"⟩] } }

/-- The sample session in LoginEncrypt: after the login handshake of version
340 and the LoginStart of "Bob", waiting for the EncryptResponse. -/
def sampleEncryptWorld : World :=
  match handlePacket sampleEnv (Packet.PacketServerLoginStart "Bob") sampleLoginWorld with
  | some r => r.1
  | none => sampleLoginWorld

/-- The sample environment with an identity service that answers every call
with an error. -/
def sampleEnvAuthDown : Env :=
  { sampleEnv with
    AuthAuthenticate := fun _ _ _ _ => (⟨"", []⟩, some "auth: service unavailable") }

/-- The number of close events among the fired events. -/
def closeEvents (events : List Fired) : Nat :=
  events.countP (fun f => f.event == Event.sessionClose)

/-- The sample session in Init: after the login handshake of version 340 and,
with authentication off, the LoginStart of "Alice"; registered, in the
local-player set, and redirected to the back-end `lobby`. -/
def sampleInitWorld : World :=
  match handlePacket sampleEnvOffline (Packet.PacketServerLoginStart "Alice")
      sampleLoginWorld with
  | some r => r.1
  | none => sampleLoginWorld

/-- Modelled from the spec: the completion of a redirect by the out bridge
(`SessionOutBridge`, not in `session.go`): the bridge becomes the out bridge of
the session, which moves from Init to Connected. -/
def bridgeConnected (server : Server) (w : World) : World :=
  SetState STATE_CONNECTED { w with session.outBridge := some ⟨server, []⟩ }

/-- The sample session in Connected, with an out bridge to `lobby` and no
plugin channel. -/
def sampleConnectedWorld : World :=
  bridgeConnected ⟨"lobby", "10.0.0.2:25566"⟩ sampleInitWorld

/-- The payload a client builds for a list of channel names: the names joined
by NUL bytes. -/
def joinNul : List Bytes → Bytes
  | [] => []
  | [name] => name
  | name :: rest => name ++ 0 :: joinNul rest

/-- The distinct names of a batch, in the order of their first occurrence. -/
def distinctInOrder : List Bytes → List Bytes
  | [] => []
  | channel :: rest => channel :: (distinctInOrder rest).filter (fun c => c != channel)

/-- The names of a batch that are new to a set of plugin channels: its
distinct names, in the order of their first occurrence, without those the set
already holds. -/
def newChannels (batch pluginChannels : List Bytes) : List Bytes :=
  (distinctInOrder batch).filter (fun c => !pluginChannels.contains c)

/-- Two hundred distinct 4-byte channel names without a NUL byte ("AA01",
"AB01", ...). -/
def sampleNames : List Bytes :=
  (List.range 200).map (fun i => [65 + i / 26, 65 + i % 26, 48, 49])

/-- The cap check of line 483 refuses the packet: it is a REGISTER plugin
message whose NUL-split batch has 128 or more entries, or that finds 128 or
more plugin channels installed. -/
def refusedRegister (s : Session) (packet : Packet) : Bool :=
  match packet with
  | Packet.PacketServerPluginMessage Channel Data =>
    Channel == "REGISTER" &&
      (decide ((Split 0 Data).length ≥ 128) || decide (s.pluginChannels.length ≥ 128))
  | _ => false

/-- What lines 478-504 of `handlePacket` store on the session for a packet the
cap check does not refuse: the ClientSettings packet, the channels of a
REGISTER or UNREGISTER batch, the MC|Brand packet. -/
def bookkeeping (packet : Packet) (s : Session) : Session :=
  match packet with
  | Packet.PacketServerClientSettings _ => { s with clientSettings := some packet }
  | Packet.PacketServerPluginMessage Channel Data =>
    if Channel == "REGISTER" then
      { s with pluginChannels := registerChannels (Split 0 Data) s.pluginChannels }
    else if Channel == "UNREGISTER" then
      { s with pluginChannels := unregisterChannels (Split 0 Data) s.pluginChannels }
    else if Channel == "MC|Brand" then { s with mcBrand := some packet }
    else s
  | _ => s

/-- The packet as lines 508-511 hand it to the out bridge: a generic packet
with its entity ids rewritten by `SwapEntities`, any other packet as it is. -/
def forwarded (E : Env) (s : Session) (packet : Packet) : Packet :=
  match packet with
  | Packet.PacketGeneric id payload =>
    Packet.PacketGeneric id (E.SwapEntities s.clientEntityId s.serverEntityId false id payload)
  | other => other

/-- The plugin-channel set of a session is a set (no name twice) of at most
128 names. -/
def Capped (s : Session) : Prop :=
  s.pluginChannels.Nodup ∧ s.pluginChannels.length ≤ 128

instance (s : Session) : Decidable (Capped s) := by
  unfold Capped
  exact inferInstance

/-- The sample session in Connected with 127 plugin channels installed, the
first 127 sample names. -/
def sampleNearlyFullWorld : World :=
  { sampleConnectedWorld with
    session := { sampleConnectedWorld.session with pluginChannels := sampleNames.take 127 } }

/-- The part of an address before its first NUL character, all of it when it
has none. -/
def beforeNul (address : String) : List Char :=
  address.data.takeWhile (fun c => c != Char.ofNat 0)

/-- The virtual host of the data model, in the words of the specification:
the part of the address before its first NUL, with a trailing dot
stripped. -/
def virtualHost (address : String) : String :=
  String.mk (if (beforeNul address).getLast? = some '.' then (beforeNul address).dropLast
    else beforeNul address)

/-- The sample new session after a status Handshake (next state 1) that
advertises version 1, which the sample list of supported versions does not
hold. -/
def sampleStatusWorld : World :=
  match handlePacket sampleEnv (Packet.PacketServerHandshake 1 "lobby.example" 25565 1)
      sampleWorld with
  | some r => r.1
  | none => sampleWorld

/-- The sample session in Connected while a redirect is in progress. -/
def sampleRedirectingWorld : World :=
  { sampleConnectedWorld with
    session := { sampleConnectedWorld.session with redirecting := true } }

/-- A sequence of calls of `handlePacket`, one per packet, each on the world
the call before left: the worlds after each call. The sequence ends early at
a run-time panic. -/
def handleSequence (E : Env) : List Packet → World → List World
  | [], _ => []
  | packet :: rest, w =>
    match handlePacket E packet w with
    | none => []
    | some r => r.1 :: handleSequence E rest r.1

/-- A sample sequence of play-phase packets: a ClientSettings packet, REGISTER
batches of the first 100 sample names, of the other 100, and of all 200, an
UNREGISTER of the first sample name, and a generic packet. -/
def samplePackets : List Packet :=
  [Packet.PacketServerClientSettings [1, 2, 3],
   Packet.PacketServerPluginMessage "REGISTER" (joinNul (sampleNames.take 100)),
   Packet.PacketServerPluginMessage "REGISTER" (joinNul (sampleNames.drop 100)),
   Packet.PacketServerPluginMessage "REGISTER" (joinNul sampleNames),
   Packet.PacketServerPluginMessage "UNREGISTER" [65, 65, 48, 49],
   Packet.PacketGeneric 3 [0]]

/-! # Theorems -/

/-! ## Pipeline lemmas -/

namespace PacketPipeline

theorem HasName_eq_isSome (p : PacketPipeline) (n : String) :
    p.HasName n = (p.Get n).isSome := by
  induction p with
  | nil => rfl
  | cons st rest ih =>
    simp only [HasName, List.any_cons, Get] at ih ⊢
    by_cases h : st.1 = n
    · simp [h]
    · simp [h, ih]

theorem Get_replaceFirst_self (p : PacketPipeline) (n : String) (c : Codec)
    (h : p.HasName n = true) : Get (replaceFirst p n c) n = some c := by
  induction p with
  | nil => simp [HasName] at h
  | cons st rest ih =>
    by_cases hst : st.1 = n
    · simp [replaceFirst, Get, hst]
    · have hrest : HasName rest n = true := by
        simpa [HasName, hst] using h
      simp [replaceFirst, Get, hst, ih hrest]

theorem Get_replaceFirst_ne (p : PacketPipeline) (n m : String) (c : Codec) (h : m ≠ n) :
    Get (replaceFirst p m c) n = Get p n := by
  induction p with
  | nil => rfl
  | cons st rest ih =>
    by_cases hst : st.1 = m
    · have : ¬ st.1 = n := fun e => h (hst ▸ e)
      simp [replaceFirst, Get, hst, h, this]
    · simp [replaceFirst, Get, hst, ih]

theorem Get_removeFirst_ne (p : PacketPipeline) (n m : String) (h : m ≠ n) :
    Get (removeFirst p m) n = Get p n := by
  induction p with
  | nil => rfl
  | cons st rest ih =>
    by_cases hst : st.1 = m
    · have : ¬ st.1 = n := fun e => h (hst ▸ e)
      simp [removeFirst, Get, hst, h]
    · simp [removeFirst, Get, hst, ih]

theorem Get_insertBefore_ne (p : PacketPipeline) (n pivot : String) (new : Stage)
    (h : new.1 ≠ n) : Get (insertBefore p pivot new) n = Get p n := by
  induction p with
  | nil => rfl
  | cons st rest ih =>
    by_cases hst : st.1 = pivot
    · simp [insertBefore, Get, hst, h]
    · simp [insertBefore, Get, hst, ih]

end PacketPipeline

open PacketPipeline in
theorem Get_orKeep_Replace_self (p : PacketPipeline) (n : String) (c : Codec)
    (h : p.Get n ≠ none) : (orKeep p (p.Replace n c)).Get n = some c := by
  have hn : p.HasName n = true := by
    rw [HasName_eq_isSome]; exact Option.isSome_iff_ne_none.mpr h
  simp [orKeep, Replace, hn, Get_replaceFirst_self]

open PacketPipeline in
theorem Get_orKeep_Replace_ne (p : PacketPipeline) (n m : String) (c : Codec) (h : m ≠ n) :
    (orKeep p (p.Replace m c)).Get n = p.Get n := by
  unfold orKeep Replace
  split_ifs <;> simp [Get_replaceFirst_ne _ _ _ _ h]

open PacketPipeline in
theorem Get_orKeep_Remove_ne (p : PacketPipeline) (n m : String) (h : m ≠ n) :
    (orKeep p (p.Remove m)).Get n = p.Get n := by
  unfold orKeep Remove
  split_ifs <;> simp [Get_removeFirst_ne _ _ _ h]

open PacketPipeline in
theorem Get_orKeep_AddBefore_ne (p : PacketPipeline) (n name before : String) (c : Codec)
    (h : name ≠ n) : (orKeep p (p.AddBefore name before c)).Get n = p.Get n := by
  unfold orKeep AddBefore
  split_ifs <;> simp [Get_insertBefore_ne _ _ _ (name, c) h]

/-! ## Normal forms of the session methods -/

theorem Write_eq (E : Env) (packet : ClientPacket) (w : World) :
    Write E packet w =
      ({ w with written := w.written ++ [packet], wire := w.wire ++ onWire E [packet] },
        writeErr E packet) := by
  unfold Write writeErr onWire
  by_cases h : E.packetWriteCancelled packet = true
  · simp [h]
  · cases hc : E.connWrite packet <;> simp [h, hc]

theorem DisconnectJson_eq (E : Env) (json : String) (w : World) :
    DisconnectJson E json w =
      { w with
        written := w.written ++ disconnectPackets w.session json
        wire := w.wire ++ onWire E (disconnectPackets w.session json)
        connCloses := w.connCloses + 1 } := by
  unfold DisconnectJson disconnectPackets connClose
  cases hp : w.session.protocol with
  | none => simp [onWire]
  | some protocol =>
    simp only [Write_eq]
    split_ifs <;> simp [onWire]

theorem Disconnect_eq (E : Env) (reason : String) (w : World) :
    Disconnect E reason w =
      { w with
        written := w.written ++ disconnectPackets w.session (reasonJson E reason)
        wire := w.wire ++ onWire E (disconnectPackets w.session (reasonJson E reason))
        connCloses := w.connCloses + 1 } := by
  unfold Disconnect reasonJson
  exact DisconnectJson_eq E _ w

theorem SetCompression_same (E : Env) (w : World) :
    SetCompression E w.session.compressionThreshold w = some w := by
  simp [SetCompression]

theorem SetCompression_eq (E : Env) (threshold : Int) (w : World) (protocol : Version)
    (hp : w.session.protocol = some protocol)
    (hne : w.session.compressionThreshold ≠ threshold) :
    SetCompression E threshold w =
      some { w with
        session := { w.session with
          compressionThreshold := threshold
          pipeline := compressedPipeline w.session.pipeline threshold }
        written := w.written ++ compressionPackets w.session protocol threshold
        wire := w.wire ++ onWire E (compressionPackets w.session protocol threshold) } := by
  unfold SetCompression compressionPackets compressedPipeline
  simp only [beq_iff_eq, hne, if_false, hp, Write_eq]
  split_ifs <;> simp [onWire]

theorem SetCompression_none (E : Env) (threshold : Int) (w : World)
    (hp : w.session.protocol = none)
    (hne : w.session.compressionThreshold ≠ threshold) :
    SetCompression E threshold w = none := by
  unfold SetCompression
  simp [hne, hp]

theorem Get_registry_compressedPipeline (p : PacketPipeline) (threshold : Int) :
    (compressedPipeline p threshold).Get "registry" = p.Get "registry" := by
  unfold compressedPipeline
  split_ifs
  · exact Get_orKeep_Remove_ne p _ _ (by decide)
  · exact Get_orKeep_Replace_ne p _ _ _ (by decide)
  · exact Get_orKeep_AddBefore_ne p _ _ _ _ (by decide)

theorem SetEncryption_eq (E : Env) (sharedSecret : Bytes) (w : World) :
    SetEncryption E sharedSecret w =
      (match E.NewPacketCodecCfb8 sharedSecret with
        | some _ => w
        | none =>
          { w with
            session := { w.session with
              pipeline := orKeep w.session.pipeline
                (w.session.pipeline.AddBefore "cfb8" "varIntLength" (Codec.Cfb8 sharedSecret)) } },
        E.NewPacketCodecCfb8 sharedSecret) := by
  unfold SetEncryption
  cases E.NewPacketCodecCfb8 sharedSecret <;> rfl

theorem Redirect_eq (E : Env) (server : Server) (w : World) :
    Redirect E server w =
      { w with
        events := w.events ++
          [⟨Event.sessionRedirect (w.session.state == STATE_INIT) server.Name server.Addr,
            w.registry, w.connect.localPlayers⟩]
        written := w.written ++ redirectPackets E server w.session
        wire := w.wire ++ onWire E (redirectPackets E server w.session)
        connCloses := w.connCloses + (if redirectDrops E server w.session then 1 else 0)
        bridgesServed := w.bridgesServed ++ (if redirectServes E server then [server] else []) } := by
  unfold Redirect fireEventSession redirectPackets redirectDrops redirectServes
  simp only [Disconnect_eq]
  by_cases hc : E.sessionRedirectCancelled server = true
  · simp [hc, onWire]
  · by_cases hd : E.Dial server.Addr = true
    · simp [hc, hd, onWire]
    · by_cases hi : Initializing w.session = true
      · simp [hc, hd, hi, onWire]
      · simp [hc, hd, hi, onWire]

theorem RegistryMatchesState_congr {s t : Session} (hs : t.state = s.state)
    (hp : t.protocol = s.protocol) (hg : t.pipeline.Get "registry" = s.pipeline.Get "registry")
    (h : RegistryMatchesState s) : RegistryMatchesState t := by
  unfold RegistryMatchesState expectedRegistry at *
  rw [hs, hp, hg]; exact h

theorem SetCompression_some (E : Env) (threshold : Int) (w w' : World)
    (h : SetCompression E threshold w = some w') :
    ∃ (pipeline : PacketPipeline) (written wire : List ClientPacket),
      pipeline.Get "registry" = w.session.pipeline.Get "registry" ∧
      w' = { w with
        session := { w.session with compressionThreshold := threshold, pipeline := pipeline }
        written := w.written ++ written
        wire := w.wire ++ wire } := by
  by_cases hc : w.session.compressionThreshold = threshold
  · subst hc
    rw [SetCompression_same] at h
    simp only [Option.some.injEq] at h
    subst h
    exact ⟨w.session.pipeline, [], [], rfl, by simp⟩
  · cases hp : w.session.protocol with
    | none => rw [SetCompression_none E threshold w hp hc] at h; cases h
    | some protocol =>
      rw [SetCompression_eq E threshold w protocol hp hc] at h
      simp only [Option.some.injEq] at h
      subst h
      exact ⟨_, _, _, Get_registry_compressedPipeline _ _, rfl⟩

theorem SetAuthenticated_enter_some (E : Env) (server : Server) (w w' : World)
    (h : SetAuthenticated_enter E server w = some w') :
    ∃ protocol, w.session.protocol = some protocol ∧
    ∃ (pipeline : PacketPipeline) (threshold : Int) (written wire : List ClientPacket),
      pipeline.Get "registry" = w.session.pipeline.Get "registry" ∧
      w' = Redirect E server
        { w with
          session := { w.session with
            state := STATE_INIT
            compressionThreshold := threshold
            pipeline := orKeep pipeline
              (pipeline.Replace "registry" (Codec.PlayServerCodec protocol)) }
          written := w.written ++ written
          wire := w.wire ++ wire
          connTimeout := 20
          registry := w.registry ++ [⟨w.session.sid, w.session.name, w.session.uuid⟩]
          events := w.events ++
            [⟨Event.sessionState STATE_INIT, w.registry, w.connect.localPlayers⟩] } := by
  unfold SetAuthenticated_enter at h
  simp only at h
  split at h
  · cases h
  · rename_i w1 hw1
    split at h
    · cases h
    · rename_i protocol hproto
      simp only [Write_eq, Option.some.injEq] at h
      have key : ∃ (pipeline : PacketPipeline) (threshold : Int)
          (written wire : List ClientPacket),
          pipeline.Get "registry" = w.session.pipeline.Get "registry" ∧
          w1 = { SetState STATE_INIT w with
            session := { (SetState STATE_INIT w).session with
              compressionThreshold := threshold, pipeline := pipeline }
            written := w.written ++ written
            wire := w.wire ++ wire } := by
        split_ifs at hw1
        · obtain ⟨P, wr, wi, hP, hw⟩ := SetCompression_some E 256 _ _ hw1
          exact ⟨P, 256, wr, wi, hP, hw⟩
        · simp only [Option.some.injEq] at hw1
          subst hw1
          exact ⟨w.session.pipeline, w.session.compressionThreshold, [], [], rfl,
            by simp [SetState, fireEventSession]⟩
      obtain ⟨P, c, wr, wi, hP, hw⟩ := key
      subst hw
      refine ⟨protocol, hproto, P, c, ?_⟩
      subst h
      split_ifs
      · exact ⟨wr ++ [ClientPacket.PacketClientLoginSuccess protocol
          (E.FormatUUID w.session.profile.Id) w.session.name], wi ++ onWire E
          [ClientPacket.PacketClientLoginSuccess protocol
          (E.FormatUUID w.session.profile.Id) w.session.name], hP,
          by simp [SetState, fireEventSession, SessionRegistry.Register]⟩
      · exact ⟨wr ++ [ClientPacket.PacketClientLoginSuccess protocol
          w.session.profile.Id w.session.name], wi ++ onWire E
          [ClientPacket.PacketClientLoginSuccess protocol
          w.session.profile.Id w.session.name], hP,
          by simp [SetState, fireEventSession, SessionRegistry.Register]⟩

theorem AddLocalPlayer_localPlayers (c : ProxyConnect) (sid : Nat) (name : String) (uuid : UUID) :
    ((c.AddLocalPlayer sid name uuid).2 = 0 ∨ (c.AddLocalPlayer sid name uuid).2 = -1) ∧
      (c.AddLocalPlayer sid name uuid).1.localPlayers = c.localPlayers ∨
    (c.AddLocalPlayer sid name uuid).2 = 1 ∧
      (c.AddLocalPlayer sid name uuid).1.localPlayers = c.localPlayers ++ [⟨sid, name, uuid⟩] := by
  unfold ProxyConnect.AddLocalPlayer
  dsimp only
  split_ifs <;> simp

theorem AddLocalPlayer_servers (c : ProxyConnect) (sid : Nat) (name : String) (uuid : UUID) :
    (c.AddLocalPlayer sid name uuid).1.servers = c.servers := by
  unfold ProxyConnect.AddLocalPlayer
  dsimp only
  split_ifs <;> rfl

/-- The world `SetAuthenticated(true)` works on after line 151. -/
theorem SetAuthenticated_route_some (E : Env) (w w' : World)
    (h : SetAuthenticated_route E w = some w') :
    (∃ reason, w' = Disconnect E reason w) ∨
    (∃ reason, w' = Disconnect E reason
        { w with connect :=
            (w.connect.AddLocalPlayer w.session.sid w.session.name w.session.uuid).1 } ∧
      (w.connect.AddLocalPlayer w.session.sid w.session.name w.session.uuid).1.localPlayers
        = w.connect.localPlayers) ∨
    (∃ server,
      (w.connect.AddLocalPlayer w.session.sid w.session.name w.session.uuid).1.localPlayers
        = w.connect.localPlayers ++ [⟨w.session.sid, w.session.name, w.session.uuid⟩] ∧
      SetAuthenticated_enter E server
        { w with connect :=
            (w.connect.AddLocalPlayer w.session.sid w.session.name w.session.uuid).1 }
        = some w') := by
  unfold SetAuthenticated_route at h
  simp only at h
  rcases AddLocalPlayer_localPlayers w.connect w.session.sid w.session.name
      w.session.uuid with ⟨hr | hr, hl⟩ | ⟨hr, hl⟩
  all_goals
    simp only [hr, beq_self_eq_true, if_true, show ((-1 : Int) == 0) = false by decide,
      show ((1 : Int) == 0) = false by decide, show ((1 : Int) == -1) = false by decide,
      Bool.false_eq_true, if_false] at h
    split_ifs at h
    · exact Or.inl ⟨_, (Option.some.inj h).symm⟩
    · split at h
      · cases h
      · split at h
        · exact Or.inl ⟨_, (Option.some.inj h).symm⟩
        · first
          | exact Or.inr (Or.inl ⟨_, (Option.some.inj h).symm, hl⟩)
          | (rename_i server _
             refine Or.inr (Or.inr ⟨server, hl, ?_⟩)
             simpa using h)

theorem SetAuthenticated_some (E : Env) (w w' : World)
    (h : SetAuthenticated E true w = some w') :
    (∃ reason, w' = Disconnect E reason
      { w with session.uuid := E.uuidFromString (E.FormatUUID w.session.profile.Id) }) ∨
    SetAuthenticated_route E
      { w with session.uuid := E.uuidFromString (E.FormatUUID w.session.profile.Id) } = some w' := by
  unfold SetAuthenticated at h
  simp only [Bool.not_true, Bool.false_eq_true, if_false] at h
  split_ifs at h
  · exact Or.inl ⟨_, (Option.some.inj h).symm⟩
  · exact Or.inl ⟨_, (Option.some.inj h).symm⟩
  · exact Or.inl ⟨_, (Option.some.inj h).symm⟩
  · exact Or.inr h

theorem SetAuthenticated_false (E : Env) (w : World) :
    SetAuthenticated E false w =
      some (Disconnect E "Error: Authentication to Minecraft.net Failed" w) := by
  simp [SetAuthenticated]

theorem Disconnect_session (E : Env) (reason : String) (w : World) :
    (Disconnect E reason w).session = w.session := by
  rw [Disconnect_eq]

theorem Redirect_session (E : Env) (server : Server) (w : World) :
    (Redirect E server w).session = w.session := by
  rw [Redirect_eq]

theorem SetAuthenticated_matches (E : Env) (result : Bool) (w w' : World)
    (h : RegistryMatchesState w.session) (hr : SetAuthenticated E result w = some w') :
    RegistryMatchesState w'.session := by
  cases result with
  | false =>
    rw [SetAuthenticated_false] at hr
    cases hr
    rw [Disconnect_session]; exact h
  | true =>
    rcases SetAuthenticated_some E w w' hr with ⟨reason, rfl⟩ | hroute
    · rw [Disconnect_session]; exact RegistryMatchesState_congr rfl rfl rfl h
    · rcases SetAuthenticated_route_some E _ w' hroute with
        ⟨reason, rfl⟩ | ⟨reason, rfl, _⟩ | ⟨server, _, henter⟩
      · rw [Disconnect_session]; exact RegistryMatchesState_congr rfl rfl rfl h
      · rw [Disconnect_session]; exact RegistryMatchesState_congr rfl rfl rfl h
      · obtain ⟨protocol, hp, P, c, wr, wi, hP, rfl⟩ := SetAuthenticated_enter_some E _ _ _ henter
        rw [Redirect_session]
        have hP' : P.Get "registry" ≠ none := by rw [hP]; exact h.1
        refine ⟨?_, ?_⟩
        · simp only [Get_orKeep_Replace_self P _ _ hP']
          exact Option.some_ne_none _
        · simp only [Get_orKeep_Replace_self P _ _ hP', expectedRegistry]
          simp only at hp
          simp [hp]

theorem matches_Replace_status (s : Session) (p : PacketPipeline) (c : Codec)
    (hc : expectedRegistry s = some c) (hp : p.Get "registry" ≠ none)
    (hs : s.pipeline = orKeep p (p.Replace "registry" c)) : RegistryMatchesState s := by
  unfold RegistryMatchesState
  rw [hs, Get_orKeep_Replace_self p _ _ hp, hc]
  exact ⟨Option.some_ne_none _, rfl⟩

theorem handleDisconnected_matches (E : Env) (packet : Packet) (w : World) (r : Handled)
    (h : RegistryMatchesState w.session) (hr : handleDisconnected E packet w = some r) :
    RegistryMatchesState r.1.session := by
  unfold handleDisconnected at hr
  cases packet <;> simp only at hr
  all_goals repeat' split at hr
  all_goals cases hr
  all_goals first
    | exact h
    | exact RegistryMatchesState_congr rfl rfl rfl h
    | exact matches_Replace_status _ _ _ rfl h.1 rfl

theorem handleStatus_matches (E : Env) (packet : Packet) (w : World) (r : Handled)
    (h : RegistryMatchesState w.session) (hs : w.session.state = STATE_STATUS)
    (hr : handleStatus E packet w = some r) :
    RegistryMatchesState r.1.session := by
  unfold handleStatus at hr
  cases packet <;> simp only [Write_eq] at hr
  all_goals repeat' split at hr
  all_goals cases hr
  all_goals first
    | exact h
    | exact RegistryMatchesState_congr rfl rfl rfl h
    | (unfold RegistryMatchesState expectedRegistry at h ⊢
       simp only [hs] at h
       exact h)

theorem handleStatusPing_matches (E : Env) (packet : Packet) (w : World) (r : Handled)
    (h : RegistryMatchesState w.session)
    (hr : handleStatusPing E packet w = some r) :
    RegistryMatchesState r.1.session := by
  unfold handleStatusPing connClose at hr
  cases packet <;> simp only [Write_eq] at hr
  all_goals repeat' split at hr
  all_goals cases hr
  all_goals exact h

theorem handleLogin_matches (E : Env) (packet : Packet) (w : World) (r : Handled)
    (h : RegistryMatchesState w.session) (hs : w.session.state = STATE_LOGIN)
    (hr : handleLogin E packet w = some r) :
    RegistryMatchesState r.1.session := by
  unfold handleLogin at hr
  cases packet <;> simp only [Write_eq] at hr
  all_goals repeat' split at hr
  all_goals cases hr
  all_goals first
    | exact h
    | exact RegistryMatchesState_congr rfl rfl rfl h
    | (refine SetAuthenticated_matches E true _ _ ?_ (by assumption)
       exact RegistryMatchesState_congr rfl rfl rfl h)
    | (unfold RegistryMatchesState expectedRegistry at h ⊢
       simp only [hs] at h
       exact h)

theorem SetEncryption_matches (E : Env) (sharedSecret : Bytes) (w : World)
    (h : RegistryMatchesState w.session) :
    RegistryMatchesState (SetEncryption E sharedSecret w).1.session := by
  rw [SetEncryption_eq]
  cases E.NewPacketCodecCfb8 sharedSecret with
  | some err => exact h
  | none =>
    exact RegistryMatchesState_congr (s := w.session) rfl rfl
      (Get_orKeep_AddBefore_ne _ _ _ _ _ (by decide)) h

theorem handleLoginEncrypt_matches (E : Env) (packet : Packet) (w : World) (r : Handled)
    (h : RegistryMatchesState w.session)
    (hr : handleLoginEncrypt E packet w = some r) :
    RegistryMatchesState r.1.session := by
  unfold handleLoginEncrypt at hr
  cases packet <;> simp only at hr
  all_goals repeat' split at hr
  all_goals cases hr
  all_goals first
    | exact h
    | exact SetEncryption_matches E _ w h
    | (rename_i hauth
       split_ifs at hauth
       · refine SetAuthenticated_matches E false _ _ ?_ hauth
         exact RegistryMatchesState_congr rfl rfl rfl (SetEncryption_matches E _ w h)
       · refine SetAuthenticated_matches E true _ _ ?_ hauth
         exact RegistryMatchesState_congr rfl rfl rfl (SetEncryption_matches E _ w h))

theorem forward_session (E : Env) (packet : Packet) (w : World) (r : Handled)
    (hr : forward E packet w = some r) :
    r.1.session = { w.session with outBridge := r.1.session.outBridge } := by
  unfold forward at hr
  simp only at hr
  repeat' split at hr
  all_goals cases hr
  all_goals rfl

theorem handleConnected_matches (E : Env) (packet : Packet) (w : World) (r : Handled)
    (h : RegistryMatchesState w.session)
    (hr : handleConnected E packet w = some r) :
    RegistryMatchesState r.1.session := by
  unfold handleConnected at hr
  cases packet <;> simp only at hr
  all_goals repeat' split at hr
  all_goals first
    | (cases hr; exact h)
    | (rw [forward_session E _ _ _ hr]
       exact RegistryMatchesState_congr rfl rfl rfl h)

theorem handlePacket_matches (E : Env) (packet : Packet) (w : World) (r : Handled)
    (h : RegistryMatchesState w.session)
    (hr : handlePacket E packet w = some r) :
    RegistryMatchesState r.1.session := by
  unfold handlePacket at hr
  split at hr
  · exact handleDisconnected_matches E packet w r h hr
  · exact handleStatus_matches E packet w r h (by assumption) hr
  · exact handleStatusPing_matches E packet w r h hr
  · exact handleLogin_matches E packet w r h (by assumption) hr
  · exact handleLoginEncrypt_matches E packet w r h hr
  · cases hr; exact h
  · exact handleConnected_matches E packet w r h hr

theorem protocol_of_matches (s : Session) (h : RegistryMatchesState s)
    (hs : s.state = STATE_LOGIN ∨ s.state = STATE_LOGIN_ENCRYPT ∨ s.state = STATE_INIT ∨
      s.state = STATE_CONNECTED) : ∃ protocol, s.protocol = some protocol := by
  obtain ⟨h1, h2⟩ := h
  unfold expectedRegistry at h2
  cases hp : s.protocol with
  | some protocol => exact ⟨protocol, rfl⟩
  | none =>
    exfalso
    rcases hs with hs | hs | hs | hs <;> rw [hs, hp] at h2 <;> exact h1 h2

theorem SetCompression_isSome (E : Env) (threshold : Int) (w : World) (protocol : Version)
    (hp : w.session.protocol = some protocol) :
    ∃ w', SetCompression E threshold w = some w' ∧ w'.session.protocol = some protocol := by
  by_cases hc : w.session.compressionThreshold = threshold
  · subst hc
    exact ⟨w, SetCompression_same E w, hp⟩
  · exact ⟨_, SetCompression_eq E threshold w protocol hp hc, hp⟩

theorem SetAuthenticated_enter_isSome (E : Env) (server : Server) (w : World)
    (protocol : Version) (hp : w.session.protocol = some protocol) :
    (SetAuthenticated_enter E server w).isSome = true := by
  unfold SetAuthenticated_enter
  simp only
  have hp1 : (SetState STATE_INIT w).session.protocol = some protocol := hp
  obtain ⟨w1, hw1, hp2⟩ := SetCompression_isSome E 256 _ protocol hp1
  split_ifs
  · rw [hw1]; simp only [hp2]; rfl
  · simp only [hp1]; rfl

theorem SetAuthenticated_route_isSome (E : Env) (w : World) (hE : E.InRange)
    (protocol : Version) (hp : w.session.protocol = some protocol) :
    (SetAuthenticated_route E w).isSome = true := by
  unfold SetAuthenticated_route
  simp only
  split_ifs with h0 h1 h2
  · rfl
  · have hlen : 0 < (List.filter (fun serverName => w.connect.HasServer serverName)
        (E.Route w.session.serverAddress)).length := by
      simp only [beq_iff_eq] at h0
      omega
    have hlt := hE.2.1 _ hlen
    rw [List.getElem?_eq_getElem hlt]
    simp only
    split <;> rfl
  · have hlen : 0 < (List.filter (fun serverName => w.connect.HasServer serverName)
        (E.Route w.session.serverAddress)).length := by
      simp only [beq_iff_eq] at h0
      omega
    have hlt := hE.2.1 _ hlen
    rw [List.getElem?_eq_getElem hlt]
    simp only
    split <;> rfl
  · have hlen : 0 < (List.filter (fun serverName => w.connect.HasServer serverName)
        (E.Route w.session.serverAddress)).length := by
      simp only [beq_iff_eq] at h0
      omega
    have hlt := hE.2.1 _ hlen
    rw [List.getElem?_eq_getElem hlt]
    simp only
    split
    · rfl
    · exact SetAuthenticated_enter_isSome E _ _ protocol hp

theorem SetAuthenticated_isSome (E : Env) (result : Bool) (w : World) (hE : E.InRange)
    (protocol : Version) (hp : w.session.protocol = some protocol) :
    (SetAuthenticated E result w).isSome = true := by
  unfold SetAuthenticated
  simp only
  split_ifs
  · rfl
  · rfl
  · rfl
  · rfl
  · exact SetAuthenticated_route_isSome E _ hE protocol hp

theorem getElem?_zero_isSome {α : Type} (xs : List α) (h : xs ≠ []) :
    ∃ x, xs[0]? = some x := by
  cases xs with
  | nil => exact absurd rfl h
  | cons x rest => exact ⟨x, by simp⟩

theorem getElem?_RandomInt (E : Env) (hE : E.InRange) {α : Type} (xs : List α) (h : xs ≠ []) :
    ∃ x, xs[E.RandomInt xs.length]? = some x := by
  have hlen : 0 < xs.length := List.length_pos.mpr h
  exact ⟨_, List.getElem?_eq_getElem (hE.2.1 _ hlen)⟩

theorem handleDisconnected_isSome (E : Env) (packet : Packet) (w : World) (hE : E.InRange) :
    (handleDisconnected E packet w).isSome = true := by
  unfold handleDisconnected
  obtain ⟨v0, hv0⟩ := getElem?_zero_isSome E.K.Versions hE.1
  cases packet <;> simp only [hv0]
  all_goals repeat' split
  all_goals first
    | rfl
    | (rename_i heq
       split_ifs at heq)

theorem SetEncryption_protocol (E : Env) (sharedSecret : Bytes) (w : World) :
    (SetEncryption E sharedSecret w).1.session.protocol = w.session.protocol := by
  rw [SetEncryption_eq]; split <;> rfl

theorem handleStatus_isSome (E : Env) (packet : Packet) (w : World) (hE : E.InRange) :
    (handleStatus E packet w).isSome = true := by
  unfold handleStatus
  obtain ⟨icon, hicon⟩ := getElem?_RandomInt E hE _ (hE.2.2.1 w.session.serverAddress)
  obtain ⟨motd, hmotd⟩ := getElem?_RandomInt E hE _ (hE.2.2.2 w.session.serverAddress)
  cases packet <;> simp only [hicon, hmotd]
  all_goals repeat' split
  all_goals rfl

theorem handleStatusPing_isSome (E : Env) (packet : Packet) (w : World) :
    (handleStatusPing E packet w).isSome = true := by
  unfold handleStatusPing
  cases packet <;> simp only
  all_goals repeat' split
  all_goals rfl

theorem handleLogin_isSome (E : Env) (packet : Packet) (w : World) (hE : E.InRange)
    (protocol : Version) (hp : w.session.protocol = some protocol) :
    (handleLogin E packet w).isSome = true := by
  unfold handleLogin
  cases packet <;> simp only [hp]
  all_goals repeat' split
  all_goals first
    | rfl
    | (rename_i hnone
       exact absurd hnone (Option.isSome_iff_ne_none.mp
         (SetAuthenticated_isSome E true _ hE protocol rfl)))

theorem handleLoginEncrypt_isSome (E : Env) (packet : Packet) (w : World) (hE : E.InRange)
    (protocol : Version) (hp : w.session.protocol = some protocol) :
    (handleLoginEncrypt E packet w).isSome = true := by
  unfold handleLoginEncrypt
  cases packet <;> simp only
  all_goals repeat' split
  all_goals first
    | rfl
    | (rename_i hnone
       exfalso
       split_ifs at hnone
       · exact absurd hnone (Option.isSome_iff_ne_none.mp
           (SetAuthenticated_isSome E false _ hE protocol
             (by simp only [SetEncryption_protocol, hp])))
       · exact absurd hnone (Option.isSome_iff_ne_none.mp
           (SetAuthenticated_isSome E true _ hE protocol
             (by simp only [SetEncryption_protocol, hp]))))

theorem forward_isSome (E : Env) (packet : Packet) (w : World)
    (hb : w.session.outBridge ≠ none) : (forward E packet w).isSome = true := by
  unfold forward
  simp only
  cases hob : w.session.outBridge with
  | none => exact absurd hob hb
  | some b => simp only; split <;> rfl

theorem handleConnected_isSome (E : Env) (packet : Packet) (w : World)
    (hb : w.session.outBridge ≠ none) : (handleConnected E packet w).isSome = true := by
  unfold handleConnected
  cases packet <;> simp only
  all_goals repeat' split
  all_goals first
    | rfl
    | exact forward_isSome E _ _ hb

theorem handlePacket_isSome (E : Env) (packet : Packet) (w : World) (hE : E.InRange)
    (h : RegistryMatchesState w.session)
    (hb : w.session.state = STATE_CONNECTED → w.session.outBridge ≠ none) :
    (handlePacket E packet w).isSome = true := by
  unfold handlePacket
  split
  · exact handleDisconnected_isSome E packet w hE
  · exact handleStatus_isSome E packet w hE
  · exact handleStatusPing_isSome E packet w
  · obtain ⟨protocol, hp⟩ := protocol_of_matches w.session h (Or.inl (by assumption))
    exact handleLogin_isSome E packet w hE protocol hp
  · obtain ⟨protocol, hp⟩ := protocol_of_matches w.session h (Or.inr (Or.inl (by assumption)))
    exact handleLoginEncrypt_isSome E packet w hE protocol hp
  · rfl
  · exact handleConnected_isSome E packet w (hb (by assumption))

namespace PacketPipeline

theorem HasName_append (p q : PacketPipeline) (n : String) :
    HasName (p ++ q) n = (HasName p n || HasName q n) := by
  simp [HasName, List.any_append]

theorem removeFirst_append (p q : PacketPipeline) (n : String) (h : HasName p n = false) :
    removeFirst (p ++ q) n = p ++ removeFirst q n := by
  induction p with
  | nil => rfl
  | cons st rest ih =>
    simp only [HasName, List.any_cons, Bool.or_eq_false_iff, beq_eq_false_iff_ne] at h
    simp only [List.cons_append, removeFirst, beq_iff_eq, h.1, if_false]
    exact congrArg _ (ih (by simpa [HasName] using h.2))

theorem replaceFirst_append (p q : PacketPipeline) (n : String) (c : Codec)
    (h : HasName p n = false) : replaceFirst (p ++ q) n c = p ++ replaceFirst q n c := by
  induction p with
  | nil => rfl
  | cons st rest ih =>
    simp only [HasName, List.any_cons, Bool.or_eq_false_iff, beq_eq_false_iff_ne] at h
    simp only [List.cons_append, replaceFirst, beq_iff_eq, h.1, if_false]
    exact congrArg _ (ih (by simpa [HasName] using h.2))

theorem insertBefore_append (p q : PacketPipeline) (n : String) (new : Stage)
    (h : HasName p n = false) : insertBefore (p ++ q) n new = p ++ insertBefore q n new := by
  induction p with
  | nil => rfl
  | cons st rest ih =>
    simp only [HasName, List.any_cons, Bool.or_eq_false_iff, beq_eq_false_iff_ne] at h
    simp only [List.cons_append, insertBefore, beq_iff_eq, h.1, if_false]
    exact congrArg _ (ih (by simpa [HasName] using h.2))

end PacketPipeline

open PacketPipeline in
theorem compressedPipeline_composition (head : PacketPipeline) (registry : Codec)
    (c t : Int) (hz : head.HasName "zlib" = false) (hr : head.HasName "registry" = false) :
    compressedPipeline (composition head registry c) t = composition head registry t := by
  have hz1 : HasName (head ++ [("registry", registry)]) "zlib" = false := by
    rw [HasName_append, hz]; rfl
  have hr1 : HasName (head ++ [("registry", registry)]) "registry" = true := by
    rw [HasName_append, hr]; rfl
  have hz2 : ∀ x : Int,
      HasName (head ++ [("zlib", Codec.Zlib x), ("registry", registry)]) "zlib" = true := by
    intro x; rw [HasName_append, hz]; rfl
  by_cases hc : c = -1 <;> by_cases ht : t = -1
  · simp only [compressedPipeline, composition, hc, ht, if_true, beq_self_eq_true, orKeep,
      Remove, hz1, Bool.false_eq_true, if_false, Option.getD_none]
  · simp only [compressedPipeline, composition, hc, ht, if_true, if_false, beq_iff_eq, orKeep,
      AddBefore, hz1, hr1, Bool.false_eq_true, Bool.not_true, Bool.or_self, Option.getD_some,
      insertBefore_append _ _ _ _ hr]
    rfl
  · simp only [compressedPipeline, composition, hc, ht, if_true, if_false, beq_self_eq_true,
      orKeep, Remove, hz2, Option.getD_some, removeFirst_append _ _ _ hz]
    rfl
  · simp only [compressedPipeline, composition, hc, ht, if_false, beq_iff_eq, orKeep,
      Replace, hz2, if_true, Option.getD_some, replaceFirst_append _ _ _ _ hz]
    rfl

theorem SetCompression_composition (E : Env) (t : Int) (w : World) (head : PacketPipeline)
    (registry : Codec) (protocol : Version)
    (hz : head.HasName "zlib" = false) (hr : head.HasName "registry" = false)
    (hp : w.session.protocol = some protocol)
    (hc : w.session.pipeline = composition head registry w.session.compressionThreshold) :
    ∃ w', SetCompression E t w = some w' ∧
      w'.session.pipeline = composition head registry t ∧
      w'.session.compressionThreshold = t ∧
      w'.session.protocol = some protocol := by
  by_cases hct : w.session.compressionThreshold = t
  · subst hct
    exact ⟨w, SetCompression_same E w, hc, rfl, hp⟩
  · refine ⟨_, SetCompression_eq E t w protocol hp hct, ?_, rfl, hp⟩
    simp only [hc]
    exact compressedPipeline_composition head registry _ t hz hr

theorem Serve_session (E : Env) (w : World) :
    (Serve E w).session = { w.session with
      pipeline := [("varIntLength", Codec.VarIntLength),
        ("registry", Codec.HandshakePacketServerCodec)] } := by
  unfold Serve
  simp only
  split_ifs <;> rfl

theorem matches_served (s : Session)
    (hp : s.pipeline = [("varIntLength", Codec.VarIntLength),
      ("registry", Codec.HandshakePacketServerCodec)])
    (hs : s.state = STATE_DISCONNECTED) : RegistryMatchesState s := by
  unfold RegistryMatchesState expectedRegistry
  rw [hp, hs]
  exact ⟨by decide, rfl⟩

/-- C1, counterexample: after the login handshake of version 340 the session is
in Login with the login registry, as the invariant says; `ErrorCaught` then
sets the state to Disconnected and leaves the login registry in the
pipeline, where the invariant asks for the Handshake registry. -/
theorem C1_counterexample :
    ∃ w, handlePacket sampleEnv (Packet.PacketServerHandshake 340 "lobby.example" 25565 2)
        sampleWorld = some (w, none) ∧
      RegistryMatchesState w.session ∧
      (ErrorCaught "EOF" w).session.state = STATE_DISCONNECTED ∧
      (ErrorCaught "EOF" w).session.pipeline.Get "registry"
        = some (Codec.LoginServerCodec mc1121_Version02) ∧
      ¬ RegistryMatchesState (ErrorCaught "EOF" w).session := by
  refine ⟨_, rfl, ?_, ?_, ?_, ?_⟩ <;> decide

/-- C1, amended: on a session whose registry stage matches its state,
`handlePacket` (on every packet) and `SetAuthenticated` return a session whose
registry stage matches its state again, and they do return when nothing is
indexed out of range; a served new session matches; `SetState` changes the
state and nothing of the pipeline, and `ErrorCaught` moves to Disconnected
and leaves the pipeline, the registry stage included, as it was. -/
theorem C1_registry_matches_state (E : Env) (w : World)
    (h : RegistryMatchesState w.session) :
    (∀ packet r, handlePacket E packet w = some r → RegistryMatchesState r.1.session) ∧
    (∀ result w', SetAuthenticated E result w = some w' → RegistryMatchesState w'.session) ∧
    (E.InRange → (w.session.state = STATE_CONNECTED → w.session.outBridge ≠ none) →
      ∀ packet, (handlePacket E packet w).isSome = true) ∧
    (E.InRange → w.session.protocol ≠ none →
      ∀ result, (SetAuthenticated E result w).isSome = true) ∧
    (∀ sid remoteIp remotePort registry connect,
      RegistryMatchesState (Serve E (newWorld sid remoteIp remotePort registry connect)).session) ∧
    (∀ state, (SetState state w).session = { w.session with state := state }) ∧
    (∀ err, (ErrorCaught err w).session = { w.session with state := STATE_DISCONNECTED }) := by
  refine ⟨fun packet r hr => handlePacket_matches E packet w r h hr,
    fun result w' hr => SetAuthenticated_matches E result w w' h hr,
    fun hE hb packet => handlePacket_isSome E packet w hE h hb, ?_, ?_, fun _ => rfl, ?_⟩
  · intro hE hp result
    obtain ⟨protocol, hp'⟩ := Option.ne_none_iff_exists'.mp hp
    exact SetAuthenticated_isSome E result w hE protocol hp'
  · intro sid remoteIp remotePort registry connect
    exact matches_served _ (by rw [Serve_session]) (by rw [Serve_session]; rfl)
  · intro err
    unfold ErrorCaught
    simp only
    split_ifs <;> rfl

/-- C1, witness: the theorem at the sample session after its login handshake. -/
theorem C1_registry_matches_state_witness :
    RegistryMatchesState sampleWorld.session ∧
    (∀ packet r, handlePacket sampleEnv packet sampleWorld = some r →
      RegistryMatchesState r.1.session) ∧
    (∀ err, (ErrorCaught err sampleWorld).session
      = { sampleWorld.session with state := STATE_DISCONNECTED }) :=
  ⟨by decide, (C1_registry_matches_state sampleEnv sampleWorld (by decide)).1,
    (C1_registry_matches_state sampleEnv sampleWorld (by decide)).2.2.2.2.2.2⟩

theorem floor_mem (K : VersionNums) (d : Version) :
    K.floor d = K.mc113_VersionNum01 ∨ K.floor d = K.mc113_VersionNum ∨
    K.floor d = K.mc1121_VersionNum02 ∨ K.floor d = K.mc1121_VersionNum ∨
    K.floor d = K.mc112_VersionNum ∨ K.floor d = K.mc19_VersionNum01 ∨
    K.floor d = K.mc19_VersionNum ∨ K.floor d = K.mc18_VersionNum ∨
    K.floor d = K.mc17_VersionNum := by
  cases d <;> simp [VersionNums.floor]

theorem floor_versionLadder (K : VersionNums) (v : Int) :
    K.floor (versionLadder K v) =
      if v ≥ K.mc113_VersionNum01 then K.mc113_VersionNum01
      else if v ≥ K.mc113_VersionNum then K.mc113_VersionNum
      else if v ≥ K.mc1121_VersionNum02 then K.mc1121_VersionNum02
      else if v ≥ K.mc1121_VersionNum then K.mc1121_VersionNum
      else if v ≥ K.mc112_VersionNum then K.mc112_VersionNum
      else if v ≥ K.mc19_VersionNum01 then K.mc19_VersionNum01
      else if v ≥ K.mc19_VersionNum then K.mc19_VersionNum
      else if v ≥ K.mc18_VersionNum then K.mc18_VersionNum
      else K.mc17_VersionNum := by
  unfold versionLadder
  split_ifs <;> rfl

theorem ladder_core (a1 a2 a3 a4 a5 a6 a7 a8 a9 v fd : Int)
    (h1 : a1 > a2) (h2 : a2 > a3) (h3 : a3 > a4) (h4 : a4 > a5) (h5 : a5 > a6)
    (h6 : a6 > a7) (h7 : a7 > a8) (h8 : a8 > a9)
    (hd : fd = a1 ∨ fd = a2 ∨ fd = a3 ∨ fd = a4 ∨ fd = a5 ∨ fd = a6 ∨ fd = a7 ∨ fd = a8 ∨
      fd = a9) :
    (a9 ≤ v →
      (if v ≥ a1 then a1 else if v ≥ a2 then a2 else if v ≥ a3 then a3 else if v ≥ a4 then a4
        else if v ≥ a5 then a5 else if v ≥ a6 then a6 else if v ≥ a7 then a7
        else if v ≥ a8 then a8 else a9) ≤ v) ∧
    ¬ ((if v ≥ a1 then a1 else if v ≥ a2 then a2 else if v ≥ a3 then a3 else if v ≥ a4 then a4
        else if v ≥ a5 then a5 else if v ≥ a6 then a6 else if v ≥ a7 then a7
        else if v ≥ a8 then a8 else a9) < fd ∧ fd ≤ v) := by
  split_ifs <;> omega

theorem ladder_fallback (K : VersionNums) (v : Int) (hK : K.Descending)
    (hv : v < K.mc17_VersionNum) : versionLadder K v = mc17_Version := by
  obtain ⟨h1, h2, h3, h4, h5, h6, h7, h8⟩ := hK
  unfold versionLadder
  split_ifs <;> first | rfl | (exfalso; omega)

theorem handleDisconnected_login (E : Env) (v : Int) (addr : String) (port : Nat)
    (w : World) (hs : supportedVersion E.K v = true) :
    handleDisconnected E (Packet.PacketServerHandshake v addr port 2) w =
      some (SetState STATE_LOGIN
        { w with
          session := { w.session with
            protocolVersion := v
            rawServerAddress := addr
            serverAddress := routingAddress addr
            protocol := some (versionLadder E.K v)
            pipeline := orKeep w.session.pipeline
              (w.session.pipeline.Replace "registry"
                (Codec.LoginServerCodec (versionLadder E.K v))) } }, none) := by
  simp [handleDisconnected, hs]

theorem handleDisconnected_login_refused (E : Env) (v : Int) (addr : String) (port : Nat)
    (w : World) (hs : supportedVersion E.K v = false) :
    handleDisconnected E (Packet.PacketServerHandshake v addr port 2) w =
      some ({ w with
        session := { w.session with
          protocolVersion := v
          rawServerAddress := addr
          serverAddress := routingAddress addr } },
        some ("Protocol version does not match: " ++ toString v)) := by
  simp [handleDisconnected, hs]

theorem supportedVersion_mem (K : VersionNums) (v : Int) :
    supportedVersion K v = true ↔ v ∈ K.Versions := by
  unfold supportedVersion
  simp only [List.any_eq_true, beq_iff_eq]
  constructor
  · rintro ⟨x, hx, rfl⟩
    exact hx
  · intro h
    exact ⟨v, h, rfl⟩

/-- C2: a Handshake with next state 2 handled in Disconnected, the nine floors
of the ladder being in strictly descending order, `mc17` the lowest, and every
entry of `minecraft.Versions` being at or above the `mc17` floor. For every
advertised version `v`: when `v` is supported, `handlePacket` returns no error
and stores as `protocol` the descriptor `d` the ladder of lines 301-319
chooses; its floor is at most `v`, and no descriptor `d'` of the ladder has
`d.floor < d'.floor ≤ v`. When `v` is not supported, `handlePacket` returns
the error of line 298 before the ladder, and `protocol` is as before: no
descriptor is chosen. -/
theorem C2_ladder_greatest_floor (E : Env) (v : Int) (addr : String) (port : Nat) (w : World)
    (hK : E.K.Descending)
    (hfloor : ∀ x ∈ E.K.Versions, E.K.mc17_VersionNum ≤ x)
    (hs : w.session.state = STATE_DISCONNECTED) :
    (v ∈ E.K.Versions →
      ∃ w' d, handlePacket E (Packet.PacketServerHandshake v addr port 2) w = some (w', none) ∧
        w'.session.protocol = some d ∧
        d = versionLadder E.K v ∧
        E.K.floor d ≤ v ∧
        ∀ d' : Version, ¬ (E.K.floor d < E.K.floor d' ∧ E.K.floor d' ≤ v)) ∧
    (v ∉ E.K.Versions →
      ∃ w' err, handlePacket E (Packet.PacketServerHandshake v addr port 2) w =
          some (w', some err) ∧
        w'.session.protocol = w.session.protocol) := by
  obtain ⟨h1, h2, h3, h4, h5, h6, h7, h8⟩ := hK
  refine ⟨?_, ?_⟩
  · intro hmem
    have hsup : supportedVersion E.K v = true := (supportedVersion_mem E.K v).mpr hmem
    have hh : handlePacket E (Packet.PacketServerHandshake v addr port 2) w =
        handleDisconnected E (Packet.PacketServerHandshake v addr port 2) w := by
      unfold handlePacket
      rw [hs]
    have key := handleDisconnected_login E v addr port w hsup
    rw [← hh] at key
    refine ⟨_, versionLadder E.K v, key, rfl, rfl, ?_, fun d' => ?_⟩
    · rw [floor_versionLadder]
      exact (ladder_core _ _ _ _ _ _ _ _ _ v _ h1 h2 h3 h4 h5 h6 h7 h8
        (floor_mem E.K mc17_Version)).1 (hfloor v hmem)
    · rw [floor_versionLadder]
      exact (ladder_core _ _ _ _ _ _ _ _ _ v _ h1 h2 h3 h4 h5 h6 h7 h8 (floor_mem E.K d')).2
  · intro hmem
    have hsup : supportedVersion E.K v = false := by
      cases h : supportedVersion E.K v
      · rfl
      · exact absurd ((supportedVersion_mem E.K v).mp h) hmem
    have hh : handlePacket E (Packet.PacketServerHandshake v addr port 2) w =
        handleDisconnected E (Packet.PacketServerHandshake v addr port 2) w := by
      unfold handlePacket
      rw [hs]
    have key := handleDisconnected_login_refused E v addr port w hsup
    rw [← hh] at key
    exact ⟨_, _, key, rfl⟩

/-- C2, instance: the sample constants are strictly descending and every
sample supported version is at least the `mc17` floor 4. The sample new
session answers the login handshake of version 340 with the descriptor
`mc1121_Version02`, whose floor 340 is at most 340 and the greatest such; it
refuses version 0, which is not supported, and chooses no descriptor. -/
theorem C2_ladder_greatest_floor_witness :
    sampleEnv.K.Descending ∧
    (∀ x ∈ sampleEnv.K.Versions, sampleEnv.K.mc17_VersionNum ≤ x) ∧
    sampleWorld.session.state = STATE_DISCONNECTED ∧
    (∃ w' d, handlePacket sampleEnv (Packet.PacketServerHandshake 340 "lobby.example" 25565 2)
        sampleWorld = some (w', none) ∧
      w'.session.protocol = some d ∧
      d = versionLadder sampleEnv.K 340 ∧
      sampleEnv.K.floor d ≤ 340 ∧
      ∀ d' : Version, ¬ (sampleEnv.K.floor d < sampleEnv.K.floor d' ∧
        sampleEnv.K.floor d' ≤ 340)) ∧
    versionLadder sampleEnv.K 340 = mc1121_Version02 ∧
    (∃ w' err, handlePacket sampleEnv (Packet.PacketServerHandshake 0 "lobby.example" 25565 2)
        sampleWorld = some (w', some err) ∧
      w'.session.protocol = sampleWorld.session.protocol) :=
  ⟨by decide, by decide, by decide,
    (C2_ladder_greatest_floor sampleEnv 340 "lobby.example" 25565 sampleWorld (by decide)
      (by decide) (by decide)).1 (by decide),
    by decide,
    (C2_ladder_greatest_floor sampleEnv 0 "lobby.example" 25565 sampleWorld (by decide)
      (by decide) (by decide)).2 (by decide)⟩

namespace PacketPipeline

theorem insertBefore_append_left (p q : PacketPipeline) (n : String) (new : Stage)
    (h : HasName p n = true) : insertBefore (p ++ q) n new = insertBefore p n new ++ q := by
  induction p with
  | nil => simp [HasName] at h
  | cons st rest ih =>
    by_cases hst : st.1 = n
    · simp [insertBefore, hst]
    · have hrest : HasName rest n = true := by simpa [HasName, hst] using h
      simp only [List.cons_append, insertBefore, beq_iff_eq, hst, if_false]
      exact congrArg _ (ih hrest)

theorem HasName_insertBefore (p : PacketPipeline) (n m : String) (new : Stage)
    (hm : HasName p m = false) (hnew : new.1 ≠ m) :
    HasName (insertBefore p n new) m = false := by
  induction p with
  | nil => rfl
  | cons st rest ih =>
    simp only [HasName, List.any_cons, Bool.or_eq_false_iff, beq_eq_false_iff_ne] at hm
    have hrest : HasName rest m = false := by simpa [HasName] using hm.2
    by_cases hst : st.1 = n
    · simp only [insertBefore, beq_iff_eq, if_pos hst, HasName, List.any_cons,
        Bool.or_eq_false_iff, beq_eq_false_iff_ne]
      exact ⟨hnew, hm.1, hm.2⟩
    · simp only [insertBefore, beq_iff_eq, if_neg hst, HasName, List.any_cons,
        Bool.or_eq_false_iff, beq_eq_false_iff_ne]
      exact ⟨hm.1, by simpa [HasName] using ih hrest⟩

end PacketPipeline

open PacketPipeline in
theorem Composed_zlib_iff (s : Session) (h : Composed s) : ZlibIffThreshold s := by
  obtain ⟨head, registry, hz, hr, hge, hp⟩ := h
  unfold ZlibIffThreshold
  rw [hp]
  unfold composition
  by_cases hc : s.compressionThreshold = -1
  · simp only [hc, if_true, HasName_append, hz, Bool.false_or]
    constructor
    · intro h; simp [HasName] at h
    · intro h; exact absurd h (by decide)
  · simp only [hc, if_false, HasName_append, hz, Bool.false_or]
    constructor
    · intro _; omega
    · intro _; rfl

theorem Composed_SetCompression (E : Env) (t : Int) (w : World) (h : Composed w.session)
    (ht : -1 ≤ t) (hp : w.session.protocol ≠ none) :
    ∃ w', SetCompression E t w = some w' ∧ Composed w'.session := by
  obtain ⟨head, registry, hz, hr, _, hc⟩ := h
  obtain ⟨protocol, hp'⟩ := Option.ne_none_iff_exists'.mp hp
  obtain ⟨w', hw', hpipe, hthr, _⟩ :=
    SetCompression_composition E t w head registry protocol hz hr hp' hc
  exact ⟨w', hw', head, registry, hz, hr, by rw [hthr]; exact ht, by rw [hthr]; exact hpipe⟩

open PacketPipeline in
theorem HasName_composition_varIntLength (head : PacketPipeline) (registry : Codec) (c : Int) :
    (composition head registry c).HasName "varIntLength" = head.HasName "varIntLength" := by
  unfold composition
  split_ifs <;> rw [HasName_append] <;> simp [HasName]

open PacketPipeline in
theorem HasName_composition_cfb8 (head : PacketPipeline) (registry : Codec) (c : Int) :
    (composition head registry c).HasName "cfb8" = head.HasName "cfb8" := by
  unfold composition
  split_ifs <;> rw [HasName_append] <;> simp [HasName]

open PacketPipeline in
theorem Composed_SetEncryption (E : Env) (sharedSecret : Bytes) (w : World)
    (h : Composed w.session) : Composed (SetEncryption E sharedSecret w).1.session := by
  rw [SetEncryption_eq]
  cases E.NewPacketCodecCfb8 sharedSecret with
  | some err => exact h
  | none =>
    obtain ⟨head, registry, hz, hr, hge, hc⟩ := h
    simp only
    by_cases hadd : (head.HasName "cfb8" || !head.HasName "varIntLength") = true
    · refine ⟨head, registry, hz, hr, hge, ?_⟩
      simp only [hc, orKeep, AddBefore, HasName_composition_cfb8,
        HasName_composition_varIntLength, if_pos hadd, Option.getD_none]
    · have hv : head.HasName "varIntLength" = true := by
        cases hh : head.HasName "varIntLength" <;> simp_all
      refine ⟨insertBefore head "varIntLength" ("cfb8", Codec.Cfb8 sharedSecret), registry,
        HasName_insertBefore _ _ _ _ hz (by simp),
        HasName_insertBefore _ _ _ _ hr (by simp), hge, ?_⟩
      simp only [hc, orKeep, AddBefore, HasName_composition_cfb8,
        HasName_composition_varIntLength, if_neg hadd, Option.getD_some]
      unfold composition
      split_ifs <;> exact insertBefore_append_left _ _ _ _ hv

open PacketPipeline in
theorem Composed_Replace_registry (s : Session) (codec : Codec) (h : Composed s) :
    Composed { s with
      pipeline := orKeep s.pipeline (s.pipeline.Replace "registry" codec) } := by
  obtain ⟨head, registry, hz, hr, hge, hc⟩ := h
  refine ⟨head, codec, hz, hr, hge, ?_⟩
  simp only [hc]
  unfold composition
  split_ifs
  · simp [orKeep, Replace, HasName_append, hr, replaceFirst_append _ _ _ _ hr, HasName,
      replaceFirst]
  · simp [orKeep, Replace, HasName_append, hr, replaceFirst_append _ _ _ _ hr, HasName,
      replaceFirst]

theorem Composed_served (s : Session)
    (hp : s.pipeline = [("varIntLength", Codec.VarIntLength),
      ("registry", Codec.HandshakePacketServerCodec)])
    (hc : s.compressionThreshold = -1) : Composed s :=
  ⟨[("varIntLength", Codec.VarIntLength)], Codec.HandshakePacketServerCodec, rfl, rfl,
    by rw [hc], by rw [hc, hp]; rfl⟩

theorem sampleLoginWorld_Composed : Composed sampleLoginWorld.session :=
  ⟨[("varIntLength", Codec.VarIntLength)], Codec.LoginServerCodec mc1121_Version02, rfl, rfl,
    by decide, rfl⟩

theorem Composed_Arranged (s : Session) (h : Composed s) : Arranged s := by
  obtain ⟨head, registry, hz, hr, _, hp⟩ := h
  exact ⟨head, registry, hz, hr, hp⟩

/-- C3: on a session whose pipeline is arranged for its threshold (as it is on
every session with the zlib/threshold invariant, `Composed`) and whose
protocol descriptor is chosen, `SetCompression(t1)` followed by
`SetCompression(t2)` returns, and leaves the same pipeline and the same
threshold as `SetCompression(t2)` alone; when `t1 = t2` the second call
changes nothing at all (no packet is handed to `Write`). -/
theorem C3_SetCompression_last_wins (E : Env) (t1 t2 : Int) (w : World)
    (hc : Arranged w.session) (hp : w.session.protocol ≠ none) :
    (Composed w.session → Arranged w.session) ∧
    ∃ w1 w12 w2, SetCompression E t1 w = some w1 ∧ SetCompression E t2 w1 = some w12 ∧
      SetCompression E t2 w = some w2 ∧
      w12.session.pipeline = w2.session.pipeline ∧
      w12.session.compressionThreshold = w2.session.compressionThreshold ∧
      (t1 = t2 → w12 = w1) := by
  refine ⟨Composed_Arranged _, ?_⟩
  obtain ⟨head, registry, hz, hr, hpipe⟩ := hc
  obtain ⟨protocol, hp'⟩ := Option.ne_none_iff_exists'.mp hp
  obtain ⟨w1, hw1, hp1, hc1, hpr1⟩ :=
    SetCompression_composition E t1 w head registry protocol hz hr hp' hpipe
  obtain ⟨w12, hw12, hp12, hc12, _⟩ :=
    SetCompression_composition E t2 w1 head registry protocol hz hr hpr1 (by rw [hc1]; exact hp1)
  obtain ⟨w2, hw2, hp2, hc2, _⟩ :=
    SetCompression_composition E t2 w head registry protocol hz hr hp' hpipe
  refine ⟨w1, w12, w2, hw1, hw12, hw2, by rw [hp12, hp2], by rw [hc12, hc2], ?_⟩
  intro ht
  have hsame : SetCompression E t2 w1 = some w1 := by
    rw [← ht, ← hc1]; exact SetCompression_same E w1
  rw [hsame] at hw12
  exact (Option.some.inj hw12).symm

/-- C3, witness: the theorem at the sample session in Login, for the
thresholds 64 and 256, and for 256 twice. -/
theorem C3_SetCompression_last_wins_witness :
    Composed sampleLoginWorld.session ∧ sampleLoginWorld.session.protocol ≠ none ∧
    (∃ w1 w12 w2, SetCompression sampleEnv 64 sampleLoginWorld = some w1 ∧
      SetCompression sampleEnv 256 w1 = some w12 ∧
      SetCompression sampleEnv 256 sampleLoginWorld = some w2 ∧
      w12.session.pipeline = w2.session.pipeline ∧
      w12.session.compressionThreshold = w2.session.compressionThreshold ∧
      ((64 : Int) = 256 → w12 = w1)) ∧
    (∃ w1 w12 w2, SetCompression sampleEnv 256 sampleLoginWorld = some w1 ∧
      SetCompression sampleEnv 256 w1 = some w12 ∧
      SetCompression sampleEnv 256 sampleLoginWorld = some w2 ∧
      w12.session.pipeline = w2.session.pipeline ∧
      w12.session.compressionThreshold = w2.session.compressionThreshold ∧
      ((256 : Int) = 256 → w12 = w1)) :=
  ⟨sampleLoginWorld_Composed, by decide,
    (C3_SetCompression_last_wins sampleEnv 64 256 sampleLoginWorld
      (Composed_Arranged _ sampleLoginWorld_Composed) (by decide)).2,
    (C3_SetCompression_last_wins sampleEnv 256 256 sampleLoginWorld
      (Composed_Arranged _ sampleLoginWorld_Composed) (by decide)).2⟩

/-- C4, counterexample: on the sample session in Login (no zlib stage,
threshold -1, so the invariant holds) `SetCompression(-2)` installs a zlib
stage and sets the threshold to -2: the stage is present although the
threshold is below 0. -/
theorem C4_counterexample :
    ZlibIffThreshold sampleLoginWorld.session ∧
    ∃ w, SetCompression sampleEnv (-2) sampleLoginWorld = some w ∧
      w.session.pipeline.HasName "zlib" = true ∧ w.session.compressionThreshold = -2 ∧
      ¬ ZlibIffThreshold w.session := by
  refine ⟨by decide, _, rfl, by decide, by decide, by decide⟩

/-- C4, amended: a session with the zlib/threshold invariant has its zlib
stage exactly when the threshold is at least 0; the invariant holds for a
served new session and is preserved by `SetCompression(t)` for every
threshold `t ≥ -1`, by `SetEncryption`, and by the replacement of the
registry stage. -/
theorem C4_zlib_iff_threshold (E : Env) (w : World) (hc : Composed w.session) :
    ZlibIffThreshold w.session ∧
    (∀ t : Int, -1 ≤ t → w.session.protocol ≠ none →
      ∃ w', SetCompression E t w = some w' ∧ Composed w'.session ∧
        ZlibIffThreshold w'.session) ∧
    (∀ sharedSecret, Composed (SetEncryption E sharedSecret w).1.session ∧
      ZlibIffThreshold (SetEncryption E sharedSecret w).1.session) ∧
    (∀ codec,
      Composed { w.session with
        pipeline := orKeep w.session.pipeline (w.session.pipeline.Replace "registry" codec) } ∧
      ZlibIffThreshold { w.session with
        pipeline := orKeep w.session.pipeline (w.session.pipeline.Replace "registry" codec) }) ∧
    (∀ sid remoteIp remotePort registry connect,
      Composed (Serve E (newWorld sid remoteIp remotePort registry connect)).session ∧
      ZlibIffThreshold (Serve E (newWorld sid remoteIp remotePort registry connect)).session) := by
  refine ⟨Composed_zlib_iff _ hc, ?_, ?_, ?_, ?_⟩
  · intro t ht hp
    obtain ⟨w', hw', hc'⟩ := Composed_SetCompression E t w hc ht hp
    exact ⟨w', hw', hc', Composed_zlib_iff _ hc'⟩
  · intro sharedSecret
    exact ⟨Composed_SetEncryption E sharedSecret w hc,
      Composed_zlib_iff _ (Composed_SetEncryption E sharedSecret w hc)⟩
  · intro codec
    exact ⟨Composed_Replace_registry _ codec hc,
      Composed_zlib_iff _ (Composed_Replace_registry _ codec hc)⟩
  · intro sid remoteIp remotePort registry connect
    have hs : Composed (Serve E (newWorld sid remoteIp remotePort registry connect)).session :=
      Composed_served _ (by rw [Serve_session]) (by rw [Serve_session]; rfl)
    exact ⟨hs, Composed_zlib_iff _ hs⟩

/-- C4, witness: the theorem at the sample session in Login. -/
theorem C4_zlib_iff_threshold_witness :
    Composed sampleLoginWorld.session ∧ ZlibIffThreshold sampleLoginWorld.session ∧
    (∀ t : Int, -1 ≤ t → sampleLoginWorld.session.protocol ≠ none →
      ∃ w', SetCompression sampleEnv t sampleLoginWorld = some w' ∧ Composed w'.session ∧
        ZlibIffThreshold w'.session) :=
  ⟨sampleLoginWorld_Composed,
    (C4_zlib_iff_threshold sampleEnv sampleLoginWorld sampleLoginWorld_Composed).1,
    (C4_zlib_iff_threshold sampleEnv sampleLoginWorld sampleLoginWorld_Composed).2.1⟩

theorem nameChar_toNat (c : Char) (h : nameChar c = true) : c.val.toNat ≤ 127 := by
  simp only [nameChar, Bool.or_eq_true, Bool.and_eq_true, decide_eq_true_eq, beq_iff_eq] at h
  rcases h with ((⟨_, h⟩ | ⟨_, h⟩) | ⟨_, h⟩) | h
  · have h' : c.val.toNat ≤ 122 := h
    omega
  · have h' : c.val.toNat ≤ 90 := h
    omega
  · have h' : c.val.toNat ≤ 57 := h
    omega
  · subst h; decide

theorem nameChar_utf8Size (c : Char) (h : nameChar c = true) : c.utf8Size = 1 := by
  have hle : c.val ≤ 127 := nameChar_toNat c h
  unfold Char.utf8Size
  simp [hle]

theorem utf8ByteSize_go_ge (cs : List Char) : cs.length ≤ String.utf8ByteSize.go cs := by
  induction cs with
  | nil => exact Nat.le_refl 0
  | cons c cs ih =>
    have := Char.utf8Size_pos c
    simp only [String.utf8ByteSize.go, List.length_cons]
    omega

theorem utf8ByteSize_go_eq (cs : List Char) (h : cs.all nameChar = true) :
    String.utf8ByteSize.go cs = cs.length := by
  induction cs with
  | nil => rfl
  | cons c cs ih =>
    simp only [List.all_cons, Bool.and_eq_true] at h
    simp only [String.utf8ByteSize.go, List.length_cons, ih h.2, nameChar_utf8Size c h.1]

theorem len_ge_length (s : String) : s.length ≤ len s := by
  cases s with
  | mk cs => exact utf8ByteSize_go_ge cs

theorem len_eq_length (s : String) (h : s.data.all nameChar = true) : len s = s.length := by
  cases s with
  | mk cs => exact utf8ByteSize_go_eq cs h

theorem validName_iff (name : String) :
    ValidName name ↔ ¬ len name > 16 ∧ MatchString_name name = true := by
  unfold ValidName MatchString_name
  constructor
  · rintro ⟨h1, h16, hall⟩
    have hall' : name.data.all nameChar = true := List.all_eq_true.mpr hall
    refine ⟨?_, ?_⟩
    · rw [len_eq_length name hall']; omega
    · have hne : name.data.isEmpty = false := by
        cases hd : name.data with
        | nil =>
          have : name.length = 0 := by simp [String.length, hd]
          omega
        | cons c cs => rfl
      simp [hne, hall']
  · rintro ⟨hlen, hmatch⟩
    simp only [Bool.and_eq_true, Bool.not_eq_true', List.all_eq_true] at hmatch
    obtain ⟨hne, hall⟩ := hmatch
    refine ⟨?_, ?_, hall⟩
    · cases hd : name.data with
      | nil => simp [hd] at hne
      | cons c cs => simp [String.length, hd]
    · have := len_ge_length name
      omega
theorem handleLogin_invalid (E : Env) (name : String) (w : World) (h : ¬ ValidName name) :
    ∃ msg, handleLogin E (Packet.PacketServerLoginStart name) w =
        some ({ w with session := { w.session with name := name } }, some msg) ∧
      NameError (some msg) := by
  rw [validName_iff] at h
  unfold handleLogin NameError
  simp only
  by_cases hlen : len name > 16
  · exact ⟨_, by rw [if_pos hlen], Or.inl rfl⟩
  · have hm : MatchString_name name = false := by
      cases hh : MatchString_name name
      · rfl
      · exact absurd ⟨hlen, hh⟩ h
    exact ⟨_, by rw [if_neg hlen]; simp [hm], Or.inr rfl⟩
theorem handleLogin_offline (E : Env) (name : String) (w : World) (h : ValidName name)
    (ha : E.Authenticate = false) :
    handleLogin E (Packet.PacketServerLoginStart name) w =
      match SetAuthenticated E true
        { w with session := { w.session with
            name := name
            profile := ⟨E.GenNameUUID ("OfflinePlayer:" ++ name), []⟩ } } with
      | none => none
      | some w' => some (w', none) := by
  rw [validName_iff] at h
  unfold handleLogin
  simp only [if_neg h.1, h.2, ha, Bool.not_true, Bool.false_eq_true, if_false]
  try rfl

theorem handleLogin_online (E : Env) (name : String) (w : World) (protocol : Version)
    (h : ValidName name) (ha : E.Authenticate = true) (hsalt : E.GenSalt.2 = none)
    (htoken : (E.RandomBytes 4).2 = none) (hp : w.session.protocol = some protocol) :
    handleLogin E (Packet.PacketServerLoginStart name) w =
      some (
        if (writeErr E (ClientPacket.PacketClientLoginEncryptRequest protocol E.GenSalt.1
            E.publicKey (E.RandomBytes 4).1)).isSome then
          { w with
            session := { w.session with
              name := name, serverId := E.GenSalt.1, verifyToken := (E.RandomBytes 4).1 }
            written := w.written ++ [ClientPacket.PacketClientLoginEncryptRequest protocol
              E.GenSalt.1 E.publicKey (E.RandomBytes 4).1]
            wire := w.wire ++ onWire E [ClientPacket.PacketClientLoginEncryptRequest protocol
              E.GenSalt.1 E.publicKey (E.RandomBytes 4).1] }
        else
          SetState STATE_LOGIN_ENCRYPT
            { w with
              session := { w.session with
                name := name, serverId := E.GenSalt.1, verifyToken := (E.RandomBytes 4).1 }
              written := w.written ++ [ClientPacket.PacketClientLoginEncryptRequest protocol
                E.GenSalt.1 E.publicKey (E.RandomBytes 4).1]
              wire := w.wire ++ onWire E [ClientPacket.PacketClientLoginEncryptRequest protocol
                E.GenSalt.1 E.publicKey (E.RandomBytes 4).1] },
        writeErr E (ClientPacket.PacketClientLoginEncryptRequest protocol E.GenSalt.1
          E.publicKey (E.RandomBytes 4).1)) := by
  rw [validName_iff] at h
  unfold handleLogin
  simp only [if_neg h.1, h.2, ha, hsalt, htoken, hp, Write_eq, Bool.not_true,
    Bool.false_eq_true, if_false, if_true, Option.isSome_none]
  split_ifs with hw
  · rfl
  · simp only [Option.not_isSome_iff_eq_none] at hw
    simp only [hw]

theorem writeErr_none (E : Env) (h : E.AcceptsWrites) (packet : ClientPacket) :
    writeErr E packet = none := by
  unfold writeErr
  rw [(h packet).1, (h packet).2]
  rfl

theorem handlePacket_login_request (E : Env) (name : String) (w : World)
    (protocol : Version) (hs : w.session.state = STATE_LOGIN)
    (hv : ValidName name) (ha : E.Authenticate = true) (hsalt : E.GenSalt.2 = none)
    (htoken : (E.RandomBytes 4).2 = none) (hw : E.AcceptsWrites)
    (hp : w.session.protocol = some protocol) :
    handlePacket E (Packet.PacketServerLoginStart name) w =
      some (SetState STATE_LOGIN_ENCRYPT
        { w with
          session := { w.session with
            name := name, serverId := E.GenSalt.1, verifyToken := (E.RandomBytes 4).1 }
          written := w.written ++ [ClientPacket.PacketClientLoginEncryptRequest protocol
            E.GenSalt.1 E.publicKey (E.RandomBytes 4).1]
          wire := w.wire ++ [ClientPacket.PacketClientLoginEncryptRequest protocol
            E.GenSalt.1 E.publicKey (E.RandomBytes 4).1] }, none) := by
  have hh : handlePacket E (Packet.PacketServerLoginStart name) w =
      handleLogin E (Packet.PacketServerLoginStart name) w := by
    unfold handlePacket; rw [hs]
  rw [hh, handleLogin_online E name w protocol hv ha hsalt htoken hp, writeErr_none E hw]
  have hon : onWire E [ClientPacket.PacketClientLoginEncryptRequest protocol
      E.GenSalt.1 E.publicKey (E.RandomBytes 4).1] =
      [ClientPacket.PacketClientLoginEncryptRequest protocol
      E.GenSalt.1 E.publicKey (E.RandomBytes 4).1] := by
    simp [onWire, (hw _).1, (hw _).2]
  simp only [Option.isSome_none, Bool.false_eq_true, if_false, hon]

/-- C5: in Login, `handlePacket` on `LoginStart(name)` rejects the name with a
name error exactly when it is not 1 to 16 characters of `[A-Za-z0-9_]`; the
rejection changes nothing but the stored name (the state stays Login, no
packet is handed to `Write`); a valid name proceeds to `SetAuthenticated(true)`
with the offline profile when authentication is off, and to the encryption
request (and, once written, to LoginEncrypt) when it is on; and when the
random source and the socket do not fail, the call returns an error if and
only if the name is invalid. -/
theorem C5_login_name_validation (E : Env) (name : String) (w : World)
    (hs : w.session.state = STATE_LOGIN) :
    (¬ ValidName name →
      ∃ msg, handlePacket E (Packet.PacketServerLoginStart name) w =
          some ({ w with session := { w.session with name := name } }, some msg) ∧
        NameError (some msg)) ∧
    (ValidName name → E.Authenticate = false →
      handlePacket E (Packet.PacketServerLoginStart name) w =
        match SetAuthenticated E true
          { w with session := { w.session with
              name := name
              profile := ⟨E.GenNameUUID ("OfflinePlayer:" ++ name), []⟩ } } with
        | none => none
        | some w' => some (w', none)) ∧
    (ValidName name → E.Authenticate = true → E.GenSalt.2 = none →
      (E.RandomBytes 4).2 = none → E.AcceptsWrites →
      ∀ protocol, w.session.protocol = some protocol →
      handlePacket E (Packet.PacketServerLoginStart name) w =
        some (SetState STATE_LOGIN_ENCRYPT
          { w with
            session := { w.session with
              name := name, serverId := E.GenSalt.1, verifyToken := (E.RandomBytes 4).1 }
            written := w.written ++ [ClientPacket.PacketClientLoginEncryptRequest protocol
              E.GenSalt.1 E.publicKey (E.RandomBytes 4).1]
            wire := w.wire ++ [ClientPacket.PacketClientLoginEncryptRequest protocol
              E.GenSalt.1 E.publicKey (E.RandomBytes 4).1] }, none)) ∧
    (E.GenSalt.2 = none → (E.RandomBytes 4).2 = none → E.AcceptsWrites → E.InRange →
      w.session.protocol ≠ none →
      ∃ r, handlePacket E (Packet.PacketServerLoginStart name) w = some r ∧
        (r.2 ≠ none ↔ ¬ ValidName name)) := by
  have hh : handlePacket E (Packet.PacketServerLoginStart name) w =
      handleLogin E (Packet.PacketServerLoginStart name) w := by
    unfold handlePacket; rw [hs]
  refine ⟨?_, ?_, ?_, ?_⟩
  · rw [hh]; exact handleLogin_invalid E name w
  · rw [hh]; exact handleLogin_offline E name w
  · intro hv ha hsalt htoken hw protocol hp
    exact handlePacket_login_request E name w protocol hs hv ha hsalt htoken hw hp
  · rw [hh]
    intro hsalt htoken hw hE hp
    obtain ⟨protocol, hp'⟩ := Option.ne_none_iff_exists'.mp hp
    by_cases hv : ValidName name
    · by_cases ha : E.Authenticate = true
      · rw [handleLogin_online E name w protocol hv ha hsalt htoken hp', writeErr_none E hw]
        exact ⟨_, rfl, by simp [hv]⟩
      · have ha' : E.Authenticate = false := by simpa using ha
        rw [handleLogin_offline E name w hv ha']
        have hsome := SetAuthenticated_isSome E true
          { w with session := { w.session with
              name := name
              profile := ⟨E.GenNameUUID ("OfflinePlayer:" ++ name), []⟩ } } hE protocol hp'
        obtain ⟨w', hw'⟩ := Option.isSome_iff_exists.mp hsome
        rw [hw']
        exact ⟨_, rfl, by simp [hv]⟩
    · obtain ⟨msg, hmsg, _⟩ := handleLogin_invalid E name w hv
      rw [hmsg]
      exact ⟨_, rfl, by simp [hv]⟩

theorem sampleEnv_AcceptsWrites : sampleEnv.AcceptsWrites :=
  fun _ => ⟨rfl, rfl⟩

theorem sampleEnv_InRange : sampleEnv.InRange :=
  ⟨by decide, fun _ hn => hn, fun _ => List.cons_ne_nil _ _, fun _ => List.cons_ne_nil _ _⟩

/-- C5, witness: on the sample session in Login the name "Bob Ross" (a blank
inside) is rejected at validation, and the valid name "Bob" is answered with
the encryption request. -/
theorem C5_login_name_validation_witness :
    sampleLoginWorld.session.state = STATE_LOGIN ∧ ¬ ValidName "Bob Ross" ∧
    (∃ msg, handlePacket sampleEnv (Packet.PacketServerLoginStart "Bob Ross") sampleLoginWorld =
        some ({ sampleLoginWorld with
          session := { sampleLoginWorld.session with name := "Bob Ross" } }, some msg) ∧
      NameError (some msg)) ∧
    ValidName "Bob" ∧
    (∃ r, handlePacket sampleEnv (Packet.PacketServerLoginStart "Bob") sampleLoginWorld = some r ∧
      (r.2 ≠ none ↔ ¬ ValidName "Bob")) :=
  ⟨by decide, by decide,
    (C5_login_name_validation sampleEnv "Bob Ross" sampleLoginWorld (by decide)).1 (by decide),
    by decide,
    (C5_login_name_validation sampleEnv "Bob" sampleLoginWorld (by decide)).2.2.2 rfl rfl
      sampleEnv_AcceptsWrites sampleEnv_InRange (by decide)⟩

theorem supportedVersion_iff (K : VersionNums) (v : Int) :
    supportedVersion K v = true ↔ v ∈ K.Versions := by
  unfold supportedVersion
  simp only [List.any_eq_true, beq_iff_eq]
  constructor
  · rintro ⟨x, hx, rfl⟩; exact hx
  · intro h; exact ⟨v, h, rfl⟩

/-- C6: in Disconnected, `handlePacket` on a Handshake with next state 2 whose
advertised version is not in `minecraft.Versions` returns the error "Protocol
version does not match"; the world afterwards is the one before with only
the three handshake fields stored (advertised version, raw and routing
address): no packet is handed to `Write`, the state is still Disconnected and
the pipeline and the protocol descriptor are untouched. -/
theorem C6_unsupported_login_handshake (E : Env) (v : Int) (addr : String) (port : Nat)
    (w : World) (hs : w.session.state = STATE_DISCONNECTED) (hu : v ∉ E.K.Versions) :
    ∃ w', handlePacket E (Packet.PacketServerHandshake v addr port 2) w =
        some (w', some ("Protocol version does not match: " ++ toString v)) ∧
      w' = { w with session := { w.session with
        protocolVersion := v, rawServerAddress := addr, serverAddress := routingAddress addr } } ∧
      w'.written = w.written ∧ w'.wire = w.wire ∧
      w'.session.state = STATE_DISCONNECTED ∧
      w'.session.pipeline = w.session.pipeline ∧
      w'.session.pipeline.Get "registry" = w.session.pipeline.Get "registry" ∧
      w'.session.protocol = w.session.protocol := by
  have hsup : supportedVersion E.K v = false := by
    cases h : supportedVersion E.K v
    · rfl
    · exact absurd ((supportedVersion_iff E.K v).mp h) hu
  refine ⟨_, ?_, rfl, rfl, rfl, hs, rfl, rfl, rfl⟩
  unfold handlePacket
  rw [hs]
  simp [handleDisconnected, hsup]

/-- C6, witness: version 1 is not in the sample list of supported versions;
the sample new session keeps the Handshake registry and no descriptor. -/
theorem C6_unsupported_login_handshake_witness :
    sampleWorld.session.state = STATE_DISCONNECTED ∧ (1 : Int) ∉ sampleEnv.K.Versions ∧
    sampleWorld.session.pipeline.Get "registry" = some Codec.HandshakePacketServerCodec ∧
    sampleWorld.session.protocol = none ∧
    ∃ w', handlePacket sampleEnv (Packet.PacketServerHandshake 1 "lobby.example" 25565 2)
        sampleWorld = some (w', some ("Protocol version does not match: " ++ toString (1 : Int))) ∧
      w' = { sampleWorld with session := { sampleWorld.session with
        protocolVersion := 1, rawServerAddress := "lobby.example",
        serverAddress := routingAddress "lobby.example" } } ∧
      w'.written = sampleWorld.written ∧ w'.wire = sampleWorld.wire ∧
      w'.session.state = STATE_DISCONNECTED ∧
      w'.session.pipeline = sampleWorld.session.pipeline ∧
      w'.session.pipeline.Get "registry" = sampleWorld.session.pipeline.Get "registry" ∧
      w'.session.protocol = sampleWorld.session.protocol :=
  ⟨by decide, by decide, by decide, by decide,
    C6_unsupported_login_handshake sampleEnv 1 "lobby.example" 25565 sampleWorld
      (by decide) (by decide)⟩

/-- C7: in Disconnected, Status, StatusPing, Login and LoginEncrypt,
`handlePacket` on a packet that is not the one expected there returns an
error and the world unchanged (no packet handed to `Write`, same state, same
pipeline); and in Disconnected a Handshake whose next state is neither 1 nor
2 returns the error "Unexpected state", with only the three handshake fields
stored (same state, same pipeline, nothing written). -/
theorem C7_unexpected_packet (E : Env) (w : World) :
    (∀ packet, w.session.state ≠ STATE_INIT → w.session.state ≠ STATE_CONNECTED →
      expectedPacket w.session.state packet = false →
      ∃ msg, handlePacket E packet w = some (w, some msg)) ∧
    (∀ (v : Int) (addr : String) (port : Nat) (next : Int),
      w.session.state = STATE_DISCONNECTED → next ≠ 1 → next ≠ 2 →
      handlePacket E (Packet.PacketServerHandshake v addr port next) w =
        some ({ w with session := { w.session with
          protocolVersion := v, rawServerAddress := addr,
          serverAddress := routingAddress addr } }, some "Unexpected state")) := by
  refine ⟨?_, ?_⟩
  · intro packet hi hc he
    unfold handlePacket
    cases hs : w.session.state <;> rw [hs] at he <;> simp only
    · cases packet <;> first | exact ⟨_, rfl⟩ | (simp [expectedPacket] at he)
    · cases packet <;> first | exact ⟨_, rfl⟩ | (simp [expectedPacket] at he)
    · cases packet <;> first | exact ⟨_, rfl⟩ | (simp [expectedPacket] at he)
    · cases packet <;> first | exact ⟨_, rfl⟩ | (simp [expectedPacket] at he)
    · cases packet <;> first | exact ⟨_, rfl⟩ | (simp [expectedPacket] at he)
    · exact absurd hs hi
    · exact absurd hs hc
  · intro v addr port next hs h1 h2
    unfold handlePacket
    rw [hs]
    simp [handleDisconnected, h1, h2]

/-- C7, instance: the sample session in Login answers a StatusRequest and a
Handshake with an error and stays as it was; the sample new session answers a
Handshake with next state 3 with "Unexpected state". -/
theorem C7_unexpected_packet_witness :
    (∃ msg, handlePacket sampleEnv Packet.PacketServerStatusRequest sampleLoginWorld
      = some (sampleLoginWorld, some msg)) ∧
    (∃ msg, handlePacket sampleEnv (Packet.PacketServerHandshake 340 "lobby.example" 25565 2)
      sampleLoginWorld = some (sampleLoginWorld, some msg)) ∧
    handlePacket sampleEnv (Packet.PacketServerHandshake 340 "lobby.example" 25565 3)
      sampleWorld =
        some ({ sampleWorld with session := { sampleWorld.session with
          protocolVersion := 340, rawServerAddress := "lobby.example",
          serverAddress := routingAddress "lobby.example" } }, some "Unexpected state") :=
  ⟨(C7_unexpected_packet sampleEnv sampleLoginWorld).1 _ (by decide) (by decide) (by decide),
    (C7_unexpected_packet sampleEnv sampleLoginWorld).1 _ (by decide) (by decide) (by decide),
    (C7_unexpected_packet sampleEnv sampleWorld).2 340 "lobby.example" 25565 3 (by decide)
      (by decide) (by decide)⟩

theorem InSync_congr {w w' : World} (hsid : w'.session.sid = w.session.sid)
    (hname : w'.session.name = w.session.name) (huuid : w'.session.uuid = w.session.uuid)
    (hauth : Authenticated w'.session = Authenticated w.session)
    (hreg : w'.registry = w.registry)
    (hlp : w'.connect.localPlayers = w.connect.localPlayers)
    (hev : w'.events = w.events) (h : InSync w) : InSync w' := by
  unfold InSync at *
  rw [hsid, hname, huuid, hauth, hreg, hlp, hev]
  exact h

/-- A session that is not authenticated may change its name and uuid. -/
theorem InSync_rename {w w' : World} (hsid : w'.session.sid = w.session.sid)
    (hna : Authenticated w.session = false)
    (hauth : Authenticated w'.session = Authenticated w.session)
    (hreg : w'.registry = w.registry)
    (hlp : w'.connect.localPlayers = w.connect.localPlayers)
    (hev : w'.events = w.events) (h : InSync w) : InSync w' := by
  obtain ⟨h1, h2, h3, h4⟩ := h
  have hnot : Listed w.session.sid w.connect.localPlayers = false := by
    rw [← h1]; exact h2 hna
  refine ⟨by rw [hsid, hreg, hlp]; exact h1, by rw [hsid, hreg, hauth]; exact h2, ?_,
    by rw [hsid, hev]; exact h4⟩
  intro e he hes
  rw [hlp] at he
  rw [hsid] at hes
  exfalso
  have : Listed w.session.sid w.connect.localPlayers = true := by
    unfold Listed
    exact List.any_eq_true.mpr ⟨e, he, by simp [hes]⟩
  rw [hnot] at this
  cases this

theorem InSync_SetState (st : SessionState) (w : World) (hst : st ≠ STATE_INIT)
    (h : InSync w)
    (hna : Authenticated { w.session with state := st } = false →
      Listed w.session.sid w.registry = false) :
    InSync (SetState st w) := by
  obtain ⟨h1, h2, h3, h4⟩ := h
  refine ⟨h1, hna, h3, ?_⟩
  intro f hf
  simp only [SetState, fireEventSession, List.mem_append, List.mem_singleton] at hf
  rcases hf with hf | rfl
  · exact h4 f hf
  · unfold FiredInSync
    cases st <;> first | exact absurd rfl hst | exact h1
theorem Listed_append_self (sid : Nat) (entries : List PlayerEntry) (name : String)
    (uuid : UUID) : Listed sid (entries ++ [⟨sid, name, uuid⟩]) = true := by
  simp [Listed]

theorem not_Listed_of_not_authenticated (w : World) (h : InSync w)
    (hna : Authenticated w.session = false) :
    Listed w.session.sid w.registry = false ∧
    Listed w.session.sid w.connect.localPlayers = false :=
  ⟨h.2.1 hna, by rw [← h.1]; exact h.2.1 hna⟩

theorem SetAuthenticated_InSync (E : Env) (result : Bool) (w w' : World) (h : InSync w)
    (hna : Authenticated w.session = false) (hr : SetAuthenticated E result w = some w') :
    InSync w' := by
  cases result with
  | false =>
    rw [SetAuthenticated_false] at hr
    cases hr
    rw [Disconnect_eq]
    exact InSync_congr rfl rfl rfl rfl rfl rfl rfl h
  | true =>
    rcases SetAuthenticated_some E w w' hr with ⟨reason, rfl⟩ | hroute
    · rw [Disconnect_eq]
      exact InSync_rename (w := w) rfl hna rfl rfl rfl rfl h
    · rcases SetAuthenticated_route_some E _ w' hroute with
        ⟨reason, rfl⟩ | ⟨reason, rfl, hlp⟩ | ⟨server, hlp, henter⟩
      · rw [Disconnect_eq]
        exact InSync_rename (w := w) rfl hna rfl rfl rfl rfl h
      · rw [Disconnect_eq]
        exact InSync_rename (w := w) rfl hna rfl rfl hlp rfl h
      · obtain ⟨protocol, hp, P, c, wr, wi, hP, rfl⟩ :=
          SetAuthenticated_enter_some E _ _ _ henter
        rw [Redirect_eq]
        obtain ⟨hreg, hloc⟩ := not_Listed_of_not_authenticated w h hna
        simp only at hlp
        refine ⟨?_, ?_, ?_, ?_⟩
        · simp only [hlp, Listed_append_self]
        · intro hauth
          simp [Authenticated] at hauth
        · intro e he hes
          simp only [hlp, List.mem_append, List.mem_singleton] at he
          simp only at hes
          rcases he with he | rfl
          · exfalso
            have : Listed w.session.sid w.connect.localPlayers = true :=
              List.any_eq_true.mpr ⟨e, he, by simp [hes]⟩
            rw [hloc] at this
            cases this
          · exact ⟨rfl, rfl⟩
        · intro f hf
          simp only [List.mem_append, List.mem_singleton] at hf
          rcases hf with (hf | rfl) | rfl
          · exact h.2.2.2 f hf
          · simp only [FiredInSync, hlp, Listed_append_self, true_and]
            exact hreg
          · trivial
theorem not_authenticated_of_state {s : Session}
    (hs : s.state = STATE_DISCONNECTED ∨ s.state = STATE_STATUS ∨ s.state = STATE_STATUS_PING ∨
      s.state = STATE_LOGIN ∨ s.state = STATE_LOGIN_ENCRYPT) : Authenticated s = false := by
  unfold Authenticated
  rcases hs with h | h | h | h | h <;> rw [h] <;> rfl

theorem handleDisconnected_InSync (E : Env) (packet : Packet) (w : World) (r : Handled)
    (h : InSync w) (hna : Authenticated w.session = false)
    (hr : handleDisconnected E packet w = some r) : InSync r.1 := by
  unfold handleDisconnected at hr
  cases packet <;> simp only at hr
  all_goals repeat' split at hr
  all_goals cases hr
  all_goals first
    | exact h
    | exact InSync_congr rfl rfl rfl rfl rfl rfl rfl h
    | exact InSync_SetState _ _ (by decide)
        (InSync_congr rfl rfl rfl rfl rfl rfl rfl h) (fun _ => h.2.1 hna)

theorem handleStatus_InSync (E : Env) (packet : Packet) (w : World) (r : Handled)
    (h : InSync w) (hna : Authenticated w.session = false)
    (hr : handleStatus E packet w = some r) : InSync r.1 := by
  unfold handleStatus at hr
  cases packet <;> simp only [Write_eq] at hr
  all_goals repeat' split at hr
  all_goals cases hr
  all_goals first
    | exact h
    | exact InSync_congr rfl rfl rfl rfl rfl rfl rfl h
    | exact InSync_SetState _ _ (by decide)
        (InSync_congr rfl rfl rfl rfl rfl rfl rfl h) (fun _ => h.2.1 hna)

theorem handleStatusPing_InSync (E : Env) (packet : Packet) (w : World) (r : Handled)
    (h : InSync w) (hr : handleStatusPing E packet w = some r) : InSync r.1 := by
  unfold handleStatusPing connClose at hr
  cases packet <;> simp only [Write_eq] at hr
  all_goals repeat' split at hr
  all_goals cases hr
  all_goals exact h

theorem handleLogin_InSync (E : Env) (packet : Packet) (w : World) (r : Handled)
    (h : InSync w) (hna : Authenticated w.session = false)
    (hr : handleLogin E packet w = some r) : InSync r.1 := by
  unfold handleLogin at hr
  cases packet <;> simp only [Write_eq] at hr
  all_goals repeat' split at hr
  all_goals cases hr
  all_goals first
    | exact h
    | exact InSync_rename (w := w) rfl hna rfl rfl rfl rfl h
    | exact InSync_SetState _ _ (by decide)
        (InSync_rename (w := w) rfl hna rfl rfl rfl rfl h) (fun _ => h.2.1 hna)
    | (refine SetAuthenticated_InSync E true _ _ ?_ ?_ (by assumption)
       · exact InSync_rename (w := w) rfl hna rfl rfl rfl rfl h
       · exact hna)

theorem SetEncryption_InSync (E : Env) (sharedSecret : Bytes) (w : World) (h : InSync w) :
    InSync (SetEncryption E sharedSecret w).1 := by
  rw [SetEncryption_eq]
  cases E.NewPacketCodecCfb8 sharedSecret with
  | some err => exact h
  | none => exact InSync_congr (w := w) rfl rfl rfl rfl rfl rfl rfl h

theorem SetEncryption_Authenticated (E : Env) (sharedSecret : Bytes) (w : World) :
    Authenticated (SetEncryption E sharedSecret w).1.session = Authenticated w.session := by
  rw [SetEncryption_eq]
  cases E.NewPacketCodecCfb8 sharedSecret <;> rfl

theorem handleLoginEncrypt_InSync (E : Env) (packet : Packet) (w : World) (r : Handled)
    (h : InSync w) (hna : Authenticated w.session = false)
    (hr : handleLoginEncrypt E packet w = some r) : InSync r.1 := by
  unfold handleLoginEncrypt at hr
  cases packet <;> simp only at hr
  all_goals repeat' split at hr
  all_goals cases hr
  all_goals first
    | exact h
    | exact SetEncryption_InSync E _ w h
    | (rename_i hauth
       have hna' := fun s => (SetEncryption_Authenticated E s w).trans hna
       have h' := fun s => SetEncryption_InSync E s w h
       split_ifs at hauth
       · refine SetAuthenticated_InSync E false _ _ ?_ ?_ hauth
         · exact InSync_rename rfl (hna' _) rfl rfl rfl rfl (h' _)
         · exact hna' _
       · refine SetAuthenticated_InSync E true _ _ ?_ ?_ hauth
         · exact InSync_rename rfl (hna' _) rfl rfl rfl rfl (h' _)
         · exact hna' _)

theorem forward_world (E : Env) (packet : Packet) (w : World) (r : Handled)
    (hr : forward E packet w = some r) :
    r.1 = { w with session := { w.session with outBridge := r.1.session.outBridge } } := by
  unfold forward at hr
  simp only at hr
  repeat' split at hr
  all_goals cases hr
  all_goals rfl

theorem handleConnected_InSync (E : Env) (packet : Packet) (w : World) (r : Handled)
    (h : InSync w) (hr : handleConnected E packet w = some r) : InSync r.1 := by
  unfold handleConnected at hr
  cases packet <;> simp only at hr
  all_goals repeat' split at hr
  all_goals first
    | (cases hr; exact h)
    | (rw [forward_world E _ _ _ hr]
       exact InSync_congr (w := w) rfl rfl rfl rfl rfl rfl rfl h)

theorem handlePacket_InSync (E : Env) (packet : Packet) (w : World) (r : Handled)
    (h : InSync w) (hr : handlePacket E packet w = some r) : InSync r.1 := by
  unfold handlePacket at hr
  split at hr
  · exact handleDisconnected_InSync E packet w r h
      (not_authenticated_of_state (Or.inl (by assumption))) hr
  · exact handleStatus_InSync E packet w r h
      (not_authenticated_of_state (Or.inr (Or.inl (by assumption)))) hr
  · exact handleStatusPing_InSync E packet w r h hr
  · exact handleLogin_InSync E packet w r h
      (not_authenticated_of_state (Or.inr (Or.inr (Or.inr (Or.inl (by assumption)))))) hr
  · exact handleLoginEncrypt_InSync E packet w r h
      (not_authenticated_of_state (Or.inr (Or.inr (Or.inr (Or.inr (by assumption)))))) hr
  · cases hr; exact h
  · exact handleConnected_InSync E packet w r h hr

theorem ErrorCaught_InSync (err : String) (w : World) (h : InSync w) :
    InSync (ErrorCaught err w) := by
  obtain ⟨h1, h2, h3, h4⟩ := h
  unfold ErrorCaught
  simp only
  by_cases ha : Authenticated w.session = true
  · simp only [ha, if_true]
    have hreg : Listed w.session.sid (w.registry.Unregister w.session.sid) = false := by
      simp [Listed, SessionRegistry.Unregister]
    have hlp : Listed w.session.sid
        (w.connect.RemoveLocalPlayer w.session.name w.session.uuid).localPlayers = false := by
      simp only [Listed, ProxyConnect.RemoveLocalPlayer, List.any_eq_false, List.mem_filter,
        beq_iff_eq, Bool.not_eq_true', Bool.and_eq_false_iff, beq_eq_false_iff_ne]
      rintro e ⟨he, hne⟩ hsid
      obtain ⟨hn, hu⟩ := h3 e he hsid
      rcases hne with hne | hne
      · exact hne hn
      · exact hne hu
    refine ⟨?_, fun _ => hreg, ?_, ?_⟩
    · exact hreg.trans hlp.symm
    · intro e he hes
      exfalso
      have : Listed w.session.sid
          (w.connect.RemoveLocalPlayer w.session.name w.session.uuid).localPlayers = true :=
        List.any_eq_true.mpr ⟨e, he, by simpa using hes⟩
      rw [hlp] at this
      cases this
    · intro f hf
      simp only [fireEventSession, connClose, SetState, List.mem_append,
        List.mem_singleton] at hf
      rcases hf with (hf | rfl) | rfl
      · exact h4 f hf
      · exact hreg.trans hlp.symm
      · trivial
  · have ha' : Authenticated w.session = false := by simpa using ha
    simp only [ha', Bool.false_eq_true, if_false]
    refine ⟨h1, fun _ => h2 ha', h3, ?_⟩
    intro f hf
    simp only [fireEventSession, connClose, SetState, List.mem_append,
      List.mem_singleton] at hf
    rcases hf with (hf | rfl) | rfl
    · exact h4 f hf
    · exact h1
    · trivial

theorem InSync_served (E : Env) (sid : Nat) (remoteIp remotePort : String)
    (registry : SessionRegistry) (connect : ProxyConnect)
    (hr : Listed sid registry = false) (hc : Listed sid connect.localPlayers = false) :
    InSync (Serve E (newWorld sid remoteIp remotePort registry connect)) := by
  unfold Serve
  simp only
  have key : InSync (fireEventSession Event.sessionOpen
      { newWorld sid remoteIp remotePort registry connect with
        session := { (newWorld sid remoteIp remotePort registry connect).session with
          pipeline := orKeep (orKeep [] (PacketPipeline.AddLast [] "varIntLength"
            Codec.VarIntLength)) ((orKeep [] (PacketPipeline.AddLast [] "varIntLength"
            Codec.VarIntLength)).AddLast "registry" Codec.HandshakePacketServerCodec) }
        connTimeout := 20 }) := by
    refine ⟨hr.trans hc.symm, fun _ => hr, ?_, ?_⟩
    · intro e he hes
      exfalso
      have : Listed sid connect.localPlayers = true :=
        List.any_eq_true.mpr ⟨e, he, by simpa using hes⟩
      rw [hc] at this
      cases this
    · intro f hf
      simp only [fireEventSession, newWorld, List.nil_append, List.mem_singleton] at hf
      subst hf
      trivial
  split_ifs
  · exact InSync_congr rfl rfl rfl rfl rfl rfl rfl key
  · exact key

theorem sampleWorld_InSync : InSync sampleWorld :=
  InSync_served sampleEnv 1 "192.0.2.7" "50000" [] sampleConnect rfl rfl

theorem sampleLoginWorld_InSync : InSync sampleLoginWorld :=
  handlePacket_InSync sampleEnv (Packet.PacketServerHandshake 340 "lobby.example" 25565 2)
    sampleWorld (sampleLoginWorld, none) sampleWorld_InSync rfl

/-- C8, counterexample: the sample session, in neither set while in Login,
logs in offline as "Alice"; when the state event to Init fires inside
`SetAuthenticated`, the session is already in the local-player set and not
yet in the Session Registry. -/
theorem C8_counterexample :
    Listed 1 sampleLoginWorld.registry = false ∧
    Listed 1 sampleLoginWorld.connect.localPlayers = false ∧
    ∃ w, handlePacket sampleEnvOffline (Packet.PacketServerLoginStart "Alice") sampleLoginWorld
        = some (w, none) ∧
      ∃ f ∈ w.events, f.event = Event.sessionState STATE_INIT ∧
        Listed 1 f.localPlayers = true ∧ Listed 1 f.registry = false := by
  refine ⟨by decide, by decide, _, rfl, ?_⟩
  decide

/-- C8, amended: on a world where the session is in the Session Registry
exactly when it is in the local-player set (and in neither before it is
authenticated), every state event fired by `handlePacket`, `SetAuthenticated`,
`SetState` and `ErrorCaught` sees the session in both or in neither, except
the state event to Init inside `SetAuthenticated`, which sees it in the
local-player set and not yet in the Session Registry; and when each of these
calls returns, the session is again in both or in neither. -/
theorem C8_registry_iff_directory (E : Env) (w : World) (h : InSync w) :
    (∀ packet r, handlePacket E packet w = some r → InSync r.1) ∧
    (∀ result w', Authenticated w.session = false →
      SetAuthenticated E result w = some w' → InSync w') ∧
    (∀ err, InSync (ErrorCaught err w)) ∧
    (∀ state, state ≠ STATE_INIT →
      (state = STATE_CONNECTED ∨ Authenticated w.session = false) →
      InSync (SetState state w)) ∧
    (∀ sid remoteIp remotePort registry connect,
      Listed sid registry = false → Listed sid connect.localPlayers = false →
      InSync (Serve E (newWorld sid remoteIp remotePort registry connect))) := by
  refine ⟨fun packet r hr => handlePacket_InSync E packet w r h hr,
    fun result w' hna hr => SetAuthenticated_InSync E result w w' h hna hr,
    fun err => ErrorCaught_InSync err w h, ?_,
    fun sid remoteIp remotePort registry connect hr hc =>
      InSync_served E sid remoteIp remotePort registry connect hr hc⟩
  intro state hst hor
  refine InSync_SetState state w hst h ?_
  intro hna
  rcases hor with rfl | hor
  · simp [Authenticated] at hna
  · exact h.2.1 hor

/-- C8, witness: the theorem at the sample session in Login: every packet
handled keeps the invariant, and so does `ErrorCaught`. -/
theorem C8_registry_iff_directory_witness :
    InSync sampleLoginWorld ∧
    (∀ packet r, handlePacket sampleEnvOffline packet sampleLoginWorld = some r → InSync r.1) ∧
    (∀ err, InSync (ErrorCaught err sampleLoginWorld)) :=
  ⟨sampleLoginWorld_InSync,
    (C8_registry_iff_directory sampleEnvOffline sampleLoginWorld sampleLoginWorld_InSync).1,
    (C8_registry_iff_directory sampleEnvOffline sampleLoginWorld sampleLoginWorld_InSync).2.2.1⟩

theorem onWire_accepts (E : Env) (h : E.AcceptsWrites) (packets : List ClientPacket) :
    onWire E packets = packets := by
  unfold onWire
  rw [List.filter_eq_self]
  intro p _
  simp [(h p).1, (h p).2]

/-- The last step of an authenticated login: `SetAuthenticated_enter` on a
session in LoginEncrypt with encryption installed, for a version with
compression at login. -/
theorem SetAuthenticated_enter_login (E : Env) (server : Server) (w : World)
    (protocol : Version) (sharedSecret : Bytes)
    (hw : E.AcceptsWrites)
    (hp : w.session.protocol = some protocol)
    (hv : E.K.mc19_VersionNum ≤ w.session.protocolVersion)
    (hthr : w.session.compressionThreshold = -1)
    (hpipe : w.session.pipeline = [("cfb8", Codec.Cfb8 sharedSecret),
      ("varIntLength", Codec.VarIntLength),
      ("registry", Codec.LoginServerCodec protocol)])
    (hcancel : E.sessionRedirectCancelled server = false) (hdial : E.Dial server.Addr = true) :
    ∃ w', SetAuthenticated_enter E server w = some w' ∧
      w'.written = w.written ++
        [ClientPacket.PacketClientLoginSetCompression protocol 256,
         ClientPacket.PacketClientLoginSuccess protocol
          (if w.session.protocolVersion ≥ 5 then E.FormatUUID w.session.profile.Id
            else w.session.profile.Id) w.session.name] ∧
      w'.wire = w.wire ++
        [ClientPacket.PacketClientLoginSetCompression protocol 256,
         ClientPacket.PacketClientLoginSuccess protocol
          (if w.session.protocolVersion ≥ 5 then E.FormatUUID w.session.profile.Id
            else w.session.profile.Id) w.session.name] ∧
      w'.session.pipeline = [("cfb8", Codec.Cfb8 sharedSecret),
        ("varIntLength", Codec.VarIntLength), ("zlib", Codec.Zlib 256),
        ("registry", Codec.PlayServerCodec protocol)] ∧
      w'.session.compressionThreshold = 256 ∧
      w'.session.state = STATE_INIT ∧
      w'.registry = w.registry ++ [⟨w.session.sid, w.session.name, w.session.uuid⟩] ∧
      w'.connect = w.connect ∧
      w'.bridgesServed = w.bridgesServed ++ [server] ∧
      w'.connCloses = w.connCloses := by
  have hget : PacketPipeline.Get [("cfb8", Codec.Cfb8 sharedSecret),
      ("varIntLength", Codec.VarIntLength),
      ("registry", Codec.LoginServerCodec protocol)] "registry"
      = some (Codec.LoginServerCodec protocol) := by
    simp [PacketPipeline.Get]
  by_cases h5 : 5 ≤ w.session.protocolVersion <;>
  simp [h5, SetAuthenticated_enter, SetState, fireEventSession, SetCompression, hp, hthr, hpipe,
    hget, Write_eq, Redirect_eq, onWire_accepts E hw, hv, redirectPackets, redirectDrops,
    redirectServes, hcancel, hdial, PacketPipeline.HasName, PacketPipeline.AddBefore,
    PacketPipeline.Replace, PacketPipeline.insertBefore, PacketPipeline.replaceFirst, orKeep,
    SessionRegistry.Register]

/-- `SetAuthenticated(true)` on a session in LoginEncrypt with encryption
installed, when nothing stands in the way of the login. -/
theorem SetAuthenticated_login (E : Env) (w : World) (protocol : Version)
    (sharedSecret : Bytes) (serverName : String) (server : Server)
    (hw : E.AcceptsWrites)
    (hp : w.session.protocol = some protocol)
    (hv : E.K.mc19_VersionNum ≤ w.session.protocolVersion)
    (hthr : w.session.compressionThreshold = -1)
    (hpipe : w.session.pipeline = [("cfb8", Codec.Cfb8 sharedSecret),
      ("varIntLength", Codec.VarIntLength),
      ("registry", Codec.LoginServerCodec protocol)])
    (hfreeName : w.registry.HasName w.session.name = false)
    (hfreeUuid : w.registry.HasUuid (E.uuidFromString (E.FormatUUID w.session.profile.Id)) = false)
    (hcap : ¬ (1 < E.MaxPlayers ∧ E.MaxPlayers ≤ w.registry.Len))
    (hroute : ((E.Route w.session.serverAddress).filter
        (fun serverName => w.connect.HasServer serverName))[E.RandomInt
          ((E.Route w.session.serverAddress).filter
            (fun serverName => w.connect.HasServer serverName)).length]? = some serverName)
    (hserver : w.connect.Server serverName = some server)
    (hlocalName : w.connect.localPlayers.any (fun e => e.name == w.session.name) = false)
    (hlocalUuid : w.connect.localPlayers.any
      (fun e => e.uuid == E.uuidFromString (E.FormatUUID w.session.profile.Id)) = false)
    (hcancel : E.sessionRedirectCancelled server = false) (hdial : E.Dial server.Addr = true) :
    ∃ w', SetAuthenticated E true w = some w' ∧
      w'.written = w.written ++
        [ClientPacket.PacketClientLoginSetCompression protocol 256,
         ClientPacket.PacketClientLoginSuccess protocol
          (if w.session.protocolVersion ≥ 5 then E.FormatUUID w.session.profile.Id
            else w.session.profile.Id) w.session.name] ∧
      w'.wire = w.wire ++
        [ClientPacket.PacketClientLoginSetCompression protocol 256,
         ClientPacket.PacketClientLoginSuccess protocol
          (if w.session.protocolVersion ≥ 5 then E.FormatUUID w.session.profile.Id
            else w.session.profile.Id) w.session.name] ∧
      w'.session.pipeline = [("cfb8", Codec.Cfb8 sharedSecret),
        ("varIntLength", Codec.VarIntLength), ("zlib", Codec.Zlib 256),
        ("registry", Codec.PlayServerCodec protocol)] ∧
      w'.session.compressionThreshold = 256 ∧
      w'.session.state = STATE_INIT ∧
      w'.registry = w.registry ++ [⟨w.session.sid, w.session.name,
        E.uuidFromString (E.FormatUUID w.session.profile.Id)⟩] ∧
      w'.connect.localPlayers = w.connect.localPlayers ++ [⟨w.session.sid, w.session.name,
        E.uuidFromString (E.FormatUUID w.session.profile.Id)⟩] ∧
      w'.bridgesServed = w.bridgesServed ++ [server] ∧
      w'.connCloses = w.connCloses := by
  have hnonempty : ((E.Route w.session.serverAddress).filter
      (fun serverName => w.connect.HasServer serverName)).length ≠ 0 := by
    intro h0
    rw [List.length_eq_zero] at h0
    rw [h0] at hroute
    simp at hroute
  have hadd : w.connect.AddLocalPlayer w.session.sid w.session.name
      (E.uuidFromString (E.FormatUUID w.session.profile.Id)) =
      ({ w.connect with
          calls := w.connect.calls ++ [ConnectCall.AddLocalPlayer w.session.name
            (E.uuidFromString (E.FormatUUID w.session.profile.Id))]
          localPlayers := w.connect.localPlayers ++ [⟨w.session.sid, w.session.name,
            E.uuidFromString (E.FormatUUID w.session.profile.Id)⟩] }, 1) := by
    unfold ProxyConnect.AddLocalPlayer
    simp only [hlocalName, hlocalUuid, Bool.false_eq_true, if_false]
  have hcap' : (decide (E.MaxPlayers > 1) && decide (w.registry.Len ≥ E.MaxPlayers)) = false := by
    simp only [Bool.and_eq_false_iff, decide_eq_false_iff_not, gt_iff_lt, ge_iff_le]
    by_cases h1 : 1 < E.MaxPlayers
    · exact Or.inr (fun h2 => hcap ⟨h1, h2⟩)
    · exact Or.inl h1
  obtain ⟨w', hw', h1, h2, h3, h4, h5, h6, h7, h8, h9⟩ :=
    SetAuthenticated_enter_login E server
      { w with
        session := { w.session with
          uuid := E.uuidFromString (E.FormatUUID w.session.profile.Id) }
        connect := { w.connect with
          calls := w.connect.calls ++ [ConnectCall.AddLocalPlayer w.session.name
            (E.uuidFromString (E.FormatUUID w.session.profile.Id))]
          localPlayers := w.connect.localPlayers ++ [⟨w.session.sid, w.session.name,
            E.uuidFromString (E.FormatUUID w.session.profile.Id)⟩] } }
      protocol sharedSecret hw hp hv hthr hpipe hcancel hdial
  refine ⟨w', ?_, h1, h2, h3, h4, h5, h6, by rw [h7], h8, h9⟩
  rw [← hw']
  unfold SetAuthenticated SetAuthenticated_route
  simp only [Bool.not_true, Bool.false_eq_true, if_false, hfreeName, hfreeUuid, hcap',
    beq_iff_eq, hnonempty, hroute, hserver, hadd,
    show ((1 : Int) == 0) = false by decide, show ((1 : Int) == -1) = false by decide]

theorem handleLoginEncrypt_accepted (E : Env) (w : World) (encSecret encToken : Bytes)
    (sharedSecret : Bytes) (profile : GameProfile)
    (hdec1 : E.DecryptPKCS1v15 encSecret = Except.ok sharedSecret)
    (hdec2 : E.DecryptPKCS1v15 encToken = Except.ok w.session.verifyToken)
    (hcfb : E.NewPacketCodecCfb8 sharedSecret = none)
    (hid : E.AuthAuthenticate w.session.name w.session.serverId sharedSecret E.publicKey
      = (profile, none)) :
    handleLoginEncrypt E (Packet.PacketServerLoginEncryptResponse encSecret encToken) w =
      match SetAuthenticated E true
        { w with session := { w.session with
            pipeline := orKeep w.session.pipeline
              (w.session.pipeline.AddBefore "cfb8" "varIntLength" (Codec.Cfb8 sharedSecret))
            profile := profile } } with
      | none => none
      | some w' => some (w', none) := by
  unfold handleLoginEncrypt
  simp only [hdec1, hdec2, bne_self_eq_false, Bool.false_eq_true, if_false, SetEncryption_eq,
    hcfb, Option.isSome_none, hid]
  try rfl

/-- C9: an authenticated login of a version at or above the mc19 floor, on a
freshly served session: with a supported version, a valid name, a matching
verify token, a key the cipher accepts, a successful identity-service call,
a free name and uuid, room on the proxy, a routed back-end that is known and
reachable, and a socket that accepts every write, the three packets
Handshake, LoginStart, EncryptResponse are all handled without error; the
session writes EncryptRequest, the login-phase SetCompression(256) and
LoginSuccess, in this order and nothing else; afterwards the pipeline is
[cfb8, varIntLength, zlib(256), registry = protocol.Play], the threshold is
256, the state is Init, and the session is in the Session Registry (and in
the local-player set). -/
theorem C9_authenticated_login (E : Env) (w : World) (v : Int) (addr : String) (port : Nat)
    (name : String) (encSecret encToken sharedSecret : Bytes) (profile : GameProfile)
    (serverName : String) (server : Server)
    (hstate : w.session.state = STATE_DISCONNECTED)
    (hpipe : w.session.pipeline = [("varIntLength", Codec.VarIntLength),
      ("registry", Codec.HandshakePacketServerCodec)])
    (hthr : w.session.compressionThreshold = -1)
    (hauth : E.Authenticate = true)
    (hsup : v ∈ E.K.Versions) (hv : E.K.mc19_VersionNum ≤ v)
    (hname : ValidName name)
    (hsalt : E.GenSalt.2 = none) (hrand : (E.RandomBytes 4).2 = none)
    (hw : E.AcceptsWrites)
    (hdec1 : E.DecryptPKCS1v15 encSecret = Except.ok sharedSecret)
    (hdec2 : E.DecryptPKCS1v15 encToken = Except.ok (E.RandomBytes 4).1)
    (hcfb : E.NewPacketCodecCfb8 sharedSecret = none)
    (hid : E.AuthAuthenticate name E.GenSalt.1 sharedSecret E.publicKey = (profile, none))
    (hfreeName : w.registry.HasName name = false)
    (hfreeUuid : w.registry.HasUuid (E.uuidFromString (E.FormatUUID profile.Id)) = false)
    (hcap : ¬ (1 < E.MaxPlayers ∧ E.MaxPlayers ≤ w.registry.Len))
    (hroute : ((E.Route (routingAddress addr)).filter
        (fun serverName => w.connect.HasServer serverName))[E.RandomInt
          ((E.Route (routingAddress addr)).filter
            (fun serverName => w.connect.HasServer serverName)).length]? = some serverName)
    (hserver : w.connect.Server serverName = some server)
    (hlocalName : w.connect.localPlayers.any (fun e => e.name == name) = false)
    (hlocalUuid : w.connect.localPlayers.any
      (fun e => e.uuid == E.uuidFromString (E.FormatUUID profile.Id)) = false)
    (hcancel : E.sessionRedirectCancelled server = false) (hdial : E.Dial server.Addr = true) :
    ∃ w1 w2 w3,
      handlePacket E (Packet.PacketServerHandshake v addr port 2) w = some (w1, none) ∧
      handlePacket E (Packet.PacketServerLoginStart name) w1 = some (w2, none) ∧
      handlePacket E (Packet.PacketServerLoginEncryptResponse encSecret encToken) w2
        = some (w3, none) ∧
      w3.written = w.written ++
        [ClientPacket.PacketClientLoginEncryptRequest (versionLadder E.K v) E.GenSalt.1
          E.publicKey (E.RandomBytes 4).1,
         ClientPacket.PacketClientLoginSetCompression (versionLadder E.K v) 256,
         ClientPacket.PacketClientLoginSuccess (versionLadder E.K v)
          (if v ≥ 5 then E.FormatUUID profile.Id else profile.Id) name] ∧
      w3.wire = w.wire ++
        [ClientPacket.PacketClientLoginEncryptRequest (versionLadder E.K v) E.GenSalt.1
          E.publicKey (E.RandomBytes 4).1,
         ClientPacket.PacketClientLoginSetCompression (versionLadder E.K v) 256,
         ClientPacket.PacketClientLoginSuccess (versionLadder E.K v)
          (if v ≥ 5 then E.FormatUUID profile.Id else profile.Id) name] ∧
      w3.session.pipeline = [("cfb8", Codec.Cfb8 sharedSecret),
        ("varIntLength", Codec.VarIntLength), ("zlib", Codec.Zlib 256),
        ("registry", Codec.PlayServerCodec (versionLadder E.K v))] ∧
      w3.session.compressionThreshold = 256 ∧
      w3.session.state = STATE_INIT ∧
      w3.registry = w.registry ++
        [⟨w.session.sid, name, E.uuidFromString (E.FormatUUID profile.Id)⟩] ∧
      w3.connect.localPlayers = w.connect.localPlayers ++
        [⟨w.session.sid, name, E.uuidFromString (E.FormatUUID profile.Id)⟩] ∧
      w3.bridgesServed = w.bridgesServed ++ [server] ∧
      w3.connCloses = w.connCloses := by
  have hsup' : supportedVersion E.K v = true := (supportedVersion_iff E.K v).mpr hsup
  -- the handshake
  obtain ⟨W1, hW1⟩ : ∃ W1 : World, W1 = (SetState STATE_LOGIN
      { w with session := { w.session with
          protocolVersion := v
          rawServerAddress := addr
          serverAddress := routingAddress addr
          protocol := some (versionLadder E.K v)
          pipeline := [("varIntLength", Codec.VarIntLength),
            ("registry", Codec.LoginServerCodec (versionLadder E.K v))] } }) := ⟨_, rfl⟩
  have h1 : handlePacket E (Packet.PacketServerHandshake v addr port 2) w = some (W1, none) := by
    unfold handlePacket
    rw [hstate, hW1]
    simp only [handleDisconnected_login E v addr port w hsup', hpipe]
    rfl
  -- the login start
  obtain ⟨W2, hW2⟩ : ∃ W2 : World, W2 = SetState STATE_LOGIN_ENCRYPT
      { W1 with
        session := { W1.session with
          name := name, serverId := E.GenSalt.1, verifyToken := (E.RandomBytes 4).1 }
        written := W1.written ++ [ClientPacket.PacketClientLoginEncryptRequest
          (versionLadder E.K v) E.GenSalt.1 E.publicKey (E.RandomBytes 4).1]
        wire := W1.wire ++ [ClientPacket.PacketClientLoginEncryptRequest
          (versionLadder E.K v) E.GenSalt.1 E.publicKey (E.RandomBytes 4).1] } := ⟨_, rfl⟩
  have h2 : handlePacket E (Packet.PacketServerLoginStart name) W1 = some (W2, none) := by
    rw [hW2]
    exact handlePacket_login_request E name W1 (versionLadder E.K v) (by rw [hW1]; rfl) hname
      hauth hsalt hrand hw (by rw [hW1]; rfl)
  -- the encryption response
  obtain ⟨W, hW⟩ : ∃ W : World, W = { W2 with session := { W2.session with
      pipeline := orKeep W2.session.pipeline
        (W2.session.pipeline.AddBefore "cfb8" "varIntLength" (Codec.Cfb8 sharedSecret))
      profile := profile } } := ⟨_, rfl⟩
  have h3 : handlePacket E (Packet.PacketServerLoginEncryptResponse encSecret encToken) W2 =
      match SetAuthenticated E true W with
      | none => none
      | some w' => some (w', none) := by
    have hst : W2.session.state = STATE_LOGIN_ENCRYPT := by rw [hW2]; rfl
    unfold handlePacket
    rw [hst, hW]
    exact handleLoginEncrypt_accepted E W2 encSecret encToken sharedSecret profile hdec1
      (by rw [hW2]; exact hdec2) hcfb (by rw [hW2, hW1]; exact hid)
  obtain ⟨w3, hw3, f1, f2, f3, f4, f5, f6, f7, f8, f9⟩ :=
    SetAuthenticated_login E W (versionLadder E.K v) sharedSecret serverName server hw
      (by rw [hW, hW2, hW1]; rfl) (by rw [hW, hW2, hW1]; exact hv) (by rw [hW, hW2, hW1]; exact hthr)
      (by rw [hW, hW2, hW1]; rfl) (by rw [hW, hW2, hW1]; exact hfreeName)
      (by rw [hW, hW2, hW1]; exact hfreeUuid) (by rw [hW, hW2, hW1]; exact hcap)
      (by rw [hW, hW2, hW1]; exact hroute) (by rw [hW, hW2, hW1]; exact hserver)
      (by rw [hW, hW2, hW1]; exact hlocalName) (by rw [hW, hW2, hW1]; exact hlocalUuid)
      hcancel hdial
  refine ⟨W1, W2, w3, h1, h2, by rw [h3, hw3], ?_, ?_, f3, f4, f5, ?_, ?_, ?_, ?_⟩
  · rw [f1, hW, hW2, hW1]; simp [SetState, fireEventSession]
  · rw [f2, hW, hW2, hW1]; simp [SetState, fireEventSession]
  · rw [f6, hW, hW2, hW1]; rfl
  · rw [f7, hW, hW2, hW1]; rfl
  · rw [f8, hW, hW2, hW1]; rfl
  · rw [f9, hW, hW2, hW1]; rfl

/-- C9, witness: the sample environment and the sample new session, version
340, name "Bob", a 16-byte shared secret and the verify token the sample
random source hands out. -/
theorem C9_authenticated_login_witness :
    ∃ w1 w2 w3,
      handlePacket sampleEnv (Packet.PacketServerHandshake 340 "lobby.example" 25565 2)
        sampleWorld = some (w1, none) ∧
      handlePacket sampleEnv (Packet.PacketServerLoginStart "Bob") w1 = some (w2, none) ∧
      handlePacket sampleEnv (Packet.PacketServerLoginEncryptResponse (List.replicate 16 1)
        (List.replicate 4 7)) w2 = some (w3, none) ∧
      w3.written = sampleWorld.written ++
        [ClientPacket.PacketClientLoginEncryptRequest (versionLadder sampleEnv.K 340)
          sampleEnv.GenSalt.1 sampleEnv.publicKey (sampleEnv.RandomBytes 4).1,
         ClientPacket.PacketClientLoginSetCompression (versionLadder sampleEnv.K 340) 256,
         ClientPacket.PacketClientLoginSuccess (versionLadder sampleEnv.K 340)
          (if (340 : Int) ≥ 5 then sampleEnv.FormatUUID (GameProfile.mk "Bob" []).Id
            else (GameProfile.mk "Bob" []).Id) "Bob"] ∧
      w3.wire = sampleWorld.wire ++
        [ClientPacket.PacketClientLoginEncryptRequest (versionLadder sampleEnv.K 340)
          sampleEnv.GenSalt.1 sampleEnv.publicKey (sampleEnv.RandomBytes 4).1,
         ClientPacket.PacketClientLoginSetCompression (versionLadder sampleEnv.K 340) 256,
         ClientPacket.PacketClientLoginSuccess (versionLadder sampleEnv.K 340)
          (if (340 : Int) ≥ 5 then sampleEnv.FormatUUID (GameProfile.mk "Bob" []).Id
            else (GameProfile.mk "Bob" []).Id) "Bob"] ∧
      w3.session.pipeline = [("cfb8", Codec.Cfb8 (List.replicate 16 1)),
        ("varIntLength", Codec.VarIntLength), ("zlib", Codec.Zlib 256),
        ("registry", Codec.PlayServerCodec (versionLadder sampleEnv.K 340))] ∧
      w3.session.compressionThreshold = 256 ∧
      w3.session.state = STATE_INIT ∧
      w3.registry = sampleWorld.registry ++
        [⟨sampleWorld.session.sid, "Bob",
          sampleEnv.uuidFromString (sampleEnv.FormatUUID (GameProfile.mk "Bob" []).Id)⟩] ∧
      w3.connect.localPlayers = sampleWorld.connect.localPlayers ++
        [⟨sampleWorld.session.sid, "Bob",
          sampleEnv.uuidFromString (sampleEnv.FormatUUID (GameProfile.mk "Bob" []).Id)⟩] ∧
      w3.bridgesServed = sampleWorld.bridgesServed ++ [⟨"lobby", "10.0.0.2:25566"⟩] ∧
      w3.connCloses = sampleWorld.connCloses :=
  C9_authenticated_login sampleEnv sampleWorld 340 "lobby.example" 25565 "Bob"
    (List.replicate 16 1) (List.replicate 4 7) (List.replicate 16 1) ⟨"Bob", []⟩ "lobby"
    ⟨"lobby", "10.0.0.2:25566"⟩ (by decide) (by decide) (by decide) rfl (by decide) (by decide)
    (by decide) rfl rfl sampleEnv_AcceptsWrites rfl rfl rfl rfl (by decide) (by decide)
    (by decide) (by decide) (by decide) (by decide) (by decide) rfl rfl

theorem disconnectPackets_login (s : Session) (protocol : Version) (json : String)
    (hp : s.protocol = some protocol)
    (hreg : s.pipeline.Get "registry" = some (Codec.LoginServerCodec protocol) ∨
      s.pipeline.Get "registry" = some (Codec.PlayServerCodec protocol)) :
    ∃ packet, disconnectPackets s json = [packet] ∧
      (packet = ClientPacket.PacketClientLoginDisconnect protocol json ∨
       packet = ClientPacket.PacketClientDisconnect protocol json) := by
  unfold disconnectPackets
  rcases hreg with h | h
  · exact ⟨_, by simp [hp, h], Or.inl rfl⟩
  · exact ⟨_, by simp [hp, h], Or.inr rfl⟩

/-- C10: `SetAuthenticated(true)` on a session past the login handshake (its
registry stage is the login or the play codec of its descriptor) whose name
or uuid the Session Registry already holds: the call returns, hands exactly
one packet to `Write`, a disconnect packet with the "already logged in"
text, and closes the socket; the Connect Directory is untouched (no call
reaches it, so its local-player set and player count are as before), the
Session Registry is unchanged, no event is fired and the state is the one
before: nothing but the uuid of the session changed. -/
theorem C10_already_logged_in (E : Env) (w : World) (protocol : Version)
    (hp : w.session.protocol = some protocol)
    (hreg : w.session.pipeline.Get "registry" = some (Codec.LoginServerCodec protocol) ∨
      w.session.pipeline.Get "registry" = some (Codec.PlayServerCodec protocol))
    (hheld : w.registry.HasName w.session.name = true ∨
      w.registry.HasUuid (E.uuidFromString (E.FormatUUID w.session.profile.Id)) = true) :
    ∃ w' packet, SetAuthenticated E true w = some w' ∧
      w'.written = w.written ++ [packet] ∧
      (packet = ClientPacket.PacketClientLoginDisconnect protocol
          (reasonJson E (E.Colorize E.LocaleLoggedIn)) ∨
       packet = ClientPacket.PacketClientDisconnect protocol
          (reasonJson E (E.Colorize E.LocaleLoggedIn))) ∧
      w'.wire = w.wire ++ onWire E [packet] ∧
      w'.connCloses = w.connCloses + 1 ∧
      w'.connect = w.connect ∧
      w'.connect.Players = w.connect.Players ∧
      w'.registry = w.registry ∧
      w'.events = w.events ∧
      w'.session =
        { w.session with uuid := E.uuidFromString (E.FormatUUID w.session.profile.Id) } ∧
      w'.session.state = w.session.state := by
  obtain ⟨packet, hpk, hor⟩ := disconnectPackets_login
    { w.session with uuid := E.uuidFromString (E.FormatUUID w.session.profile.Id) }
    protocol (reasonJson E (E.Colorize E.LocaleLoggedIn)) hp hreg
  have key : SetAuthenticated E true w = some (Disconnect E (E.Colorize E.LocaleLoggedIn)
      { w with session := { w.session with
          uuid := E.uuidFromString (E.FormatUUID w.session.profile.Id) } }) := by
    unfold SetAuthenticated
    rcases hheld with h | h
    · simp [h]
    · by_cases hn : w.registry.HasName w.session.name = true
      · simp [hn]
      · simp [hn, h]
  refine ⟨_, packet, key, ?_, hor, ?_, ?_, ?_, ?_, ?_, ?_, ?_, ?_⟩
  all_goals rw [Disconnect_eq]
  · simp only [hpk]
  · simp only [hpk]

/-- C10, witness: the sample session logging in offline as "Alice" while
session 7 is registered under that name: one login-phase disconnect packet,
registry and directory as before. -/
theorem C10_already_logged_in_witness :
    sampleTakenWorld.registry.HasName sampleTakenWorld.session.name = true ∧
    ∃ w' packet, SetAuthenticated sampleEnvOffline true sampleTakenWorld = some w' ∧
      w'.written = sampleTakenWorld.written ++ [packet] ∧
      (packet = ClientPacket.PacketClientLoginDisconnect mc1121_Version02
          (reasonJson sampleEnvOffline (sampleEnvOffline.Colorize sampleEnvOffline.LocaleLoggedIn)) ∨
       packet = ClientPacket.PacketClientDisconnect mc1121_Version02
          (reasonJson sampleEnvOffline (sampleEnvOffline.Colorize sampleEnvOffline.LocaleLoggedIn))) ∧
      w'.wire = sampleTakenWorld.wire ++ onWire sampleEnvOffline [packet] ∧
      w'.connCloses = sampleTakenWorld.connCloses + 1 ∧
      w'.connect = sampleTakenWorld.connect ∧
      w'.connect.Players = sampleTakenWorld.connect.Players ∧
      w'.registry = sampleTakenWorld.registry ∧
      w'.events = sampleTakenWorld.events ∧
      w'.session = { sampleTakenWorld.session with
        uuid := sampleEnvOffline.uuidFromString
          (sampleEnvOffline.FormatUUID sampleTakenWorld.session.profile.Id) } ∧
      w'.session.state = sampleTakenWorld.session.state :=
  ⟨by decide, C10_already_logged_in sampleEnvOffline sampleTakenWorld mc1121_Version02 rfl
    (Or.inl (by decide)) (Or.inl (by decide))⟩

/-! ## Plugin channels -/

theorem Split_nul_free (name : Bytes) (h : 0 ∉ name) : Split 0 name = [name] := by
  induction name with
  | nil => rfl
  | cons c cs ih =>
    have hc : (c == 0) = false := by
      simp only [beq_eq_false_iff_ne, ne_eq]
      intro h0
      exact h (by simp [h0])
    have hcs : 0 ∉ cs := fun h0 => h (List.mem_cons_of_mem _ h0)
    simp only [Split, hc, Bool.false_eq_true, if_false, ih hcs]

theorem Split_append_nul (name tail : Bytes) (h : 0 ∉ name) :
    Split 0 (name ++ 0 :: tail) = name :: Split 0 tail := by
  induction name with
  | nil => simp [Split]
  | cons c cs ih =>
    have hc : (c == 0) = false := by
      simp only [beq_eq_false_iff_ne, ne_eq]
      intro h0
      exact h (by simp [h0])
    have hcs : 0 ∉ cs := fun h0 => h (List.mem_cons_of_mem _ h0)
    have ih' := ih hcs
    show Split 0 (c :: (cs ++ 0 :: tail)) = _
    simp only [Split, hc, Bool.false_eq_true, if_false, ih']

theorem Split_joinNul (names : List Bytes) (hne : names ≠ [])
    (h : ∀ name ∈ names, 0 ∉ name) : Split 0 (joinNul names) = names := by
  induction names with
  | nil => exact absurd rfl hne
  | cons name rest ih =>
    cases rest with
    | nil => exact Split_nul_free name (h name (by simp))
    | cons name2 rest2 =>
      have h2 : ∀ n ∈ name2 :: rest2, 0 ∉ n := fun n hn => h n (List.mem_cons_of_mem _ hn)
      show Split 0 (name ++ 0 :: joinNul (name2 :: rest2)) = _
      rw [Split_append_nul name _ (h name (by simp)), ih (by simp) h2]

theorem Split_ne_nil {α : Type} [BEq α] (sep : α) (xs : List α) : Split sep xs ≠ [] := by
  cases xs with
  | nil => simp [Split]
  | cons c cs =>
    simp only [Split]
    split_ifs
    · simp
    · split <;> simp

theorem registerChannels_nodup (batch pluginChannels : List Bytes)
    (h : pluginChannels.Nodup) : (registerChannels batch pluginChannels).Nodup := by
  induction batch generalizing pluginChannels with
  | nil => exact h
  | cons c rest ih =>
    simp only [registerChannels]
    split_ifs with hc hl
    · exact ih _ h
    · exact h
    · apply ih
      have hc' : c ∉ pluginChannels := by simpa using hc
      rw [List.nodup_append]
      refine ⟨h, List.nodup_singleton c, ?_⟩
      intro a ha hb
      rw [List.mem_singleton] at hb
      exact hc' (hb ▸ ha)

theorem registerChannels_length (batch pluginChannels : List Bytes)
    (h : pluginChannels.length ≤ 128) : (registerChannels batch pluginChannels).length ≤ 128 := by
  induction batch generalizing pluginChannels with
  | nil => exact h
  | cons c rest ih =>
    simp only [registerChannels]
    split_ifs with hc hl
    · exact ih _ h
    · exact h
    · apply ih
      simp only [List.length_append, List.length_singleton]
      simp only [ge_iff_le, not_le] at hl
      omega

theorem registerChannels_eq (batch pluginChannels : List Bytes) :
    registerChannels batch pluginChannels =
      pluginChannels ++ (newChannels batch pluginChannels).take (128 - pluginChannels.length) := by
  induction batch generalizing pluginChannels with
  | nil => simp [registerChannels, newChannels, distinctInOrder]
  | cons c rest ih =>
    simp only [registerChannels]
    split_ifs with hc hl
    · rw [ih]
      congr 2
      have hc' : c ∈ pluginChannels := by simpa using hc
      simp only [newChannels, distinctInOrder, List.filter_cons, hc, Bool.not_true,
        Bool.false_eq_true, if_false, List.filter_filter]
      apply List.filter_congr
      intro x _
      by_cases hx : x ∈ pluginChannels
      · simp [hx]
      · have : x ≠ c := fun h => hx (h ▸ hc')
        simp [hx, this]
    · have : 128 - pluginChannels.length = 0 := by omega
      simp [this]
    · rw [ih]
      have hc' : c ∉ pluginChannels := by simpa using hc
      simp only [ge_iff_le, not_le] at hl
      have hk : 128 - pluginChannels.length = (128 - (pluginChannels ++ [c]).length) + 1 := by
        simp only [List.length_append, List.length_singleton]
        omega
      rw [hk]
      simp only [newChannels, distinctInOrder, List.filter_cons, hc, Bool.not_false, if_true,
        List.take_succ_cons, List.append_assoc, List.singleton_append, List.filter_filter]
      congr 3
      apply List.filter_congr
      intro x _
      by_cases hx : x ∈ pluginChannels
      · simp [hx]
      · by_cases hxc : x = c
        · simp [hxc]
        · simp [hx, hxc]

theorem registerChannels_toFinset (batch pluginChannels : List Bytes)
    (hnd : pluginChannels.Nodup)
    (hcard : (pluginChannels.toFinset ∪ batch.toFinset).card ≤ 128) :
    (registerChannels batch pluginChannels).toFinset =
      pluginChannels.toFinset ∪ batch.toFinset := by
  induction batch generalizing pluginChannels with
  | nil => simp [registerChannels]
  | cons c rest ih =>
    simp only [registerChannels]
    have hc' : ∀ hc : c ∉ pluginChannels, (pluginChannels ++ [c]).Nodup := by
      intro hc
      rw [List.nodup_append]
      refine ⟨hnd, List.nodup_singleton c, ?_⟩
      intro a ha hb
      rw [List.mem_singleton] at hb
      exact hc (hb ▸ ha)
    have hun : ∀ P : List Bytes, (P ++ [c]).toFinset ∪ rest.toFinset =
        P.toFinset ∪ (c :: rest).toFinset := by
      intro P
      ext x
      simp only [List.toFinset_append, List.toFinset_cons, List.toFinset_nil,
        Finset.mem_union, Finset.mem_insert, List.mem_toFinset, insert_emptyc_eq,
        Finset.mem_singleton]
      tauto
    split_ifs with hc hl
    · have hmem : c ∈ pluginChannels := by simpa using hc
      have hu : pluginChannels.toFinset ∪ (c :: rest).toFinset =
          pluginChannels.toFinset ∪ rest.toFinset := by
        ext x
        simp only [List.toFinset_cons, Finset.mem_union, Finset.mem_insert, List.mem_toFinset]
        constructor
        · rintro (h | h | h)
          · exact Or.inl h
          · exact Or.inl (h ▸ hmem)
          · exact Or.inr h
        · rintro (h | h)
          · exact Or.inl h
          · exact Or.inr (Or.inr h)
      rw [hu] at hcard ⊢
      exact ih _ hnd hcard
    · exfalso
      have hmem : c ∉ pluginChannels := by simpa using hc
      have h1 : (pluginChannels ++ [c]).toFinset.card = pluginChannels.length + 1 := by
        rw [List.toFinset_card_of_nodup (hc' hmem)]
        simp
      have h2 : (pluginChannels ++ [c]).toFinset ⊆
          pluginChannels.toFinset ∪ (c :: rest).toFinset := by
        rw [← hun]
        exact Finset.subset_union_left
      have h3 := Finset.card_le_card h2
      omega
    · have hmem : c ∉ pluginChannels := by simpa using hc
      rw [← hun]
      apply ih _ (hc' hmem)
      rw [hun]
      exact hcard

theorem registerChannels_full (batch pluginChannels : List Bytes)
    (hnd : pluginChannels.Nodup) (hlen : pluginChannels.length ≤ 128)
    (hcard : 128 ≤ (pluginChannels.toFinset ∪ batch.toFinset).card) :
    (registerChannels batch pluginChannels).length = 128 := by
  induction batch generalizing pluginChannels with
  | nil =>
    simp only [registerChannels]
    simp only [List.toFinset_nil, Finset.union_empty,
      List.toFinset_card_of_nodup hnd] at hcard
    omega
  | cons c rest ih =>
    simp only [registerChannels]
    have hun : ∀ P : List Bytes, (P ++ [c]).toFinset ∪ rest.toFinset =
        P.toFinset ∪ (c :: rest).toFinset := by
      intro P
      ext x
      simp only [List.toFinset_append, List.toFinset_cons, List.toFinset_nil,
        Finset.mem_union, Finset.mem_insert, List.mem_toFinset, insert_emptyc_eq,
        Finset.mem_singleton]
      tauto
    split_ifs with hc hl
    · have hmem : c ∈ pluginChannels := by simpa using hc
      have hu : pluginChannels.toFinset ∪ (c :: rest).toFinset =
          pluginChannels.toFinset ∪ rest.toFinset := by
        ext x
        simp only [List.toFinset_cons, Finset.mem_union, Finset.mem_insert, List.mem_toFinset]
        constructor
        · rintro (h | h | h)
          · exact Or.inl h
          · exact Or.inl (h ▸ hmem)
          · exact Or.inr h
        · rintro (h | h)
          · exact Or.inl h
          · exact Or.inr (Or.inr h)
      rw [hu] at hcard
      exact ih _ hnd hlen hcard
    · omega
    · have hmem : c ∉ pluginChannels := by simpa using hc
      simp only [ge_iff_le, not_le] at hl
      apply ih
      · rw [List.nodup_append]
        refine ⟨hnd, List.nodup_singleton c, ?_⟩
        intro a ha hb
        rw [List.mem_singleton] at hb
        exact hmem (hb ▸ ha)
      · simp only [List.length_append, List.length_singleton]
        omega
      · rw [hun]
        exact hcard

theorem forward_redirecting (E : Env) (packet : Packet) (w : World)
    (h : w.session.redirecting = true) : forward E packet w = some (w, none) := by
  unfold forward
  simp only [h, if_true]

theorem forward_bridge (E : Env) (packet : Packet) (w : World) (b : SessionOutBridge)
    (hr : w.session.redirecting = false) (hb : w.session.outBridge = some b) :
    forward E packet w =
      some ({ w with session := { w.session with
        outBridge := some { b with written := b.written ++ [forwarded E w.session packet] } } },
        none) := by
  unfold forward forwarded
  simp only [hr, Bool.false_eq_true, if_false, hb]

theorem forward_none (E : Env) (packet : Packet) (w : World)
    (hr : w.session.redirecting = false) (hb : w.session.outBridge = none) :
    forward E packet w = none := by
  unfold forward
  simp only [hr, Bool.false_eq_true, if_false, hb]

theorem handleConnected_eq (E : Env) (packet : Packet) (w : World) :
    handleConnected E packet w =
      if refusedRegister w.session packet then some (w, none)
      else forward E packet { w with session := bookkeeping packet w.session } := by
  unfold handleConnected refusedRegister bookkeeping
  cases packet <;> simp only [Bool.false_eq_true, if_false]
  rename_i Channel Data
  by_cases h1 : (Channel == "REGISTER") = true
  · simp only [h1, if_true, Bool.true_and, Bool.or_eq_true, decide_eq_true_eq]
  · simp only [h1, Bool.false_eq_true, if_false, Bool.false_and]
    split_ifs <;> rfl

theorem handlePacket_connected (E : Env) (packet : Packet) (w : World)
    (hs : w.session.state = STATE_CONNECTED) :
    handlePacket E packet w =
      if refusedRegister w.session packet then some (w, none)
      else forward E packet { w with session := bookkeeping packet w.session } := by
  unfold handlePacket
  rw [hs]
  exact handleConnected_eq E packet w

theorem registerChannels_fresh (names : List Bytes) (hd : names.Nodup)
    (hlen : names.length ≤ 128) : registerChannels names [] = names := by
  rw [registerChannels_eq]
  have hdio : ∀ l : List Bytes, l.Nodup → distinctInOrder l = l := by
    intro l hl
    induction l with
    | nil => rfl
    | cons c rest ih =>
      rw [List.nodup_cons] at hl
      simp only [distinctInOrder, ih hl.2]
      congr 1
      rw [List.filter_eq_self]
      intro a ha
      simp only [bne_iff_ne, ne_eq]
      rintro rfl
      exact hl.1 ha
  simp only [newChannels, hdio names hd, List.contains_nil, Bool.not_false, List.filter_true,
    List.length_nil, Nat.sub_zero, List.nil_append]
  exact List.take_of_length_le hlen

theorem sampleNames_nul_free : ∀ name ∈ sampleNames, (0 : Nat) ∉ name := by
  intro name hname
  simp only [sampleNames, List.mem_map, List.mem_range] at hname
  obtain ⟨i, _, rfl⟩ := hname
  simp only [List.mem_cons, List.mem_singleton, List.not_mem_nil, or_false, not_or]
  omega

theorem sampleNames_nodup : sampleNames.Nodup := by
  unfold sampleNames
  refine List.Nodup.map_on ?_ (List.nodup_range 200)
  intro i _ j _ h
  simp only [List.cons.injEq, and_true] at h
  omega

theorem registerChannels_subset (batch pluginChannels : List Bytes) :
    ∀ c ∈ registerChannels batch pluginChannels, c ∈ pluginChannels ∨ c ∈ batch := by
  induction batch generalizing pluginChannels with
  | nil => intro c hc; exact Or.inl hc
  | cons d rest ih =>
    intro c hc
    simp only [registerChannels] at hc
    split_ifs at hc
    · rcases ih _ c hc with h | h
      · exact Or.inl h
      · exact Or.inr (List.mem_cons_of_mem _ h)
    · exact Or.inl hc
    · rcases ih _ c hc with h | h
      · rw [List.mem_append, List.mem_singleton] at h
        rcases h with h | h
        · exact Or.inl h
        · exact Or.inr (h ▸ List.mem_cons_self _ _)
      · exact Or.inr (List.mem_cons_of_mem _ h)

theorem forward_pluginChannels (E : Env) (packet : Packet) (w : World) (r : Handled)
    (hr : forward E packet w = some r) :
    r.1.session.pluginChannels = w.session.pluginChannels ∧
    r.1.session.clientSettings = w.session.clientSettings ∧
    r.1.session.mcBrand = w.session.mcBrand ∧
    r.1.session.state = w.session.state ∧
    r.1.session.redirecting = w.session.redirecting ∧
    (w.session.outBridge ≠ none → r.1.session.outBridge ≠ none) ∧
    r.2 = none := by
  unfold forward at hr
  simp only at hr
  repeat' split at hr
  all_goals cases hr
  all_goals simp

theorem forward_returns (E : Env) (packet : Packet) (w : World)
    (hb : w.session.redirecting = true ∨ w.session.outBridge ≠ none) :
    ∃ w', forward E packet w = some (w', none) := by
  by_cases hr : w.session.redirecting = true
  · exact ⟨_, forward_redirecting E packet w hr⟩
  · rcases hb with hb | hb
    · exact absurd hb hr
    · cases hob : w.session.outBridge with
      | none => exact absurd hob hb
      | some b => exact ⟨_, forward_bridge E packet w b (by simpa using hr) hob⟩

theorem registerChannels_one (c : Bytes) (pluginChannels : List Bytes)
    (hc : c ∉ pluginChannels) (hl : pluginChannels.length < 128) :
    registerChannels [c] pluginChannels = pluginChannels ++ [c] := by
  have hl' : ¬ 128 ≤ pluginChannels.length := by omega
  simp [registerChannels, hc, hl']

theorem Split_replicate_nul (n : Nat) :
    Split 0 (List.replicate n 0) = List.replicate (n + 1) ([] : Bytes) := by
  induction n with
  | zero => rfl
  | succ n ih =>
    rw [List.replicate_succ]
    simp only [Split, beq_self_eq_true, if_true, ih]
    rfl

theorem sampleNearlyFullWorld_length :
    sampleNearlyFullWorld.session.pluginChannels.length = 127 := by
  simp [sampleNearlyFullWorld, sampleNames]

theorem new1_not_installed :
    [110, 101, 119, 49] ∉ sampleNearlyFullWorld.session.pluginChannels := by
  intro h
  have h' : [110, 101, 119, 49] ∈ sampleNames := List.mem_of_mem_take h
  simp only [sampleNames, List.mem_map, List.mem_range] at h'
  obtain ⟨i, _, hi⟩ := h'
  simp at hi

theorem bookkeeping_redirecting (packet : Packet) (s : Session) (redirecting : Bool) :
    bookkeeping packet { s with redirecting := redirecting } =
      { bookkeeping packet s with redirecting := redirecting } := by
  unfold bookkeeping
  cases packet <;> simp only
  split_ifs <;> rfl

theorem bookkeeping_outBridge (packet : Packet) (s : Session) :
    (bookkeeping packet s).outBridge = s.outBridge ∧
    (bookkeeping packet s).redirecting = s.redirecting ∧
    (bookkeeping packet s).state = s.state ∧
    (bookkeeping packet s).clientEntityId = s.clientEntityId ∧
    (bookkeeping packet s).serverEntityId = s.serverEntityId := by
  unfold bookkeeping
  cases packet <;> simp only [and_self]
  split_ifs <;> simp only [and_self]

theorem refusedRegister_iff (s : Session) (packet : Packet) :
    refusedRegister s packet = true ↔
      ∃ Data, packet = Packet.PacketServerPluginMessage "REGISTER" Data ∧
        ((Split 0 Data).length ≥ 128 ∨ s.pluginChannels.length ≥ 128) := by
  unfold refusedRegister
  cases packet <;> simp
  rename_i Channel Data
  constructor
  · rintro ⟨rfl, h⟩
    exact ⟨Data, ⟨rfl, rfl⟩, h⟩
  · rintro ⟨D, ⟨rfl, rfl⟩, h⟩
    exact ⟨rfl, h⟩

theorem unregisterChannels_sublist (batch pluginChannels : List Bytes) :
    (unregisterChannels batch pluginChannels).Sublist pluginChannels := by
  induction batch generalizing pluginChannels with
  | nil => exact List.Sublist.refl _
  | cons c rest ih =>
    simp only [unregisterChannels]
    exact (ih _).trans (List.filter_sublist _)

theorem Capped_bookkeeping (packet : Packet) (s : Session) (h : Capped s) :
    Capped (bookkeeping packet s) := by
  unfold bookkeeping
  cases packet <;> try exact h
  rename_i Channel Data
  simp only
  split_ifs
  · exact ⟨registerChannels_nodup _ _ h.1, registerChannels_length _ _ h.2⟩
  · exact ⟨h.1.sublist (unregisterChannels_sublist _ _),
      le_trans (unregisterChannels_sublist _ _).length_le h.2⟩
  · exact h
  · exact h

theorem handleLoginEncrypt_mismatch (E : Env) (w : World) (encSecret encToken : Bytes)
    (sharedSecret verifyToken : Bytes)
    (hdec1 : E.DecryptPKCS1v15 encSecret = Except.ok sharedSecret)
    (hdec2 : E.DecryptPKCS1v15 encToken = Except.ok verifyToken)
    (hne : w.session.verifyToken ≠ verifyToken) :
    handleLoginEncrypt E (Packet.PacketServerLoginEncryptResponse encSecret encToken) w =
      some (w, some "Verify token does not match") := by
  unfold handleLoginEncrypt
  simp only [hdec1, hdec2, bne_iff_ne, ne_eq, hne, not_false_eq_true, if_true]

theorem handleLoginEncrypt_refused (E : Env) (w : World) (encSecret encToken : Bytes)
    (sharedSecret : Bytes)
    (hdec1 : E.DecryptPKCS1v15 encSecret = Except.ok sharedSecret)
    (hdec2 : E.DecryptPKCS1v15 encToken = Except.ok w.session.verifyToken)
    (hcfb : E.NewPacketCodecCfb8 sharedSecret = none)
    (hid : (E.AuthAuthenticate w.session.name w.session.serverId sharedSecret
      E.publicKey).2 ≠ none) :
    handleLoginEncrypt E (Packet.PacketServerLoginEncryptResponse encSecret encToken) w =
      some (Disconnect E "Error: Authentication to Minecraft.net Failed"
        { w with session := { w.session with
            pipeline := orKeep w.session.pipeline
              (w.session.pipeline.AddBefore "cfb8" "varIntLength" (Codec.Cfb8 sharedSecret))
            profile := (E.AuthAuthenticate w.session.name w.session.serverId sharedSecret
              E.publicKey).1 } }, none) := by
  have hid' : (E.AuthAuthenticate w.session.name w.session.serverId sharedSecret
      E.publicKey).2.isSome = true := by
    cases h : (E.AuthAuthenticate w.session.name w.session.serverId sharedSecret E.publicKey).2
    · exact absurd h hid
    · rfl
  unfold handleLoginEncrypt
  simp only [hdec1, hdec2, bne_self_eq_false, Bool.false_eq_true, if_false, SetEncryption_eq,
    hcfb, Option.isSome_none, hid', if_true, SetAuthenticated_false]
  try rfl

/-- C11: an EncryptResponse in LoginEncrypt, on a session whose registry stage
is the login codec of its descriptor, with both RSA decryptions succeeding.
When the decrypted verify token differs from the session's, `handlePacket`
returns the error "Verify token does not match" and leaves the world as it
was: no packet is handed to `Write` and the socket is not closed by the
handler. When the token matches, the cipher accepts the key and the identity
service answers with an error, `handlePacket` returns no error, hands exactly
one packet to `Write`, the login-phase disconnect packet with the text
"Error: Authentication to Minecraft.net Failed", and closes the socket. In
both cases the session stays in LoginEncrypt (not authenticated), and the
Session Registry, the Connect Directory and the list of fired events are as
before. -/
theorem C11_auth_failure (E : Env) (w : World) (protocol : Version)
    (encSecret encToken sharedSecret verifyToken : Bytes)
    (hs : w.session.state = STATE_LOGIN_ENCRYPT)
    (hp : w.session.protocol = some protocol)
    (hreg : w.session.pipeline.Get "registry" = some (Codec.LoginServerCodec protocol))
    (hdec1 : E.DecryptPKCS1v15 encSecret = Except.ok sharedSecret)
    (hdec2 : E.DecryptPKCS1v15 encToken = Except.ok verifyToken) :
    (w.session.verifyToken ≠ verifyToken →
      handlePacket E (Packet.PacketServerLoginEncryptResponse encSecret encToken) w =
        some (w, some "Verify token does not match")) ∧
    (w.session.verifyToken = verifyToken →
      E.NewPacketCodecCfb8 sharedSecret = none →
      (E.AuthAuthenticate w.session.name w.session.serverId sharedSecret E.publicKey).2
        ≠ none →
      ∃ w', handlePacket E (Packet.PacketServerLoginEncryptResponse encSecret encToken) w =
          some (w', none) ∧
        w'.written = w.written ++ [ClientPacket.PacketClientLoginDisconnect protocol
          (reasonJson E "Error: Authentication to Minecraft.net Failed")] ∧
        w'.wire = w.wire ++ onWire E [ClientPacket.PacketClientLoginDisconnect protocol
          (reasonJson E "Error: Authentication to Minecraft.net Failed")] ∧
        w'.connCloses = w.connCloses + 1 ∧
        w'.session.state = STATE_LOGIN_ENCRYPT ∧
        Authenticated w'.session = false ∧
        w'.registry = w.registry ∧
        w'.connect = w.connect ∧
        w'.events = w.events) := by
  refine ⟨?_, ?_⟩
  · intro hne
    unfold handlePacket
    rw [hs]
    exact handleLoginEncrypt_mismatch E w encSecret encToken sharedSecret verifyToken
      hdec1 hdec2 hne
  · intro heq hcfb hid
    subst heq
    have hpk : disconnectPackets
        { w.session with
          pipeline := orKeep w.session.pipeline
            (w.session.pipeline.AddBefore "cfb8" "varIntLength" (Codec.Cfb8 sharedSecret))
          profile := (E.AuthAuthenticate w.session.name w.session.serverId sharedSecret
            E.publicKey).1 }
        (reasonJson E "Error: Authentication to Minecraft.net Failed") =
        [ClientPacket.PacketClientLoginDisconnect protocol
          (reasonJson E "Error: Authentication to Minecraft.net Failed")] := by
      have hget : (orKeep w.session.pipeline (w.session.pipeline.AddBefore "cfb8"
          "varIntLength" (Codec.Cfb8 sharedSecret))).Get "registry" =
          some (Codec.LoginServerCodec protocol) := by
        rw [Get_orKeep_AddBefore_ne _ _ _ _ _ (by decide), hreg]
      unfold disconnectPackets
      simp only [hp, hget, beq_self_eq_true, if_true]
    have key := handleLoginEncrypt_refused E w encSecret encToken sharedSecret hdec1 hdec2
      hcfb hid
    have hh : handlePacket E (Packet.PacketServerLoginEncryptResponse encSecret encToken) w =
        handleLoginEncrypt E (Packet.PacketServerLoginEncryptResponse encSecret encToken) w := by
      unfold handlePacket
      rw [hs]
    rw [← hh] at key
    refine ⟨_, key, ?_, ?_, ?_, ?_, ?_, ?_, ?_, ?_⟩
    all_goals rw [Disconnect_eq]
    · simp only [hpk]
    · simp only [hpk]
    · simp only [hs]
    · simp only [Authenticated, hs]
      decide

/-- C11, instance: the sample session in LoginEncrypt. A wrong verify token
returns the error and leaves the world untouched; with the right token and an
identity service that is down, one login-phase disconnect packet is written
and the socket closed. -/
theorem C11_auth_failure_witness :
    sampleEncryptWorld.session.state = STATE_LOGIN_ENCRYPT ∧
    handlePacket sampleEnvAuthDown
      (Packet.PacketServerLoginEncryptResponse (List.replicate 16 1) [9, 9, 9, 9])
      sampleEncryptWorld = some (sampleEncryptWorld, some "Verify token does not match") ∧
    ∃ w', handlePacket sampleEnvAuthDown
        (Packet.PacketServerLoginEncryptResponse (List.replicate 16 1) [7, 7, 7, 7])
        sampleEncryptWorld = some (w', none) ∧
      w'.written = sampleEncryptWorld.written ++
        [ClientPacket.PacketClientLoginDisconnect mc1121_Version02
          (reasonJson sampleEnvAuthDown "Error: Authentication to Minecraft.net Failed")] ∧
      w'.wire = sampleEncryptWorld.wire ++ onWire sampleEnvAuthDown
        [ClientPacket.PacketClientLoginDisconnect mc1121_Version02
          (reasonJson sampleEnvAuthDown "Error: Authentication to Minecraft.net Failed")] ∧
      w'.connCloses = sampleEncryptWorld.connCloses + 1 ∧
      w'.session.state = STATE_LOGIN_ENCRYPT ∧
      Authenticated w'.session = false ∧
      w'.registry = sampleEncryptWorld.registry ∧
      w'.connect = sampleEncryptWorld.connect ∧
      w'.events = sampleEncryptWorld.events :=
  ⟨by decide,
    (C11_auth_failure sampleEnvAuthDown sampleEncryptWorld mc1121_Version02
      (List.replicate 16 1) [9, 9, 9, 9] (List.replicate 16 1) [9, 9, 9, 9]
      (by decide) (by decide) (by decide) rfl rfl).1 (by decide),
    (C11_auth_failure sampleEnvAuthDown sampleEncryptWorld mc1121_Version02
      (List.replicate 16 1) [7, 7, 7, 7] (List.replicate 16 1) [7, 7, 7, 7]
      (by decide) (by decide) (by decide) rfl rfl).2 (by decide) (by decide) (by decide)⟩

/-- C11, counterexample: the sample session in LoginEncrypt gets an
EncryptResponse whose verify token [9, 9, 9, 9] is not the session's
[7, 7, 7, 7]. `handlePacket` returns the error "Verify token does not match";
nothing was handed to `Write` (no disconnect packet) and the handler did not
close the socket. -/
theorem C11_counterexample :
    sampleEncryptWorld.session.state = STATE_LOGIN_ENCRYPT ∧
    sampleEncryptWorld.session.verifyToken = [7, 7, 7, 7] ∧
    ∃ w', handlePacket sampleEnv
        (Packet.PacketServerLoginEncryptResponse (List.replicate 16 1) [9, 9, 9, 9])
        sampleEncryptWorld = some (w', some "Verify token does not match") ∧
      w'.written = sampleEncryptWorld.written ∧
      w'.wire = sampleEncryptWorld.wire ∧
      w'.connCloses = sampleEncryptWorld.connCloses :=
  ⟨by decide, by decide, sampleEncryptWorld, by decide, rfl, rfl, rfl⟩

theorem closeEvents_append (xs ys : List Fired) :
    closeEvents (xs ++ ys) = closeEvents xs + closeEvents ys := by
  unfold closeEvents
  exact List.countP_append _ xs ys

theorem ErrorCaught_events (err : String) (w : World) :
    ∃ registry localPlayers,
      (ErrorCaught err w).events = w.events ++
        [⟨Event.sessionState STATE_DISCONNECTED, registry, localPlayers⟩,
         ⟨Event.sessionClose, registry, localPlayers⟩] ∧
      registry = (ErrorCaught err w).registry ∧
      localPlayers = (ErrorCaught err w).connect.localPlayers := by
  unfold ErrorCaught
  simp only [fireEventSession, connClose, SetState, List.append_assoc, List.singleton_append]
  split_ifs <;> exact ⟨_, _, rfl, rfl, rfl⟩

theorem sampleInitWorld_InSync : InSync sampleInitWorld :=
  handlePacket_InSync sampleEnvOffline (Packet.PacketServerLoginStart "Alice") sampleLoginWorld
    (sampleInitWorld, none) sampleLoginWorld_InSync (by decide)

/-- C12: `ErrorCaught(err)` on a session in any state, in a world where the
registry/directory invariant holds (the session is in the Session Registry
exactly when it is in the local-player set, in neither unless its state is
Init or Connected, and its local-player entries carry its name and uuid).
Afterwards the state is Disconnected, the socket has been closed once more,
exactly two events were fired, the state event to Disconnected and then one
close event, and the session is neither in the Session Registry nor in the
local-player set. The entries of other sessions in the Session Registry are
all kept, and so is every local-player entry that does not carry this
session's name and uuid. A session that is not authenticated (never
registered or added) leaves the Session Registry and the Connect Directory
exactly as they were: no removal is even requested. -/
theorem C12_ErrorCaught_cleanup (err : String) (w : World) (h : InSync w) :
    (ErrorCaught err w).session.state = STATE_DISCONNECTED ∧
    (ErrorCaught err w).connCloses = w.connCloses + 1 ∧
    (∃ f, (ErrorCaught err w).events = w.events ++ [f, ⟨Event.sessionClose,
        (ErrorCaught err w).registry, (ErrorCaught err w).connect.localPlayers⟩] ∧
      f.event = Event.sessionState STATE_DISCONNECTED) ∧
    closeEvents (ErrorCaught err w).events = closeEvents w.events + 1 ∧
    Listed w.session.sid (ErrorCaught err w).registry = false ∧
    Listed w.session.sid (ErrorCaught err w).connect.localPlayers = false ∧
    (ErrorCaught err w).session.sid = w.session.sid ∧
    (∀ e ∈ w.registry, e.sid ≠ w.session.sid → e ∈ (ErrorCaught err w).registry) ∧
    (∀ e ∈ w.connect.localPlayers, ¬ (e.name = w.session.name ∧ e.uuid = w.session.uuid) →
      e ∈ (ErrorCaught err w).connect.localPlayers) ∧
    (∀ e ∈ (ErrorCaught err w).registry, e ∈ w.registry) ∧
    (∀ e ∈ (ErrorCaught err w).connect.localPlayers, e ∈ w.connect.localPlayers) ∧
    (Authenticated w.session = false →
      (ErrorCaught err w).registry = w.registry ∧ (ErrorCaught err w).connect = w.connect) := by
  have hsync := ErrorCaught_InSync err w h
  obtain ⟨registry, localPlayers, hev, hr, hl⟩ := ErrorCaught_events err w
  have hstate : (ErrorCaught err w).session.state = STATE_DISCONNECTED := by
    unfold ErrorCaught
    simp only [fireEventSession, connClose, SetState]
  have hsid : (ErrorCaught err w).session.sid = w.session.sid := by
    unfold ErrorCaught
    simp only [fireEventSession, connClose, SetState]
    split_ifs <;> rfl
  have hna : Authenticated (ErrorCaught err w).session = false := by
    simp only [Authenticated, hstate]
    decide
  have hreg : Listed w.session.sid (ErrorCaught err w).registry = false := by
    rw [← hsid]
    exact hsync.2.1 hna
  refine ⟨hstate, ?_, ⟨⟨Event.sessionState STATE_DISCONNECTED, registry, localPlayers⟩, ?_,
    rfl⟩, ?_, hreg, ?_, hsid, ?_, ?_, ?_, ?_, ?_⟩
  · unfold ErrorCaught
    simp only [fireEventSession, connClose, SetState]
    split_ifs <;> rfl
  · rw [hev, hr, hl]
  · rw [hev, closeEvents_append]
    simp [closeEvents]
  · rw [← hsid, ← hsync.1, hsid]
    exact hreg
  · intro e he hne
    unfold ErrorCaught
    simp only [fireEventSession, connClose, SetState]
    split_ifs
    · simp only [SessionRegistry.Unregister, List.mem_filter, bne_iff_ne, ne_eq]
      exact ⟨he, hne⟩
    · exact he
  · intro e he hne
    unfold ErrorCaught
    simp only [fireEventSession, connClose, SetState]
    split_ifs
    · simp only [ProxyConnect.RemoveLocalPlayer, List.mem_filter, Bool.not_eq_true',
        Bool.and_eq_false_iff, beq_eq_false_iff_ne, ne_eq]
      refine ⟨he, ?_⟩
      by_cases hn : e.name = w.session.name
      · exact Or.inr (fun hu => hne ⟨hn, hu⟩)
      · exact Or.inl hn
    · exact he
  · intro e he
    unfold ErrorCaught at he
    simp only [fireEventSession, connClose, SetState] at he
    split_ifs at he
    · exact (List.mem_filter.mp he).1
    · exact he
  · intro e he
    unfold ErrorCaught at he
    simp only [fireEventSession, connClose, SetState] at he
    split_ifs at he
    · exact (List.mem_filter.mp he).1
    · exact he
  · intro hn
    unfold ErrorCaught
    simp only [fireEventSession, connClose, SetState, hn, Bool.false_eq_true, if_false,
      and_self]

/-- C12, instance: `ErrorCaught` on the sample session in Init, which is
registered and a local player: afterwards both lists are empty; and on the
sample session in Login, which leaves both as they were. -/
theorem C12_ErrorCaught_cleanup_witness :
    InSync sampleInitWorld ∧
    Listed sampleInitWorld.session.sid sampleInitWorld.registry = true ∧
    (ErrorCaught "EOF" sampleInitWorld).session.state = STATE_DISCONNECTED ∧
    closeEvents (ErrorCaught "EOF" sampleInitWorld).events = 1 ∧
    Listed sampleInitWorld.session.sid (ErrorCaught "EOF" sampleInitWorld).registry = false ∧
    Listed sampleInitWorld.session.sid
      (ErrorCaught "EOF" sampleInitWorld).connect.localPlayers = false ∧
    (ErrorCaught "EOF" sampleTakenWorld).registry = sampleTakenWorld.registry ∧
    (ErrorCaught "EOF" sampleTakenWorld).connect = sampleTakenWorld.connect :=
  ⟨sampleInitWorld_InSync, by decide,
    (C12_ErrorCaught_cleanup "EOF" sampleInitWorld sampleInitWorld_InSync).1,
    (C12_ErrorCaught_cleanup "EOF" sampleInitWorld sampleInitWorld_InSync).2.2.2.1,
    (C12_ErrorCaught_cleanup "EOF" sampleInitWorld sampleInitWorld_InSync).2.2.2.2.1,
    (C12_ErrorCaught_cleanup "EOF" sampleInitWorld sampleInitWorld_InSync).2.2.2.2.2.1,
    by decide, by decide⟩

/-- C13: in Connected, a REGISTER plugin message whose payload is the NUL-joined
list of 128 or more names (no NUL in a name) is refused whole: `handlePacket`
returns no error and leaves the world as it was, so no channel is installed
(an empty set stays empty) and nothing is forwarded. A REGISTER message that
finds 128 channels installed is refused in the same way and adds none. After
the refusal of a batch on an empty set, a subsequent REGISTER with fewer than
128 new distinct names installs all of them, in payload order. -/
theorem C13_register_over_cap (E : Env) (names : List Bytes) (w : World)
    (hs : w.session.state = STATE_CONNECTED)
    (hn : names.length ≥ 128) (hnul : ∀ name ∈ names, 0 ∉ name) :
    handlePacket E (Packet.PacketServerPluginMessage "REGISTER" (joinNul names)) w =
      some (w, none) ∧
    (∀ Data, w.session.pluginChannels.length ≥ 128 →
      handlePacket E (Packet.PacketServerPluginMessage "REGISTER" Data) w = some (w, none)) ∧
    (∀ more : List Bytes, w.session.pluginChannels = [] →
      w.session.redirecting = true ∨ w.session.outBridge ≠ none →
      more ≠ [] → more.length < 128 → more.Nodup → (∀ name ∈ more, 0 ∉ name) →
      ∃ w', handlePacket E (Packet.PacketServerPluginMessage "REGISTER" (joinNul more)) w =
          some (w', none) ∧
        w'.session.pluginChannels = more) := by
  have hne : names ≠ [] := by
    intro h
    rw [h] at hn
    simp at hn
  refine ⟨?_, ?_, ?_⟩
  · rw [handlePacket_connected E _ w hs]
    simp [refusedRegister, Split_joinNul names hne hnul, hn]
  · intro Data hfull
    rw [handlePacket_connected E _ w hs]
    simp [refusedRegister, hfull]
  · intro more hempty hb hmne hmlen hmd hmnul
    rw [handlePacket_connected E _ w hs]
    have hnot : refusedRegister w.session
        (Packet.PacketServerPluginMessage "REGISTER" (joinNul more)) = false := by
      simp [refusedRegister, Split_joinNul more hmne hmnul, hempty, hmlen]
    have hbk : (bookkeeping (Packet.PacketServerPluginMessage "REGISTER" (joinNul more))
        w.session).pluginChannels = more := by
      simp only [bookkeeping, beq_self_eq_true, if_true, Split_joinNul more hmne hmnul, hempty]
      exact registerChannels_fresh more hmd (Nat.le_of_lt hmlen)
    simp only [hnot, Bool.false_eq_true, if_false]
    by_cases hr : w.session.redirecting = true
    · rw [forward_redirecting E _ _ (by simpa [bookkeeping] using hr)]
      exact ⟨_, rfl, hbk⟩
    · have hr' : w.session.redirecting = false := by simpa using hr
      rcases hb with hb | hb
      · exact absurd hb hr
      · cases hob : w.session.outBridge with
        | none => exact absurd hob hb
        | some b =>
          rw [forward_bridge E _ _ b (by simpa [bookkeeping] using hr')
            (by simpa [bookkeeping] using hob)]
          exact ⟨_, rfl, hbk⟩

/-- C13, instance: the sample session in Connected, with no plugin channel,
refuses the REGISTER batch of the 200 sample names and stays as it was. -/
theorem C13_register_over_cap_witness :
    sampleConnectedWorld.session.state = STATE_CONNECTED ∧
    sampleConnectedWorld.session.pluginChannels = [] ∧
    sampleNames.length = 200 ∧
    handlePacket sampleEnv (Packet.PacketServerPluginMessage "REGISTER" (joinNul sampleNames))
      sampleConnectedWorld = some (sampleConnectedWorld, none) :=
  ⟨by decide, by decide, by simp [sampleNames],
    (C13_register_over_cap sampleEnv sampleNames sampleConnectedWorld (by decide)
      (by simp [sampleNames]) sampleNames_nul_free).1⟩

/-- C13, counterexample: the sample session in Connected with an empty
plugin-channel set gets a REGISTER message with the NUL-joined list of the 200
distinct 4-byte sample names. No channel is installed (scenario 6 of the
specification expects the first 128), nothing is forwarded, and a subsequent
REGISTER with the new name "new1" adds it (the scenario expects that it adds
none). -/
theorem C13_counterexample :
    sampleConnectedWorld.session.state = STATE_CONNECTED ∧
    sampleConnectedWorld.session.pluginChannels = [] ∧
    sampleNames.length = 200 ∧ sampleNames.Nodup ∧
    (∀ name ∈ sampleNames, name.length = 4) ∧
    Split 0 (joinNul sampleNames) = sampleNames ∧
    ∃ w1 w2,
      handlePacket sampleEnv (Packet.PacketServerPluginMessage "REGISTER" (joinNul sampleNames))
        sampleConnectedWorld = some (w1, none) ∧
      w1.session.pluginChannels = [] ∧
      w1.session.pluginChannels ≠ sampleNames.take 128 ∧
      w1.session.outBridge = sampleConnectedWorld.session.outBridge ∧
      handlePacket sampleEnv (Packet.PacketServerPluginMessage "REGISTER" [110, 101, 119, 49])
        w1 = some (w2, none) ∧
      w2.session.pluginChannels = [[110, 101, 119, 49]] := by
  have hsplit : Split 0 (joinNul sampleNames) = sampleNames :=
    Split_joinNul sampleNames (by simp [sampleNames]) sampleNames_nul_free
  have hlen : sampleNames.length = 200 := by simp [sampleNames]
  have h1 : handlePacket sampleEnv
      (Packet.PacketServerPluginMessage "REGISTER" (joinNul sampleNames))
      sampleConnectedWorld = some (sampleConnectedWorld, none) := by
    rw [handlePacket_connected sampleEnv _ _ (by decide)]
    simp [refusedRegister, hsplit, hlen]
  refine ⟨by decide, by decide, hlen, sampleNames_nodup, ?_, hsplit,
    sampleConnectedWorld,
    { sampleConnectedWorld with session := { sampleConnectedWorld.session with
        pluginChannels := [[110, 101, 119, 49]]
        outBridge := some ⟨⟨"lobby", "10.0.0.2:25566"⟩,
          [Packet.PacketServerPluginMessage "REGISTER" [110, 101, 119, 49]]⟩ } },
    h1, by decide, ?_, rfl, by decide, rfl⟩
  · intro name hname
    simp only [sampleNames, List.mem_map, List.mem_range] at hname
    obtain ⟨i, _, rfl⟩ := hname
    rfl
  · intro h
    have hl := congrArg List.length h
    rw [List.length_take, hlen,
      show sampleConnectedWorld.session.pluginChannels = [] by decide] at hl
    simp at hl

/-- C14: a REGISTER plugin message handled in Connected, with L the list of
names obtained by NUL-splitting its payload and P the plugin-channel set
before (a set: no name twice). If L has 128 or more entries, or P holds 128
or more names, the whole batch is refused: `handlePacket` returns no error
and leaves the world as it was, so the set afterwards is exactly P.
Otherwise `handlePacket` returns no error and the set afterwards is P
followed by the first 128 − |P| names of L that are new to P, in payload
order; it is again a set of at most 128 names, it is exactly P ∪ L when
P ∪ L has at most 128 elements, and it holds exactly 128 names, all of P ∪ L,
when P ∪ L has 128 elements or more. -/
theorem C14_register_batch (E : Env) (Data : Bytes) (w : World)
    (hs : w.session.state = STATE_CONNECTED)
    (hb : w.session.redirecting = true ∨ w.session.outBridge ≠ none)
    (hnd : w.session.pluginChannels.Nodup) :
    ((Split 0 Data).length ≥ 128 ∨ w.session.pluginChannels.length ≥ 128 →
      handlePacket E (Packet.PacketServerPluginMessage "REGISTER" Data) w = some (w, none)) ∧
    ((Split 0 Data).length < 128 → w.session.pluginChannels.length < 128 →
      ∃ w', handlePacket E (Packet.PacketServerPluginMessage "REGISTER" Data) w =
          some (w', none) ∧
        w'.session.pluginChannels = w.session.pluginChannels ++
          (newChannels (Split 0 Data) w.session.pluginChannels).take
            (128 - w.session.pluginChannels.length) ∧
        w'.session.pluginChannels.Nodup ∧
        w'.session.pluginChannels.length ≤ 128 ∧
        ((w.session.pluginChannels.toFinset ∪ (Split 0 Data).toFinset).card ≤ 128 →
          w'.session.pluginChannels.toFinset =
            w.session.pluginChannels.toFinset ∪ (Split 0 Data).toFinset) ∧
        (128 ≤ (w.session.pluginChannels.toFinset ∪ (Split 0 Data).toFinset).card →
          w'.session.pluginChannels.length = 128 ∧
          w'.session.pluginChannels.toFinset ⊆
            w.session.pluginChannels.toFinset ∪ (Split 0 Data).toFinset)) := by
  refine ⟨?_, ?_⟩
  · intro h
    rw [handlePacket_connected E _ w hs]
    have : refusedRegister w.session (Packet.PacketServerPluginMessage "REGISTER" Data)
        = true := by
      simpa [refusedRegister] using h
    simp only [this, if_true]
  · intro hL hP
    rw [handlePacket_connected E _ w hs]
    have hnot : refusedRegister w.session (Packet.PacketServerPluginMessage "REGISTER" Data)
        = false := by
      simp [refusedRegister, hL, hP]
    simp only [hnot, Bool.false_eq_true, if_false]
    obtain ⟨w', hw'⟩ := forward_returns E (Packet.PacketServerPluginMessage "REGISTER" Data)
      { w with
        session := bookkeeping (Packet.PacketServerPluginMessage "REGISTER" Data) w.session }
      (by simpa [bookkeeping] using hb)
    have hpc : w'.session.pluginChannels =
        registerChannels (Split 0 Data) w.session.pluginChannels := by
      rw [(forward_pluginChannels E _ _ _ hw').1]
      simp [bookkeeping]
    refine ⟨w', hw', ?_, ?_, ?_, ?_, ?_⟩
    · rw [hpc, registerChannels_eq]
    · rw [hpc]
      exact registerChannels_nodup _ _ hnd
    · rw [hpc]
      exact registerChannels_length _ _ (Nat.le_of_lt hP)
    · intro hcard
      rw [hpc]
      exact registerChannels_toFinset _ _ hnd hcard
    · intro hcard
      rw [hpc]
      refine ⟨registerChannels_full _ _ hnd (Nat.le_of_lt hP) hcard, ?_⟩
      intro c hc
      rw [List.mem_toFinset] at hc
      rw [Finset.mem_union, List.mem_toFinset, List.mem_toFinset]
      exact registerChannels_subset _ _ c hc

/-- C14, instance: the sample session in Connected with 127 channels installed
gets a REGISTER message with the one new name "new1": the name is installed
as the 128th channel. -/
theorem C14_register_batch_witness :
    sampleNearlyFullWorld.session.state = STATE_CONNECTED ∧
    sampleNearlyFullWorld.session.pluginChannels.length = 127 ∧
    ∃ w', handlePacket sampleEnv
        (Packet.PacketServerPluginMessage "REGISTER" [110, 101, 119, 49])
        sampleNearlyFullWorld = some (w', none) ∧
      w'.session.pluginChannels = sampleNearlyFullWorld.session.pluginChannels ++
        (newChannels (Split 0 [110, 101, 119, 49])
          sampleNearlyFullWorld.session.pluginChannels).take
          (128 - sampleNearlyFullWorld.session.pluginChannels.length) ∧
      w'.session.pluginChannels.Nodup ∧
      w'.session.pluginChannels.length ≤ 128 :=
  ⟨by decide, sampleNearlyFullWorld_length,
    ((C14_register_batch sampleEnv [110, 101, 119, 49] sampleNearlyFullWorld (by decide)
      (Or.inr (by decide)) (sampleNames_nodup.sublist (List.take_sublist 127 sampleNames))).2
      (by decide) (by rw [sampleNearlyFullWorld_length]; decide)).imp
      (fun _ h => ⟨h.1, h.2.1, h.2.2.1, h.2.2.2.1⟩)⟩

/-- C14, counterexample. First, the sample session in Connected with 127
channels installed gets a REGISTER message with the one new name "new1":
the batch pushes the count to 128, and it is not rejected: the set afterwards
holds 128 names, the 127 of before and "new1". Second, on the sample session
with no channel installed, a REGISTER message whose payload is 127 NUL bytes
(128 times the empty name) is refused and the set stays empty, although the
union of the empty set and the one name has one element, fewer than 128. -/
theorem C14_counterexample :
    (sampleNearlyFullWorld.session.state = STATE_CONNECTED ∧
     sampleNearlyFullWorld.session.pluginChannels.length = 127 ∧
     ∃ w', handlePacket sampleEnv
         (Packet.PacketServerPluginMessage "REGISTER" [110, 101, 119, 49])
         sampleNearlyFullWorld = some (w', none) ∧
       w'.session.pluginChannels ≠ sampleNearlyFullWorld.session.pluginChannels ∧
       w'.session.pluginChannels =
         sampleNearlyFullWorld.session.pluginChannels ++ [[110, 101, 119, 49]] ∧
       w'.session.pluginChannels.length = 128) ∧
    (sampleConnectedWorld.session.pluginChannels = [] ∧
     (Split 0 (List.replicate 127 0)).toFinset = {[]} ∧
     (sampleConnectedWorld.session.pluginChannels.toFinset ∪
       (Split 0 (List.replicate 127 0)).toFinset).card = 1 ∧
     ∃ w', handlePacket sampleEnv
         (Packet.PacketServerPluginMessage "REGISTER" (List.replicate 127 0))
         sampleConnectedWorld = some (w', none) ∧
       w'.session.pluginChannels = [] ∧
       w'.session.pluginChannels.toFinset ≠
         sampleConnectedWorld.session.pluginChannels.toFinset ∪
           (Split 0 (List.replicate 127 0)).toFinset) := by
  have hempty : sampleConnectedWorld.session.pluginChannels = [] := by decide
  have hfin : (Split 0 (List.replicate 127 0)).toFinset = {([] : Bytes)} := by
    rw [Split_replicate_nul]
    exact List.toFinset_replicate_of_ne_zero (by decide)
  refine ⟨⟨by decide, sampleNearlyFullWorld_length, ?_⟩, hempty, hfin, ?_, ?_⟩
  · obtain ⟨w', hw'⟩ := forward_returns sampleEnv
      (Packet.PacketServerPluginMessage "REGISTER" [110, 101, 119, 49])
      { sampleNearlyFullWorld with
        session := bookkeeping (Packet.PacketServerPluginMessage "REGISTER" [110, 101, 119, 49])
          sampleNearlyFullWorld.session }
      (Or.inr (by simp [bookkeeping, sampleNearlyFullWorld, sampleConnectedWorld,
        bridgeConnected, SetState, fireEventSession]))
    have hnot : refusedRegister sampleNearlyFullWorld.session
        (Packet.PacketServerPluginMessage "REGISTER" [110, 101, 119, 49]) = false := by
      simp [refusedRegister, sampleNearlyFullWorld_length, Split]
    have hpc : w'.session.pluginChannels =
        sampleNearlyFullWorld.session.pluginChannels ++ [[110, 101, 119, 49]] := by
      rw [(forward_pluginChannels _ _ _ _ hw').1]
      simp only [bookkeeping, beq_self_eq_true, if_true]
      rw [show Split 0 [110, 101, 119, 49] = [[110, 101, 119, 49]] from by decide]
      exact registerChannels_one _ _ new1_not_installed
        (by rw [sampleNearlyFullWorld_length]; decide)
    refine ⟨w', ?_, ?_, hpc, ?_⟩
    · rw [handlePacket_connected sampleEnv _ _ (by decide)]
      simp only [hnot, Bool.false_eq_true, if_false]
      exact hw'
    · rw [hpc]
      simp
    · rw [hpc, List.length_append, sampleNearlyFullWorld_length]
      rfl
  · rw [hempty, hfin]
    rfl
  · refine ⟨sampleConnectedWorld, ?_, hempty, ?_⟩
    · rw [handlePacket_connected sampleEnv _ _ (by decide)]
      have : refusedRegister sampleConnectedWorld.session
          (Packet.PacketServerPluginMessage "REGISTER" (List.replicate 127 0)) = true := by
        have hlen : (Split 0 (List.replicate 127 0)).length = 128 := by
          rw [Split_replicate_nul, List.length_replicate]
        simp only [refusedRegister, beq_self_eq_true, Bool.true_and, hlen, ge_iff_le,
          le_refl, decide_True, Bool.true_or]
      simp only [this, if_true]
    · rw [hempty, hfin]
      decide

theorem takeWhile_of_indexOf (l : List Char) (a : Char) :
    (l.indexOf? a = none → l.takeWhile (fun c => c != a) = l) ∧
    (∀ idx, l.indexOf? a = some idx → l.takeWhile (fun c => c != a) = l.take idx) := by
  induction l with
  | nil => exact ⟨fun _ => rfl, fun idx h => by simp [List.indexOf?] at h⟩
  | cons c cs ih =>
    unfold List.indexOf? at ih ⊢
    rw [List.findIdx?_cons]
    by_cases hc : c = a
    · subst hc
      refine ⟨fun h => by simp at h, fun idx h => ?_⟩
      simp only [beq_self_eq_true, if_true, Option.some.injEq] at h
      subst h
      simp [List.takeWhile]
    · have hb : (c == a) = false := by simpa using hc
      simp only [hb, Bool.false_eq_true, if_false, List.takeWhile, bne, Bool.not_false,
        Nat.zero_add]
      rw [List.findIdx?_succ]
      simp only [bne] at ih
      refine ⟨fun h => ?_, fun idx h => ?_⟩
      · rw [Option.map_eq_none'] at h
        rw [ih.1 h]
      · rw [Option.map_eq_some'] at h
        obtain ⟨j, hj, rfl⟩ := h
        rw [ih.2 j hj, List.take_succ_cons]

theorem routingAddress_eq (address : String) : routingAddress address = virtualHost address := by
  have key := takeWhile_of_indexOf address.data (Char.ofNat 0)
  unfold routingAddress virtualHost beforeNul
  cases h : address.data.indexOf? (Char.ofNat 0) with
  | none =>
    simp only [key.1 h, beq_iff_eq, h]
  | some idx =>
    simp only [key.2 idx h, beq_iff_eq, h]

theorem beforeNul_starts (address : String) : beforeNul address <+: address.data :=
  List.takeWhile_prefix _

theorem beforeNul_nul_free (address : String) : Char.ofNat 0 ∉ beforeNul address := by
  intro h
  have := List.mem_takeWhile_imp h
  simp at this

theorem beforeNul_cut (address : String) :
    beforeNul address = address.data ∨
    ∃ rest, address.data = beforeNul address ++ Char.ofNat 0 :: rest := by
  unfold beforeNul
  induction address.data with
  | nil => exact Or.inl rfl
  | cons c cs ih =>
    by_cases hc : c = Char.ofNat 0
    · subst hc
      exact Or.inr ⟨cs, by simp [List.takeWhile]⟩
    · have hb : (c != Char.ofNat 0) = true := by simpa using hc
      simp only [List.takeWhile, hb]
      rcases ih with h | ⟨rest, h⟩
      · exact Or.inl (by rw [h])
      · exact Or.inr ⟨rest, by rw [List.cons_append, ← h]⟩

theorem virtualHost_strip (address : String) :
    ((beforeNul address).getLast? = some '.' →
      (virtualHost address).data ++ ['.'] = beforeNul address) ∧
    ((beforeNul address).getLast? ≠ some '.' →
      (virtualHost address).data = beforeNul address) := by
  unfold virtualHost
  refine ⟨fun h => ?_, fun h => ?_⟩
  · simp only [h, if_true]
    have hne : beforeNul address ≠ [] := by
      intro h0
      rw [h0] at h
      simp at h
    have hlast : (beforeNul address).getLast hne = '.' := by
      rw [List.getLast?_eq_getLast _ hne] at h
      exact Option.some.inj h
    rw [← hlast]
    exact List.dropLast_append_getLast hne
  · simp only [h, if_false]

theorem virtualHost_starts (address : String) :
    (virtualHost address).data <+: address.data := by
  unfold virtualHost
  split_ifs
  · exact List.IsPrefix.trans ( List.dropLast_prefix _) (beforeNul_starts address)
  · exact beforeNul_starts address

theorem virtualHost_nul_free (address : String) :
    Char.ofNat 0 ∉ (virtualHost address).data := by
  intro h
  have hp : (virtualHost address).data <+: beforeNul address := by
    unfold virtualHost
    split_ifs
    · exact List.dropLast_prefix _
    · exact List.prefix_refl _
  exact beforeNul_nul_free address (hp.subset h)

theorem handleDisconnected_address (E : Env) (v : Int) (address : String) (port : Nat)
    (next : Int) (w : World) (r : Handled)
    (hr : handleDisconnected E (Packet.PacketServerHandshake v address port next) w = some r) :
    r.1.session.rawServerAddress = address ∧
    r.1.session.serverAddress = routingAddress address := by
  unfold handleDisconnected at hr
  simp only at hr
  repeat' split at hr
  all_goals cases hr
  all_goals exact ⟨rfl, rfl⟩

theorem ite_some_ne_none {α : Type} (c : Prop) [Decidable c] (a b : α) :
    (if c then some a else some b) ≠ none := by
  split_ifs <;> exact Option.some_ne_none _

theorem handleDisconnected_returns (E : Env) (packet : Packet) (w : World)
    (hv : E.K.Versions ≠ []) : ∃ r, handleDisconnected E packet w = some r := by
  obtain ⟨first, hfirst⟩ := getElem?_zero_isSome E.K.Versions hv
  unfold handleDisconnected
  cases packet <;> simp only [hfirst]
  all_goals repeat' split
  all_goals first
    | exact ⟨_, rfl⟩
    | (rename_i h
       exact absurd h (ite_some_ne_none _ _ _))

/-- C15: in Disconnected, `handlePacket` on a Handshake carrying the address
`s`, whatever its next state, returns (the list of supported versions is not
empty) with the raw address equal to `s` and the routing address equal to the
virtual host of `s`: the part of `s` before its first NUL, all of `s` when it
has none, without one trailing dot. That part has no NUL and is `s` or is
followed in `s` by a NUL; the virtual host is that part, or that part without
its last character when this is a dot; the virtual host has no NUL and is
a start of `s`. -/
theorem C15_virtual_host (E : Env) (v : Int) (s : String) (port : Nat) (next : Int)
    (w : World) (hs : w.session.state = STATE_DISCONNECTED) (hv : E.K.Versions ≠ []) :
    ∃ r, handlePacket E (Packet.PacketServerHandshake v s port next) w = some r ∧
      r.1.session.rawServerAddress = s ∧
      r.1.session.serverAddress = virtualHost s ∧
      Char.ofNat 0 ∉ beforeNul s ∧
      (beforeNul s = s.data ∨ ∃ rest, s.data = beforeNul s ++ Char.ofNat 0 :: rest) ∧
      ((beforeNul s).getLast? = some '.' →
        r.1.session.serverAddress.data ++ ['.'] = beforeNul s) ∧
      ((beforeNul s).getLast? ≠ some '.' → r.1.session.serverAddress.data = beforeNul s) ∧
      Char.ofNat 0 ∉ r.1.session.serverAddress.data ∧
      r.1.session.serverAddress.data <+: s.data := by
  obtain ⟨r, hr⟩ := handleDisconnected_returns E (Packet.PacketServerHandshake v s port next)
    w hv
  obtain ⟨hraw, haddr⟩ := handleDisconnected_address E v s port next w r hr
  rw [routingAddress_eq] at haddr
  refine ⟨r, ?_, hraw, haddr, beforeNul_nul_free s, beforeNul_cut s, ?_, ?_, ?_, ?_⟩
  · unfold handlePacket
    rw [hs]
    exact hr
  · rw [haddr]
    exact (virtualHost_strip s).1
  · rw [haddr]
    exact (virtualHost_strip s).2
  · rw [haddr]
    exact virtualHost_nul_free s
  · rw [haddr]
    exact virtualHost_starts s

/-- C15, instance: the sample new session and a status Handshake whose address
has a trailing dot and vendor data after a NUL: the routing address is
"lobby.example". -/
theorem C15_virtual_host_witness :
    sampleWorld.session.state = STATE_DISCONNECTED ∧
    virtualHost (String.mk ("lobby.example.".data ++ Char.ofNat 0 :: "FML".data)) =
      "lobby.example" ∧
    ∃ r, handlePacket sampleEnv (Packet.PacketServerHandshake 47
        (String.mk ("lobby.example.".data ++ Char.ofNat 0 :: "FML".data)) 25565 1)
        sampleWorld = some r ∧
      r.1.session.rawServerAddress =
        String.mk ("lobby.example.".data ++ Char.ofNat 0 :: "FML".data) ∧
      r.1.session.serverAddress =
        virtualHost (String.mk ("lobby.example.".data ++ Char.ofNat 0 :: "FML".data)) :=
  ⟨by decide, by decide,
    (C15_virtual_host sampleEnv 47
      (String.mk ("lobby.example.".data ++ Char.ofNat 0 :: "FML".data)) 25565 1 sampleWorld
      (by decide) (by decide)).imp (fun _ h => ⟨h.1, h.2.1, h.2.2.1⟩)⟩

theorem handleDisconnected_status (E : Env) (v : Int) (address : String) (port : Nat)
    (w : World) (first : Int) (hfirst : E.K.Versions.head? = some first) :
    handleDisconnected E (Packet.PacketServerHandshake v address port 1) w =
      some (SetState STATE_STATUS { w with session := { w.session with
        protocolVersion := if supportedVersion E.K v then v else first
        rawServerAddress := address
        serverAddress := routingAddress address
        pipeline := orKeep w.session.pipeline
          (w.session.pipeline.Replace "registry" Codec.StatusPacketServerCodec) } }, none) := by
  have h0 : E.K.Versions[0]? = some first := by
    cases hV : E.K.Versions with
    | nil => rw [hV] at hfirst; cases hfirst
    | cons x rest =>
      rw [hV] at hfirst
      simpa using hfirst
  unfold handleDisconnected
  simp only [beq_self_eq_true, if_true]
  by_cases hsup : supportedVersion E.K v = true
  · simp only [hsup, Bool.not_true, Bool.false_eq_true, if_false, if_true]
  · have hsup' : supportedVersion E.K v = false := by simpa using hsup
    simp only [hsup', Bool.not_false, if_true, h0, Bool.false_eq_true, if_false]

theorem head?_of_ne_nil {α : Type} (xs : List α) (h : xs ≠ []) : ∃ x, xs.head? = some x := by
  cases xs with
  | nil => exact absurd rfl h
  | cons x rest => exact ⟨x, rfl⟩

theorem status_answer (E : Env) (w : World) (response : StatusResponse) (r : Handled)
    (hr : (if (Write E (ClientPacket.PacketClientStatusResponse response) w).2.isSome then
        some (Write E (ClientPacket.PacketClientStatusResponse response) w)
      else some (SetState STATE_STATUS_PING
        (Write E (ClientPacket.PacketClientStatusResponse response) w).1, none)) = some r) :
    r.1.written = w.written ++ [ClientPacket.PacketClientStatusResponse response] ∧
    r.1.wire = w.wire ++ onWire E [ClientPacket.PacketClientStatusResponse response] ∧
    r.2 = writeErr E (ClientPacket.PacketClientStatusResponse response) ∧
    (r.2 = none → r.1.session.state = STATE_STATUS_PING) := by
  simp only [Write_eq] at hr
  split_ifs at hr with herr
  · cases hr
    refine ⟨rfl, rfl, rfl, ?_⟩
    intro hnone
    simp only at hnone
    rw [hnone] at herr
    cases herr
  · cases hr
    simp only [Option.not_isSome_iff_eq_none] at herr
    exact ⟨rfl, rfl, herr.symm, fun _ => rfl⟩

theorem handleStatus_request (E : Env) (w : World) (r : Handled)
    (hr : handleStatus E Packet.PacketServerStatusRequest w = some r) :
    ∃ response : StatusResponse,
      r.1.written = w.written ++ [ClientPacket.PacketClientStatusResponse response] ∧
      r.1.wire = w.wire ++ onWire E [ClientPacket.PacketClientStatusResponse response] ∧
      r.2 = writeErr E (ClientPacket.PacketClientStatusResponse response) ∧
      (r.2 = none → r.1.session.state = STATE_STATUS_PING) ∧
      response.versionProtocol = w.session.protocolVersion ∧
      response.versionName = E.STRING_VERSION ∧
      response.playersMax = (if E.SyncMaxPlayers then w.connect.MaxPlayers else E.MaxPlayers) ∧
      response.playersOnline = w.connect.Players := by
  unfold handleStatus at hr
  simp only at hr
  split at hr
  · cases hr
  · split at hr
    · cases hr
    · obtain ⟨h1, h2, h3, h4⟩ := status_answer E w _ r hr
      exact ⟨_, h1, h2, h3, h4, rfl, rfl, rfl, rfl⟩

theorem not_supported_of_not_mem (K : VersionNums) (v : Int) (h : v ∉ K.Versions) :
    supportedVersion K v = false := by
  cases hs : supportedVersion K v
  · rfl
  · exact absurd ((supportedVersion_iff K v).mp hs) h

/-- C16: in Disconnected, a Handshake with next state 1 followed by a
StatusRequest, in an environment that never makes the code index out of
range. Both packets are handled; the first returns no error; the second hands
exactly one packet to `Write`, the status answer, and returns what `Write`
returns. The `version.protocol` of that answer is the advertised version `v`
when `v` is in the list of supported versions, and the first entry of that
list when it is not. -/
theorem C16_status_protocol (E : Env) (v : Int) (address : String) (port : Nat) (w : World)
    (hs : w.session.state = STATE_DISCONNECTED) (hE : E.InRange) :
    ∃ w1 r response,
      handlePacket E (Packet.PacketServerHandshake v address port 1) w = some (w1, none) ∧
      handlePacket E Packet.PacketServerStatusRequest w1 = some r ∧
      r.1.written = w.written ++ [ClientPacket.PacketClientStatusResponse response] ∧
      r.1.wire = w.wire ++ onWire E [ClientPacket.PacketClientStatusResponse response] ∧
      r.2 = writeErr E (ClientPacket.PacketClientStatusResponse response) ∧
      response.versionName = E.STRING_VERSION ∧
      (v ∈ E.K.Versions → response.versionProtocol = v) ∧
      (v ∉ E.K.Versions → E.K.Versions.head? = some response.versionProtocol) := by
  obtain ⟨first, hfirst⟩ := head?_of_ne_nil E.K.Versions hE.1
  have h1 := handleDisconnected_status E v address port w first hfirst
  obtain ⟨W1, hW1⟩ : ∃ W1 : World, W1 = SetState STATE_STATUS { w with session := { w.session with
      protocolVersion := if supportedVersion E.K v then v else first
      rawServerAddress := address
      serverAddress := routingAddress address
      pipeline := orKeep w.session.pipeline
        (w.session.pipeline.Replace "registry" Codec.StatusPacketServerCodec) } } := ⟨_, rfl⟩
  rw [← hW1] at h1
  have hpv : W1.session.protocolVersion = if supportedVersion E.K v then v else first := by
    rw [hW1]; rfl
  have hst : W1.session.state = STATE_STATUS := by rw [hW1]; rfl
  have hwr : W1.written = w.written ∧ W1.wire = w.wire := by rw [hW1]; exact ⟨rfl, rfl⟩
  obtain ⟨r, hr⟩ := Option.isSome_iff_exists.mp
    (handleStatus_isSome E Packet.PacketServerStatusRequest W1 hE)
  obtain ⟨response, hw, hwire, herr, _, hvp, hvn, _, _⟩ := handleStatus_request E W1 r hr
  refine ⟨W1, r, response, ?_, ?_, ?_, ?_, herr, hvn, ?_, ?_⟩
  · unfold handlePacket
    rw [hs]
    exact h1
  · unfold handlePacket
    rw [hst]
    exact hr
  · rw [hw, hwr.1]
  · rw [hwire, hwr.2]
  · intro hmem
    rw [hvp, hpv]
    simp [(supportedVersion_iff E.K v).mpr hmem]
  · intro hmem
    rw [hvp, hpv, hfirst]
    simp [not_supported_of_not_mem E.K v hmem]

/-- C16, instance: on the sample new session, version 47 is answered with
`version.protocol` 47. -/
theorem C16_status_protocol_witness :
    sampleWorld.session.state = STATE_DISCONNECTED ∧ (47 : Int) ∈ sampleEnv.K.Versions ∧
    ∃ w1 r response,
      handlePacket sampleEnv (Packet.PacketServerHandshake 47 "lobby.example" 25565 1)
        sampleWorld = some (w1, none) ∧
      handlePacket sampleEnv Packet.PacketServerStatusRequest w1 = some r ∧
      r.1.written = sampleWorld.written ++ [ClientPacket.PacketClientStatusResponse response] ∧
      response.versionProtocol = 47 := by
  obtain ⟨w1, r, response, h1, h2, h3, _, _, _, h4, _⟩ :=
    C16_status_protocol sampleEnv 47 "lobby.example" 25565 sampleWorld (by decide)
      sampleEnv_InRange
  exact ⟨by decide, by decide, w1, r, response, h1, h2, h3, h4 (by decide)⟩

/-- C16, counterexample: the sample new session gets a Handshake with next
state 1 that advertises version 1, then a StatusRequest. The one packet the
session writes is a status answer whose `version.protocol` is 401, the first
entry of the sample list of supported versions, and not the advertised 1. -/
theorem C16_counterexample :
    handlePacket sampleEnv (Packet.PacketServerHandshake 1 "lobby.example" 25565 1)
      sampleWorld = some (sampleStatusWorld, none) ∧
    ∃ w2 response,
      handlePacket sampleEnv Packet.PacketServerStatusRequest sampleStatusWorld =
        some (w2, none) ∧
      w2.written = [ClientPacket.PacketClientStatusResponse response] ∧
      response.versionProtocol = 401 ∧
      response.versionProtocol ≠ 1 := by
  refine ⟨by decide, SetState STATE_STATUS_PING
    { sampleStatusWorld with
      written := [ClientPacket.PacketClientStatusResponse
        ⟨"1.7.x-1.13.x", 401, 100, 0, [], "A Minecraft Server", none, "FML", []⟩]
      wire := [ClientPacket.PacketClientStatusResponse
        ⟨"1.7.x-1.13.x", 401, 100, 0, [], "A Minecraft Server", none, "FML", []⟩] },
    ⟨"1.7.x-1.13.x", 401, 100, 0, [], "A Minecraft Server", none, "FML", []⟩,
    by decide, rfl, rfl, by decide⟩

/-- C17: in Disconnected, on a session whose pipeline has a registry stage and
with a non-empty list of supported versions, `handlePacket` on a Handshake
with next state 1 and any advertised version `v` returns no error; the
registry stage is replaced by the Status registry (the other stages are
untouched), the state is Status, one state event is fired and no packet is
written. The protocol number of the session, the one the status answer
carries, is `v` when `v` is supported and the first entry of the list of
supported versions when it is not. -/
theorem C17_status_handshake (E : Env) (v : Int) (address : String) (port : Nat) (w : World)
    (hs : w.session.state = STATE_DISCONNECTED)
    (hreg : w.session.pipeline.HasName "registry" = true)
    (hv : E.K.Versions ≠ []) :
    ∃ w', handlePacket E (Packet.PacketServerHandshake v address port 1) w = some (w', none) ∧
      w'.session.state = STATE_STATUS ∧
      w'.session.pipeline.Get "registry" = some Codec.StatusPacketServerCodec ∧
      w'.session.pipeline =
        w.session.pipeline.replaceFirst "registry" Codec.StatusPacketServerCodec ∧
      w'.session.pipeline.names = w.session.pipeline.names ∧
      (v ∈ E.K.Versions → w'.session.protocolVersion = v) ∧
      (v ∉ E.K.Versions → E.K.Versions.head? = some w'.session.protocolVersion) ∧
      (∀ r, handlePacket E Packet.PacketServerStatusRequest w' = some r →
        ∃ response, r.1.written = w.written ++
            [ClientPacket.PacketClientStatusResponse response] ∧
          response.versionProtocol = w'.session.protocolVersion) ∧
      w'.written = w.written ∧
      w'.events = w.events ++
        [⟨Event.sessionState STATE_STATUS, w.registry, w.connect.localPlayers⟩] := by
  obtain ⟨first, hfirst⟩ := head?_of_ne_nil E.K.Versions hv
  have h1 := handleDisconnected_status E v address port w first hfirst
  obtain ⟨W1, hW1⟩ : ∃ W1 : World, W1 = SetState STATE_STATUS { w with session := { w.session with
      protocolVersion := if supportedVersion E.K v then v else first
      rawServerAddress := address
      serverAddress := routingAddress address
      pipeline := orKeep w.session.pipeline
        (w.session.pipeline.Replace "registry" Codec.StatusPacketServerCodec) } } := ⟨_, rfl⟩
  rw [← hW1] at h1
  have hpv : W1.session.protocolVersion = if supportedVersion E.K v then v else first := by
    rw [hW1]; rfl
  have hst : W1.session.state = STATE_STATUS := by rw [hW1]; rfl
  have hpipe : W1.session.pipeline = orKeep w.session.pipeline
      (w.session.pipeline.Replace "registry" Codec.StatusPacketServerCodec) := by
    rw [hW1]; rfl
  have hget : w.session.pipeline.Get "registry" ≠ none := by
    rw [PacketPipeline.HasName_eq_isSome] at hreg
    exact Option.isSome_iff_ne_none.mp hreg
  have hrep : orKeep w.session.pipeline
      (w.session.pipeline.Replace "registry" Codec.StatusPacketServerCodec) =
      w.session.pipeline.replaceFirst "registry" Codec.StatusPacketServerCodec := by
    simp [orKeep, PacketPipeline.Replace, hreg]
  have hnames : ∀ (p : PacketPipeline) (c : Codec),
      (p.replaceFirst "registry" c).names = p.names := by
    intro p c
    induction p with
    | nil => rfl
    | cons st rest ih =>
      simp only [PacketPipeline.replaceFirst, PacketPipeline.names] at ih ⊢
      split_ifs with hst
      · simp only [List.map_cons, List.cons.injEq, and_true]
        exact (beq_iff_eq.mp hst).symm
      · simp only [List.map_cons, ih]
  refine ⟨W1, ?_, hst, ?_, ?_, ?_, ?_, ?_, ?_, ?_, ?_⟩
  · unfold handlePacket
    rw [hs]
    exact h1
  · rw [hpipe]
    exact Get_orKeep_Replace_self _ _ _ hget
  · rw [hpipe, hrep]
  · rw [hpipe, hrep]
    exact hnames _ _
  · intro hmem
    rw [hpv]
    simp [(supportedVersion_iff E.K v).mpr hmem]
  · intro hmem
    rw [hpv, hfirst]
    simp [not_supported_of_not_mem E.K v hmem]
  · intro r hr
    unfold handlePacket at hr
    rw [hst] at hr
    obtain ⟨response, hw, _, _, _, hvp, _⟩ := handleStatus_request E W1 r hr
    refine ⟨response, ?_, hvp⟩
    rw [hw, hW1]
    rfl
  · rw [hW1]
    rfl
  · rw [hW1]
    rfl

/-- C17, instance: the sample new session and a status Handshake that
advertises the unsupported version 1: the session moves to Status with the
Status registry and the protocol number 401, the first entry of the sample
list of supported versions. -/
theorem C17_status_handshake_witness :
    sampleWorld.session.state = STATE_DISCONNECTED ∧ (1 : Int) ∉ sampleEnv.K.Versions ∧
    sampleEnv.K.Versions.head? = some 401 ∧
    ∃ w', handlePacket sampleEnv (Packet.PacketServerHandshake 1 "lobby.example" 25565 1)
        sampleWorld = some (w', none) ∧
      w'.session.state = STATE_STATUS ∧
      w'.session.pipeline.Get "registry" = some Codec.StatusPacketServerCodec ∧
      sampleEnv.K.Versions.head? = some w'.session.protocolVersion := by
  obtain ⟨w', h1, h2, h3, _, _, _, h4, _⟩ :=
    C17_status_handshake sampleEnv 1 "lobby.example" 25565 sampleWorld (by decide) (by decide)
      (by decide)
  exact ⟨by decide, by decide, rfl, w', h1, h2, h3, h4 (by decide)⟩

/-- C18: a packet handled in Connected while `redirecting` is true.
`handlePacket` returns no error and hands nothing to the out bridge: the out
bridge is as before, and the world afterwards is the one before with only
the bookkeeping of the packet stored on the session (plugin channels, cached
ClientSettings, cached MC|Brand), or exactly the one before when the packet
is a REGISTER message the cap check refuses. Handling the same packet from
the same session with `redirecting` false returns whenever the session has an
out bridge, and every result of it has the same plugin-channel set, the same
cached ClientSettings and the same cached MC|Brand packet. -/
theorem C18_redirecting_suppresses (E : Env) (packet : Packet) (w : World)
    (hs : w.session.state = STATE_CONNECTED) (hr : w.session.redirecting = true) :
    ∃ w', handlePacket E packet w = some (w', none) ∧
      w'.session.outBridge = w.session.outBridge ∧
      w' = (if refusedRegister w.session packet then w
        else { w with session := bookkeeping packet w.session }) ∧
      (∀ r, handlePacket E packet
          { w with session := { w.session with redirecting := false } } = some r →
        r.1.session.pluginChannels = w'.session.pluginChannels ∧
        r.1.session.clientSettings = w'.session.clientSettings ∧
        r.1.session.mcBrand = w'.session.mcBrand) ∧
      (w.session.outBridge ≠ none →
        ∃ r, handlePacket E packet
          { w with session := { w.session with redirecting := false } } = some r) := by
  have hfalse : handlePacket E packet
      { w with session := { w.session with redirecting := false } } =
      if refusedRegister w.session packet then
        some ({ w with session := { w.session with redirecting := false } }, none)
      else forward E packet { w with
        session := { bookkeeping packet w.session with redirecting := false } } := by
    rw [handlePacket_connected E packet
      { w with session := { w.session with redirecting := false } } hs]
    simp only [bookkeeping_redirecting]
    have : refusedRegister { w.session with redirecting := false } packet =
        refusedRegister w.session packet := by
      unfold refusedRegister
      cases packet <;> rfl
    rw [this]
  rw [handlePacket_connected E packet w hs]
  by_cases href : refusedRegister w.session packet = true
  · simp only [href, if_true] at hfalse ⊢
    refine ⟨w, rfl, rfl, rfl, ?_, fun _ => ⟨_, hfalse⟩⟩
    intro r hr'
    rw [hfalse] at hr'
    cases hr'
    exact ⟨rfl, rfl, rfl⟩
  · simp only [href, Bool.false_eq_true, if_false] at hfalse ⊢
    have hbr := bookkeeping_outBridge packet w.session
    rw [forward_redirecting E packet _ (by rw [hbr.2.1]; exact hr)]
    refine ⟨_, rfl, hbr.1, rfl, ?_, ?_⟩
    · intro r hr'
      rw [hfalse] at hr'
      obtain ⟨h1, h2, h3, _⟩ := forward_pluginChannels E _ _ _ hr'
      exact ⟨h1, h2, h3⟩
    · intro hb
      rw [hfalse]
      obtain ⟨r, hr'⟩ := forward_returns E packet
        { w with session := { bookkeeping packet w.session with redirecting := false } }
        (Or.inr (by simpa [hbr.1] using hb))
      exact ⟨_, hr'⟩

/-- C18, instance: the sample session in Connected, redirecting, gets a
REGISTER message for the channel "new1": the channel is installed and the out
bridge has received nothing. -/
theorem C18_redirecting_suppresses_witness :
    sampleRedirectingWorld.session.state = STATE_CONNECTED ∧
    sampleRedirectingWorld.session.redirecting = true ∧
    ∃ w', handlePacket sampleEnv
        (Packet.PacketServerPluginMessage "REGISTER" [110, 101, 119, 49])
        sampleRedirectingWorld = some (w', none) ∧
      w'.session.outBridge = sampleRedirectingWorld.session.outBridge ∧
      w'.session.outBridge = some ⟨⟨"lobby", "10.0.0.2:25566"⟩, []⟩ ∧
      w'.session.pluginChannels = [[110, 101, 119, 49]] := by
  obtain ⟨w', h1, h2, h3, _⟩ := C18_redirecting_suppresses sampleEnv
    (Packet.PacketServerPluginMessage "REGISTER" [110, 101, 119, 49]) sampleRedirectingWorld
    (by decide) (by decide)
  refine ⟨by decide, by decide, w', h1, h2, ?_, ?_⟩
  · rw [h2]
    decide
  · rw [h3]
    decide

theorem SetAuthenticated_pluginChannels (E : Env) (result : Bool) (w w' : World)
    (hr : SetAuthenticated E result w = some w') :
    w'.session.pluginChannels = w.session.pluginChannels := by
  cases result with
  | false =>
    rw [SetAuthenticated_false] at hr
    cases hr
    rw [Disconnect_session]
  | true =>
    rcases SetAuthenticated_some E w w' hr with ⟨reason, rfl⟩ | hroute
    · rw [Disconnect_session]
    · rcases SetAuthenticated_route_some E _ w' hroute with
        ⟨reason, rfl⟩ | ⟨reason, rfl, _⟩ | ⟨server, _, henter⟩
      · rw [Disconnect_session]
      · rw [Disconnect_session]
      · obtain ⟨protocol, hp, P, c, wr, wi, hP, rfl⟩ := SetAuthenticated_enter_some E _ _ _ henter
        rw [Redirect_session]

theorem handleDisconnected_pluginChannels (E : Env) (packet : Packet) (w : World) (r : Handled)
    (hr : handleDisconnected E packet w = some r) :
    r.1.session.pluginChannels = w.session.pluginChannels := by
  unfold handleDisconnected at hr
  cases packet <;> simp only at hr
  all_goals repeat' split at hr
  all_goals cases hr
  all_goals rfl

theorem handleStatus_pluginChannels (E : Env) (packet : Packet) (w : World) (r : Handled)
    (hr : handleStatus E packet w = some r) :
    r.1.session.pluginChannels = w.session.pluginChannels := by
  unfold handleStatus at hr
  cases packet <;> simp only [Write_eq] at hr
  all_goals repeat' split at hr
  all_goals cases hr
  all_goals rfl

theorem handleStatusPing_pluginChannels (E : Env) (packet : Packet) (w : World) (r : Handled)
    (hr : handleStatusPing E packet w = some r) :
    r.1.session.pluginChannels = w.session.pluginChannels := by
  unfold handleStatusPing connClose at hr
  cases packet <;> simp only [Write_eq] at hr
  all_goals repeat' split at hr
  all_goals cases hr
  all_goals rfl

theorem handleLogin_pluginChannels (E : Env) (packet : Packet) (w : World) (r : Handled)
    (hr : handleLogin E packet w = some r) :
    r.1.session.pluginChannels = w.session.pluginChannels := by
  unfold handleLogin at hr
  cases packet <;> simp only [Write_eq] at hr
  all_goals repeat' split at hr
  all_goals cases hr
  all_goals first
    | rfl
    | (rename_i heq
       exact (SetAuthenticated_pluginChannels E true _ _ heq).trans rfl)

theorem SetEncryption_pluginChannels (E : Env) (sharedSecret : Bytes) (w : World) :
    (SetEncryption E sharedSecret w).1.session.pluginChannels = w.session.pluginChannels := by
  rw [SetEncryption_eq]
  split <;> rfl

theorem handleLoginEncrypt_pluginChannels (E : Env) (packet : Packet) (w : World) (r : Handled)
    (hr : handleLoginEncrypt E packet w = some r) :
    r.1.session.pluginChannels = w.session.pluginChannels := by
  unfold handleLoginEncrypt at hr
  cases packet <;> simp only at hr
  all_goals repeat' split at hr
  all_goals cases hr
  all_goals first
    | rfl
    | exact SetEncryption_pluginChannels E _ w
    | (rename_i hauth
       split_ifs at hauth
       · exact (SetAuthenticated_pluginChannels E false _ _ hauth).trans
           (SetEncryption_pluginChannels E _ w)
       · exact (SetAuthenticated_pluginChannels E true _ _ hauth).trans
           (SetEncryption_pluginChannels E _ w))

theorem handlePacket_Capped (E : Env) (packet : Packet) (w : World) (r : Handled)
    (h : Capped w.session) (hr : handlePacket E packet w = some r) : Capped r.1.session := by
  unfold Capped at h ⊢
  unfold handlePacket at hr
  split at hr
  · rw [handleDisconnected_pluginChannels E packet w r hr]; exact h
  · rw [handleStatus_pluginChannels E packet w r hr]; exact h
  · rw [handleStatusPing_pluginChannels E packet w r hr]; exact h
  · rw [handleLogin_pluginChannels E packet w r hr]; exact h
  · rw [handleLoginEncrypt_pluginChannels E packet w r hr]; exact h
  · cases hr; exact h
  · rw [handleConnected_eq] at hr
    split_ifs at hr
    · cases hr; exact h
    · rw [(forward_pluginChannels E _ _ _ hr).1]
      exact Capped_bookkeeping packet w.session h

theorem handleSequence_Capped (E : Env) (packets : List Packet) (w : World)
    (h : Capped w.session) : ∀ w' ∈ handleSequence E packets w, Capped w'.session := by
  induction packets generalizing w with
  | nil => intro w' hw'; simp [handleSequence] at hw'
  | cons packet rest ih =>
    intro w' hw'
    simp only [handleSequence] at hw'
    split at hw'
    · simp at hw'
    · rename_i r heq
      rw [List.mem_cons] at hw'
      rcases hw' with rfl | hw'
      · exact handlePacket_Capped E packet w r h heq
      · exact ih r.1 (handlePacket_Capped E packet w r h heq) w' hw'

theorem handleSequence_connected (E : Env) (packets : List Packet) (w : World)
    (hs : w.session.state = STATE_CONNECTED)
    (hb : w.session.outBridge ≠ none) :
    (handleSequence E packets w).length = packets.length ∧
    ∀ w' ∈ handleSequence E packets w, w'.session.state = STATE_CONNECTED := by
  induction packets generalizing w with
  | nil => simp [handleSequence]
  | cons packet rest ih =>
    have step : ∃ w1, handlePacket E packet w = some (w1, none) ∧
        w1.session.state = STATE_CONNECTED ∧ w1.session.outBridge ≠ none := by
      rw [handlePacket_connected E packet w hs]
      split_ifs
      · exact ⟨w, rfl, hs, hb⟩
      · have hbk := bookkeeping_outBridge packet w.session
        obtain ⟨w1, hw1⟩ := forward_returns E packet
          { w with session := bookkeeping packet w.session }
          (Or.inr (by simpa [hbk.1] using hb))
        obtain ⟨_, _, _, h4, _, h6, _⟩ := forward_pluginChannels E _ _ _ hw1
        exact ⟨w1, hw1, by rw [h4]; exact hbk.2.2.1.trans hs,
          h6 (by simpa [hbk.1] using hb)⟩
    obtain ⟨w1, h1, h2, h3⟩ := step
    simp only [handleSequence, h1, List.length_cons, List.mem_cons]
    refine ⟨by rw [(ih w1 h2 h3).1], ?_⟩
    rintro w' (rfl | hw')
    · exact h2
    · exact (ih w1 h2 h3).2 w' hw'

/-- C19: a sequence of packets handled one after the other, started on a
session whose plugin-channel set is a set of at most 128 names (the empty set
of a new session, which is still its set when it reaches Connected, is one):
after every packet, the plugin-channel set is again a set of at most 128
names. Started in Connected on a session with an out bridge, every packet of
the sequence is handled (no run-time panic) and the session stays in
Connected. -/
theorem C19_plugin_channels_capped (E : Env) (packets : List Packet) (w : World)
    (hnd : w.session.pluginChannels.Nodup) (hlen : w.session.pluginChannels.length ≤ 128) :
    (∀ w' ∈ handleSequence E packets w,
      w'.session.pluginChannels.Nodup ∧ w'.session.pluginChannels.length ≤ 128 ∧
      w'.session.pluginChannels.toFinset.card ≤ 128) ∧
    (w.session.state = STATE_CONNECTED → w.session.outBridge ≠ none →
      (handleSequence E packets w).length = packets.length ∧
      ∀ w' ∈ handleSequence E packets w, w'.session.state = STATE_CONNECTED) := by
  refine ⟨?_, fun hs hb => handleSequence_connected E packets w hs hb⟩
  intro w' hw'
  obtain ⟨h1, h2⟩ := handleSequence_Capped E packets w ⟨hnd, hlen⟩ w' hw'
  exact ⟨h1, h2, le_trans (List.toFinset_card_le _) h2⟩

/-- C19, instance: the sample sequence of packets handled by the sample
session in Connected, from its empty plugin-channel set: all six packets are
handled, and after each of them the set holds at most 128 names. -/
theorem C19_plugin_channels_capped_witness :
    (NewSession 1 "192.0.2.7" "50000").pluginChannels = [] ∧
    sampleConnectedWorld.session.pluginChannels = [] ∧
    (∀ w' ∈ handleSequence sampleEnv samplePackets sampleConnectedWorld,
      w'.session.pluginChannels.Nodup ∧ w'.session.pluginChannels.length ≤ 128 ∧
      w'.session.pluginChannels.toFinset.card ≤ 128) ∧
    (handleSequence sampleEnv samplePackets sampleConnectedWorld).length = 6 :=
  ⟨rfl, by decide,
    (C19_plugin_channels_capped sampleEnv samplePackets sampleConnectedWorld (by decide)
      (by decide)).1,
    ((C19_plugin_channels_capped sampleEnv samplePackets sampleConnectedWorld (by decide)
      (by decide)).2 (by decide) (by decide)).1⟩

/-- C20: a packet handled in Connected with `redirecting` false, on a session
with an out bridge. When the packet is a REGISTER plugin message that the cap
check refuses (its NUL-split batch has 128 or more entries, or 128 or more
plugin channels are installed), `handlePacket` returns no error and leaves
the world as it was: the out bridge has received nothing. In every other
case, ClientSettings, UNREGISTER, MC|Brand and accepted REGISTER messages
included, `handlePacket` returns no error and the out bridge has received
exactly one more packet, after those it had: the packet itself, or, for a
generic packet, the packet with its entity ids rewritten by `SwapEntities`;
the rest of the world is the one before with the bookkeeping of the packet
stored on the session. -/
theorem C20_forward_once (E : Env) (packet : Packet) (w : World) (b : SessionOutBridge)
    (hs : w.session.state = STATE_CONNECTED) (hr : w.session.redirecting = false)
    (hb : w.session.outBridge = some b) :
    (refusedRegister w.session packet = true ↔
      ∃ Data, packet = Packet.PacketServerPluginMessage "REGISTER" Data ∧
        ((Split 0 Data).length ≥ 128 ∨ w.session.pluginChannels.length ≥ 128)) ∧
    (refusedRegister w.session packet = true → handlePacket E packet w = some (w, none)) ∧
    (refusedRegister w.session packet = false →
      ∃ w', handlePacket E packet w = some (w', none) ∧
        w'.session.outBridge =
          some { b with written := b.written ++ [forwarded E w.session packet] } ∧
        w' = { w with session := { bookkeeping packet w.session with
          outBridge := some { b with written := b.written ++ [forwarded E w.session packet] } } }) ∧
    ((∀ id payload, packet ≠ Packet.PacketGeneric id payload) →
      forwarded E w.session packet = packet) ∧
    (∀ id payload, packet = Packet.PacketGeneric id payload →
      forwarded E w.session packet = Packet.PacketGeneric id
        (E.SwapEntities w.session.clientEntityId w.session.serverEntityId false id payload)) := by
  refine ⟨refusedRegister_iff _ _, ?_, ?_, ?_, ?_⟩
  · intro href
    rw [handlePacket_connected E packet w hs]
    simp only [href, if_true]
  · intro href
    rw [handlePacket_connected E packet w hs]
    simp only [href, Bool.false_eq_true, if_false]
    have hbk := bookkeeping_outBridge packet w.session
    rw [forward_bridge E packet _ b (by rw [hbk.2.1]; exact hr) (by rw [hbk.1]; exact hb)]
    have hfw : forwarded E (bookkeeping packet w.session) packet =
        forwarded E w.session packet := by
      unfold forwarded
      cases packet <;> simp only [hbk.2.2.2.1, hbk.2.2.2.2]
    simp only [hfw]
    exact ⟨_, rfl, rfl, rfl⟩
  · intro hng
    unfold forwarded
    cases packet <;> first | rfl | exact absurd rfl (hng _ _)
  · rintro id payload rfl
    rfl

/-- C20, instance: the sample session in Connected forwards a ClientSettings
packet, which its out bridge receives as its first packet, and does not
forward the REGISTER batch of the 200 sample names. -/
theorem C20_forward_once_witness :
    sampleConnectedWorld.session.state = STATE_CONNECTED ∧
    sampleConnectedWorld.session.redirecting = false ∧
    sampleConnectedWorld.session.outBridge = some ⟨⟨"lobby", "10.0.0.2:25566"⟩, []⟩ ∧
    (∃ w', handlePacket sampleEnv (Packet.PacketServerClientSettings [1, 2, 3])
        sampleConnectedWorld = some (w', none) ∧
      w'.session.outBridge = some ⟨⟨"lobby", "10.0.0.2:25566"⟩,
        [Packet.PacketServerClientSettings [1, 2, 3]]⟩) ∧
    handlePacket sampleEnv (Packet.PacketServerPluginMessage "REGISTER" (joinNul sampleNames))
      sampleConnectedWorld = some (sampleConnectedWorld, none) := by
  have h := C20_forward_once sampleEnv (Packet.PacketServerClientSettings [1, 2, 3])
    sampleConnectedWorld ⟨⟨"lobby", "10.0.0.2:25566"⟩, []⟩ (by decide) (by decide) (by decide)
  have h' := C20_forward_once sampleEnv
    (Packet.PacketServerPluginMessage "REGISTER" (joinNul sampleNames))
    sampleConnectedWorld ⟨⟨"lobby", "10.0.0.2:25566"⟩, []⟩ (by decide) (by decide) (by decide)
  obtain ⟨w', h1, h2, _⟩ := h.2.2.1 (by decide)
  refine ⟨by decide, by decide, by decide, ⟨w', h1, h2⟩, h'.2.1 ?_⟩
  rw [h'.1]
  refine ⟨_, rfl, Or.inl ?_⟩
  rw [Split_joinNul sampleNames (by simp [sampleNames]) sampleNames_nul_free]
  simp [sampleNames]

end GoLilyPad
